import Mathlib

/-!
# Sydor MM-PAD client/server interface layer

A shallow embedding of the message envelope (`st_message.h`), the frame header and the
frame buffer (`st_framebuffer.h`), the rounding helpers (`stutil_misc.h`), the cached
parameter values, value conversions and array references (`st_parameter.h`), the double
buffer (`st_doublebuf.h`), the client interface (`st_client_interface.h`), the thread safe
queue (`stutil_queue.hpp`), the alias definitions (`st_alias.h`, `st_datastore.h`) and the
constants they use (`st_errors.h`, `st_if_defs.h`), followed by the properties established
for them.

Conventions of the embedding:

* C++ unsigned integers are `Nat`, reduced modulo `2 ^ w` wherever the C++ arithmetic wraps;
  `int32_t` result codes are `Int`.
* A member function becomes a function from the object before the call to the object after
  the call, paired with the out-parameters and the returned code.
* An exception thrown by the JSON library becomes an `Except` error, and a `try`/`catch`
  block becomes a `match` on it.
* Logging (`LOGERROR`, `LOGWRITE`) has no effect on the modelled state and is left out.
* A member function that the headers only declare is either a parameter of the functions
  that call it, or, where a property is about the function itself, a definition whose
  comment begins with "Modelled from the spec".
-/

namespace SydorMMPad

/-! ## Result codes (`st_errors.h`) -/

/-- Highest recognized system error. -/
def ST_MAX_SYS_ERR : Int := 9999
/-- Start of error codes. -/
def ST_ERR_BASE : Int := -10000
/-- End of error codes. -/
def ST_ERR_END : Int := -19999
/-- Start of status codes (not errors). -/
def ST_STATUS_BASE : Int := -20000
/-- End of status codes. -/
def ST_STATUS_END : Int := -29999
/-- Add -errno to system error base. -/
def ST_ERR_SYSTEM : Int := -100000
/-- Invalid error code. -/
def ST_ERR_INVALID : Int := -999999
/-- No error. -/
def ST_ERR_OK : Int := 0
/-- Unknown system error. -/
def ST_ERR_UNKNOWN : Int := ST_ERR_BASE - 0
/-- Generic Failure. -/
def ST_ERR_FAIL : Int := ST_ERR_BASE - 1
/-- Timeout. -/
def ST_ERR_TIMEOUT : Int := ST_ERR_BASE - 2
/-- Resource is busy. -/
def ST_ERR_BUSY : Int := ST_ERR_BASE - 3
/-- Null Pointer. -/
def ST_ERR_NULL_PTR : Int := ST_ERR_BASE - 4
/-- Invalid Option. -/
def ST_ERR_OPTION : Int := ST_ERR_BASE - 12
/-- Invalid state. -/
def ST_ERR_STATE : Int := ST_ERR_BASE - 13
/-- Data miscompare. -/
def ST_ERR_COMPARE : Int := ST_ERR_BASE - 15
/-- Channel group not initialized. -/
def ST_ERR_INITIALIZE : Int := ST_ERR_BASE - 17
/-- Function not implemented. -/
def ST_ERR_NOT_IMPL : Int := ST_ERR_BASE - 20
/-- Memory allocation failed. -/
def ST_ERR_ALLOC : Int := ST_ERR_BASE - 50
/-- Unable to create thread. -/
def ST_ERR_THREAD_CREATE : Int := ST_ERR_BASE - 60
/-- Unable to start thread. -/
def ST_ERR_THREAD_START : Int := ST_ERR_BASE - 61
/-- Unable to stop thread. -/
def ST_ERR_THREAD_STOP : Int := ST_ERR_BASE - 62
/-- Thread stop is pending. -/
def ST_ERR_THREAD_STOPPING : Int := ST_ERR_BASE - 63
/-- Thread is not running. -/
def ST_ERR_THREAD_STOPPED : Int := ST_ERR_BASE - 64
/-- Thread loop did not start. -/
def ST_ERR_THREAD_LOOP_START : Int := ST_ERR_BASE - 65
/-- Library is not open. -/
def ST_ERR_LIB_NOT_OPEN : Int := ST_ERR_BASE - 100
/-- Library is already open. -/
def ST_ERR_LIB_OPEN : Int := ST_ERR_BASE - 101
/-- Invalid handle. -/
def ST_ERR_HANDLE : Int := ST_ERR_BASE - 102
/-- Unable to open connection to server. -/
def ST_ERR_SVR_OPEN_FAIL : Int := ST_ERR_BASE - 103
/-- Server connection is not open. -/
def ST_ERR_SVR_NOT_OPEN : Int := ST_ERR_BASE - 104
/-- Server connection already open. -/
def ST_ERR_SVR_OPEN : Int := ST_ERR_BASE - 105
/-- Unknown client message command. -/
def ST_ERR_MSG_CMD : Int := ST_ERR_BASE - 106
/-- Invalid message format. -/
def ST_ERR_MSG_FORMAT : Int := ST_ERR_BASE - 107
/-- Return the generated response. -/
def ST_ERR_MSG_RESP_OK : Int := ST_ERR_BASE - 108
/-- Requested data is not available. -/
def ST_ERR_NOT_AVAILABLE : Int := ST_ERR_BASE - 109
/-- Requested message parameter not found. -/
def ST_ERR_MSG_NOT_FOUND : Int := ST_ERR_BASE - 110
/-- Client does not hold required privilege. -/
def ST_ERR_MSG_PRIVILEGE : Int := ST_ERR_BASE - 111
/-- Incorrect message response format. -/
def ST_ERR_RESP_FORMAT : Int := ST_ERR_BASE - 112
/-- Incorrect message response command. -/
def ST_ERR_RESP_CMD : Int := ST_ERR_BASE - 113
/-- Message is not valid. -/
def ST_ERR_MSG_INVALID : Int := ST_ERR_BASE - 114
/-- Message exceeds max length. -/
def ST_ERR_MSG_LENGTH : Int := ST_ERR_BASE - 115
/-- No server found. -/
def ST_ERR_NO_SERVER : Int := ST_ERR_BASE - 116
/-- Capture run is armed. -/
def ST_ERR_ARMED : Int := ST_ERR_BASE - 117
/-- Capture is not armed. -/
def ST_ERR_NOT_ARMED : Int := ST_ERR_BASE - 118
/-- Incorrect message response client handle. -/
def ST_ERR_RESP_CLIENT : Int := ST_ERR_BASE - 119
/-- Message client handle not found. -/
def ST_ERR_MSG_CLIENT : Int := ST_ERR_BASE - 120
/-- Timeout waiting for server response. -/
def ST_ERR_COMM_TIMEOUT : Int := ST_ERR_BASE - 121
/-- Invalid parameter. -/
def ST_ERR_PARAM : Int := ST_ERR_BASE - 200
/-- Invalid parameter #1. -/
def ST_ERR_PARAM1 : Int := ST_ERR_BASE - 201
/-- Invalid parameter #2. -/
def ST_ERR_PARAM2 : Int := ST_ERR_BASE - 202
/-- Invalid parameter #3. -/
def ST_ERR_PARAM3 : Int := ST_ERR_BASE - 203
/-- Invalid parameter #4. -/
def ST_ERR_PARAM4 : Int := ST_ERR_BASE - 204
/-- Invalid parameter #5. -/
def ST_ERR_PARAM5 : Int := ST_ERR_BASE - 205
/-- Invalid parameter #6. -/
def ST_ERR_PARAM6 : Int := ST_ERR_BASE - 206
/-- Invalid parameter #7. -/
def ST_ERR_PARAM7 : Int := ST_ERR_BASE - 207
/-- Invalid parameter #8. -/
def ST_ERR_PARAM8 : Int := ST_ERR_BASE - 208
/-- Invalid parameter #9. -/
def ST_ERR_PARAM9 : Int := ST_ERR_BASE - 209
/-- Invalid parameter count. -/
def ST_ERR_PARAM_COUNT : Int := ST_ERR_BASE - 210
/-- Invalid address. -/
def ST_ERR_ADDRESS : Int := ST_ERR_BASE - 211
/-- Invalid index. -/
def ST_ERR_INDEX : Int := ST_ERR_BASE - 212
/-- Invalid data length. -/
def ST_ERR_LENGTH : Int := ST_ERR_BASE - 213
/-- Invalid data value. -/
def ST_ERR_DATA : Int := ST_ERR_BASE - 214
/-- Invalid radix. -/
def ST_ERR_RADIX : Int := ST_ERR_BASE - 215
/-- Invalid iteration count. -/
def ST_ERR_ITERATIONS : Int := ST_ERR_BASE - 216
/-- Invalid count. -/
def ST_ERR_COUNT : Int := ST_ERR_BASE - 217
/-- Invalid frame number. -/
def ST_ERR_FRAME : Int := ST_ERR_BASE - 218
/-- Invalid frame count. -/
def ST_ERR_FRAME_COUNT : Int := ST_ERR_BASE - 219
/-- Invalid sample frame rate. -/
def ST_ERR_FRAME_RATE : Int := ST_ERR_BASE - 220
/-- Invalid number of frames per files. -/
def ST_ERR_FRAMES_PER_FILE : Int := ST_ERR_BASE - 221
/-- Invalid frame type. -/
def ST_ERR_FRAME_TYPE : Int := ST_ERR_BASE - 222
/-- Invalid data type. -/
def ST_ERR_DATA_TYPE : Int := ST_ERR_BASE - 223
/-- Parameter is not an array. -/
def ST_ERR_NOT_ARRAY : Int := ST_ERR_BASE - 224
/-- Invalid dimension. -/
def ST_ERR_DIMENSION : Int := ST_ERR_BASE - 225
/-- No image disk(s) found. -/
def ST_ERR_NO_DISK : Int := ST_ERR_BASE - 300
/-- Could not open or create directory. -/
def ST_ERR_DIR : Int := ST_ERR_BASE - 301
/-- Specified path is not a directory. -/
def ST_ERR_NOT_DIR : Int := ST_ERR_BASE - 302
/-- Specified path is a directory. -/
def ST_ERR_IS_DIR : Int := ST_ERR_BASE - 303
/-- Specified path is not a file. -/
def ST_ERR_NOT_FILE : Int := ST_ERR_BASE - 304
/-- Specified path is a file. -/
def ST_ERR_IS_FILE : Int := ST_ERR_BASE - 305
/-- Could not open file. -/
def ST_ERR_FILE_OPEN : Int := ST_ERR_BASE - 306
/-- Could not read file. -/
def ST_ERR_FILE_READ : Int := ST_ERR_BASE - 307
/-- Could not write file. -/
def ST_ERR_FILE_WRITE : Int := ST_ERR_BASE - 308
/-- Invalid file path. -/
def ST_ERR_FILE_PATH : Int := ST_ERR_BASE - 309
/-- Could not delete file. -/
def ST_ERR_FILE_DELETE : Int := ST_ERR_BASE - 310
/-- Cound not find specified file. -/
def ST_ERR_FILE_NOT_FOUND : Int := ST_ERR_BASE - 311
/-- Could not access input stream. -/
def ST_ERR_INPUT_STREAM : Int := ST_ERR_BASE - 312
/-- Could not access output stream. -/
def ST_ERR_OUTPUT_STREAM : Int := ST_ERR_BASE - 313
/-- Could not create symbolic link. -/
def ST_ERR_SYM_LINK : Int := ST_ERR_BASE - 314
/-- Could not seek in file. -/
def ST_ERR_FILE_SEEK : Int := ST_ERR_BASE - 315
/-- File name is empty. -/
def ST_ERR_NAME_EMPTY : Int := ST_ERR_BASE - 350
/-- File name is too long. -/
def ST_ERR_NAME_LENGTH : Int := ST_ERR_BASE - 351
/-- Invalid character in file name. -/
def ST_ERR_NAME_CHAR : Int := ST_ERR_BASE - 352
/-- File name ends in . -/
def ST_ERR_NAME_END_DOT : Int := ST_ERR_BASE - 353
/-- Non-printing char in file name. -/
def ST_ERR_NAME_NON_PRINT : Int := ST_ERR_BASE - 354
/-- Capture Set already exists. -/
def ST_ERR_SET_EXISTS : Int := ST_ERR_BASE - 355
/-- Capture Run already exists. -/
def ST_ERR_RUN_EXISTS : Int := ST_ERR_BASE - 356
/-- Capture Set not found. -/
def ST_ERR_SET_NOT_FOUND : Int := ST_ERR_BASE - 357
/-- Capture Run not found. -/
def ST_ERR_RUN_NOT_FOUND : Int := ST_ERR_BASE - 358
/-- Frame not found. -/
def ST_ERR_FRAME_NOT_FOUND : Int := ST_ERR_BASE - 359
/-- Run status metadata file not present. -/
def ST_ERR_NO_RUN_STATUS : Int := ST_ERR_BASE - 360
/-- Incorrect trigger mode. -/
def ST_ERR_TRIGGER_MODE : Int := ST_ERR_BASE - 361
/-- Incorrect trigger count. -/
def ST_ERR_TRIGGER_COUNT : Int := ST_ERR_BASE - 362
/-- Incorrect Frame size. -/
def ST_ERR_FRAME_SIZE : Int := ST_ERR_BASE - 363
/-- Incorrect frame structure. -/
def ST_ERR_FRAME_STRUCTURE : Int := ST_ERR_BASE - 364
/-- Invalid frame number. -/
def ST_ERR_FRAME_NUMBER : Int := ST_ERR_BASE - 365
/-- No frame buffers available, try later. -/
def ST_ERR_NO_FRAME_BUFFERS : Int := ST_ERR_BASE - 366
/-- Invalid subframe id. -/
def ST_ERR_SUBFRAME_ID : Int := ST_ERR_BASE - 367
/-- Invalid image size. -/
def ST_ERR_IMAGE_SIZE : Int := ST_ERR_BASE - 368
/-- Invalid frame parameters size. -/
def ST_ERR_FRAME_PARAMS_SIZE : Int := ST_ERR_BASE - 369
/-- Invalid telemetry size. -/
def ST_ERR_TELEMETRY_SIZE : Int := ST_ERR_BASE - 370
/-- Invalid set name. -/
def ST_ERR_SET_NAME : Int := ST_ERR_BASE - 371
/-- Invalid run name. -/
def ST_ERR_RUN_NAME : Int := ST_ERR_BASE - 372
/-- Run contains no background image. -/
def ST_ERR_NO_BACKGROUND : Int := ST_ERR_BASE - 373
/-- Run is in process. -/
def ST_ERR_RUN_ACTIVE : Int := ST_ERR_BASE - 374
/-- No run is in process. -/
def ST_ERR_RUN_NOT_ACTIVE : Int := ST_ERR_BASE - 375
/-- Invalid subframe number. -/
def ST_ERR_SUBFRAME_NUMBER : Int := ST_ERR_BASE - 376
/-- Invalid disk volume. -/
def ST_ERR_DISK_VOLUME : Int := ST_ERR_BASE - 377
/-- Error saving capture run status. -/
def ST_ERR_RUN_STATUS : Int := ST_ERR_BASE - 378
/-- Raw frame error - marker1. -/
def ST_ERR_FRAME_MARKER1 : Int := ST_ERR_BASE - 380
/-- Raw frame error - marker 2. -/
def ST_ERR_FRAME_MARKER2 : Int := ST_ERR_BASE - 381
/-- Raw frame error - timestamp. -/
def ST_ERR_FRAME_TIMESTAMP : Int := ST_ERR_BASE - 382
/-- Raw frame error - frame number. -/
def ST_ERR_FRAME_FRAMENUMBER : Int := ST_ERR_BASE - 383
/-- Invalid Keck image count. -/
def ST_ERR_IMAGE_COUNT : Int := ST_ERR_BASE - 384
/-- No Keck capacitors are selected. -/
def ST_ERR_CAP_COUNT : Int := ST_ERR_BASE - 385
/-- Device reference is undefined. -/
def ST_ERR_DEV_UNDEFINED : Int := ST_ERR_BASE - 400
/-- Unable to open device. -/
def ST_ERR_DEV_OPEN : Int := ST_ERR_BASE - 401
/-- Device is not open. -/
def ST_ERR_DEV_NOT_OPEN : Int := ST_ERR_BASE - 402
/-- Unable to read from device. -/
def ST_ERR_DEV_READ : Int := ST_ERR_BASE - 403
/-- Unable to write to device. -/
def ST_ERR_DEV_WRITE : Int := ST_ERR_BASE - 404
/-- Device is busy. -/
def ST_ERR_DEV_BUSY : Int := ST_ERR_BASE - 405
/-- Device DMA read failed. -/
def ST_ERR_DEV_DMA_FAIL : Int := ST_ERR_BASE - 406
/-- Attempt to write to read only register. -/
def ST_ERR_DEV_READ_ONLY : Int := ST_ERR_BASE - 407
/-- Attempt to read from write only register. -/
def ST_ERR_DEV_WRITE_ONLY : Int := ST_ERR_BASE - 408
/-- Device reports a NACK. -/
def ST_ERR_DEV_NACK : Int := ST_ERR_BASE - 409
/-- Device reports a NACK, with the errro bit invalid SOF. -/
def ST_ERR_DEV_NACK_SOF : Int := ST_ERR_BASE - 410
/-- No response from the sensor head. -/
def ST_ERR_DEV_NO_RESPONSE : Int := ST_ERR_BASE - 411
/-- Timeout waiting for SERDES alignment. -/
def ST_ERR_DEV_SERDES : Int := ST_ERR_BASE - 412
/-- Invalid Device Maintenance Command. -/
def ST_ERR_DEV_COMMAND : Int := ST_ERR_BASE - 413
/-- Timeout waiting for ACP reset to complete. -/
def ST_ERR_RESET_TIMEOUT : Int := ST_ERR_BASE - 414
/-- Read/Modify/Write operation not supported. -/
def ST_ERR_DEV_RMW : Int := ST_ERR_BASE - 415
/-- Too few host interface boards found. -/
def ST_ERR_DEV_COUNT : Int := ST_ERR_BASE - 416
/-- No DMA buffers defined. -/
def ST_ERR_DMA_BUF_COUNT : Int := ST_ERR_BASE - 417
/-- Sensor power is not enabled. -/
def ST_ERR_NO_POWER : Int := ST_ERR_BASE - 418
/-- Invalid PAD type. -/
def ST_ERR_PAD_TYPE : Int := ST_ERR_BASE - 450
/-- Invalid Quartus index. -/
def ST_ERR_QUARTUS_INDEX : Int := ST_ERR_BASE - 451
/-- Invalid Quartus count. -/
def ST_ERR_QUARTUS_COUNT : Int := ST_ERR_BASE - 452
/-- Unable to connect to Quartus. -/
def ST_ERR_QUARTUS_CONNECTION : Int := ST_ERR_BASE - 453
/-- Cannot connect to Quartus 0. -/
def ST_ERR_QUARTUS_0 : Int := ST_ERR_BASE - 460
/-- Cannot connect to Quartus 1. -/
def ST_ERR_QUARTUS_1 : Int := ST_ERR_BASE - 461
/-- Cannot connect to Quartus 2. -/
def ST_ERR_QUARTUS_2 : Int := ST_ERR_BASE - 462
/-- Cannot connect to Quartus 3. -/
def ST_ERR_QUARTUS_3 : Int := ST_ERR_BASE - 463
/-- No quarti are defined. -/
def ST_ERR_NO_QUARTII : Int := ST_ERR_BASE - 464
/-- No host interface found. -/
def ST_ERR_NO_HOSTIF : Int := ST_ERR_BASE - 465
/-- No transceiver connected. -/
def ST_ERR_ACP_NO_XCVR : Int := ST_ERR_BASE - 480
/-- Sensor head is not connected. -/
def ST_ERR_ACP_NO_CONNECTION : Int := ST_ERR_BASE - 481
/-- ACP interface lost a packet. -/
def ST_ERR_ACP_LOST_PACKET : Int := ST_ERR_BASE - 482
/-- ACP data receive fifo overflow. -/
def ST_ERR_ACP_DATA_RX_OVER : Int := ST_ERR_BASE - 483
/-- ACP data transmit fifo overflow. -/
def ST_ERR_ACP_DATA_TX_OVER : Int := ST_ERR_BASE - 484
/-- ACP image receive fifo overflow. -/
def ST_ERR_ACP_IMAGE_RX_OVER : Int := ST_ERR_BASE - 485
/-- ACP image transmit fifo overflow. -/
def ST_ERR_ACP_IMAGE_TX_OVER : Int := ST_ERR_BASE - 486
/-- ACP status register error. -/
def ST_ERR_ACP_STATUS_ERROR : Int := ST_ERR_BASE - 487
/-- Invalid ACP Checksum. -/
def ST_ERR_ACP_CHECKSUM : Int := ST_ERR_BASE - 488
/-- Invalid ACP Ack/Nack. -/
def ST_ERR_ACP_ACK_NACK : Int := ST_ERR_BASE - 489
/-- Invalid config line parsing state. -/
def ST_ERR_CMD_STATE : Int := ST_ERR_BASE - 500
/-- Invalid character following quoted field. -/
def ST_ERR_CMD_CHAR : Int := ST_ERR_BASE - 501
/-- Comment start character at end of line. -/
def ST_ERR_CMD_COMMENT : Int := ST_ERR_BASE - 502
/-- Escape character at end of line. -/
def ST_ERR_CMD_ESCAPE : Int := ST_ERR_BASE - 503
/-- No closing quote found. -/
def ST_ERR_CMD_QUOTE : Int := ST_ERR_BASE - 504
/-- Invalid field delimiter. -/
def ST_ERR_CMD_DELIM : Int := ST_ERR_BASE - 505
/-- Invalid config file format. -/
def ST_ERR_CMD_FORMAT : Int := ST_ERR_BASE - 506
/-- Comma found in command line. -/
def ST_ERR_CMD_COMMA : Int := ST_ERR_BASE - 507
/-- Command interpreter - unknown command. -/
def ST_ERR_CMD_UNKNOWN : Int := ST_ERR_BASE - 600
/-- Command interpreter - blank line. -/
def ST_ERR_CMD_BLANK : Int := ST_ERR_BASE - 601
/-- Command interpreter - exit with OK. -/
def ST_ERR_CMD_EXIT_OK : Int := ST_ERR_BASE - 602
/-- Command interpreter - exit with FAIL. -/
def ST_ERR_CMD_EXIT_FAIL : Int := ST_ERR_BASE - 603
/-- Command interpreter nesting level exceeded. -/
def ST_ERR_CMD_LEVEL : Int := ST_ERR_BASE - 604
/-- Invalid command line. -/
def ST_ERR_CMD_LINE : Int := ST_ERR_BASE - 605
/-- Could not open data dictionary file. -/
def ST_ERR_DATA_FILE : Int := ST_ERR_BASE - 700
/-- Invalid data dictionary JSON file format. -/
def ST_ERR_DATA_JSON : Int := ST_ERR_BASE - 701
/-- Unknown parameter id. -/
def ST_ERR_DATA_UNKNOWN : Int := ST_ERR_BASE - 702
/-- Value is below low limit. -/
def ST_ERR_DATA_LOW : Int := ST_ERR_BASE - 703
/-- Value is above high limit. -/
def ST_ERR_DATA_HIGH : Int := ST_ERR_BASE - 704
/-- Value is invalid. -/
def ST_ERR_DATA_INVALID : Int := ST_ERR_BASE - 705
/-- Parameter is read-only. -/
def ST_ERR_DATA_RO : Int := ST_ERR_BASE - 706
/-- Parameter is write-only. -/
def ST_ERR_DATA_WO : Int := ST_ERR_BASE - 707
/-- Unable to access parameter raw value. -/
def ST_ERR_DATA_ACCESS : Int := ST_ERR_BASE - 708
/-- Invalid config data JSON file format. -/
def ST_ERR_CFG_JSON : Int := ST_ERR_BASE - 709
/-- Invalid server info JSON file format. -/
def ST_ERR_INFO_JSON : Int := ST_ERR_BASE - 710
/-- Alias cannot be modified or deleted. -/
def ST_ERR_ALIAS_PROTECTED : Int := ST_ERR_BASE - 711
/-- Data dictionary not compatible with RTSUP version. -/
def ST_ERR_DATA_RTSUP_VER : Int := ST_ERR_BASE - 712
/-- Data dictionary not compatible with HFPGA version. -/
def ST_ERR_DATA_HFPGA_VER : Int := ST_ERR_BASE - 713
/-- Data dictionary not compatible with SFPGA version. -/
def ST_ERR_DATA_SFPGA_VER : Int := ST_ERR_BASE - 714
/-- Unable to open named pipe. -/
def ST_ERR_PIPE_OPEN_FAIL : Int := ST_ERR_BASE - 800
/-- Named pipe already open. -/
def ST_ERR_PIPE_OPEN : Int := ST_ERR_BASE - 801
/-- Named pipe not open. -/
def ST_ERR_PIPE_NOT_OPEN : Int := ST_ERR_BASE - 802
/-- Invalid pipe name. -/
def ST_ERR_PIPE_NAME : Int := ST_ERR_BASE - 803
/-- Data length exceeds maximum. -/
def ST_ERR_PIPE_DATA_LEN : Int := ST_ERR_BASE - 804
/-- Incomplete write to pipe. -/
def ST_ERR_PIPE_WRITE : Int := ST_ERR_BASE - 805
/-- Incomplete read from pipe. -/
def ST_ERR_PIPE_READ : Int := ST_ERR_BASE - 806
/-- Invalid value read from pipe. -/
def ST_ERR_PIPE_VALUE : Int := ST_ERR_BASE - 807
/-- Scripting not supported in windows. -/
def ST_ERR_SCRIPT_WIN : Int := ST_ERR_BASE - 808
/-- Run is armed. -/
def ST_RUN_STATUS_ARMED : Int := ST_STATUS_BASE - 1
/-- Run has no termination criteria. -/
def ST_RUN_STATUS_NONSTOP : Int := ST_STATUS_BASE - 2
/-- Run terminated by stopRun command. -/
def ST_RUN_STATUS_STOPPED : Int := ST_STATUS_BASE - 3
/-- Run terminated by max frame count. -/
def ST_RUN_STATUS_MAX_FRAME_COUNT : Int := ST_STATUS_BASE - 4
/-- Run terminated by max run time. -/
def ST_RUN_STATUS_MAX_RUN_TIME : Int := ST_STATUS_BASE - 5
/-- Run waiting for frames. -/
def ST_RUN_STATUS_WAITING : Int := ST_STATUS_BASE - 6
/-- Run terminated by DMA error. -/
def ST_RUN_STATUS_DMA_ERROR : Int := ST_STATUS_BASE - 7
/-- Run terminated because disk is full. -/
def ST_RUN_STATUS_DISK_FULL : Int := ST_STATUS_BASE - 8
/-- Run terminated due to frame format error. -/
def ST_RUN_STATUS_FRAME_ERROR : Int := ST_STATUS_BASE - 9
/-- Run completion status is unknown;. -/
def ST_RUN_STATUS_UNKNOWN : Int := ST_STATUS_BASE - 99
/-- Request program exit. -/
def ST_STATUS_EXIT_OK : Int := ST_STATUS_BASE - 100

/-- The named error constants of `st_errors.h`, in declaration order: every `ST_ERR_*`
constant except `ST_ERR_OK` and the range markers `ST_ERR_BASE`, `ST_ERR_END` and
`ST_ERR_SYSTEM`. -/
def namedErrorConstants : List Int :=
  [ST_ERR_INVALID, ST_ERR_UNKNOWN, ST_ERR_FAIL, ST_ERR_TIMEOUT, ST_ERR_BUSY, ST_ERR_NULL_PTR,
   ST_ERR_OPTION, ST_ERR_STATE, ST_ERR_COMPARE, ST_ERR_INITIALIZE, ST_ERR_NOT_IMPL,
   ST_ERR_ALLOC, ST_ERR_THREAD_CREATE, ST_ERR_THREAD_START, ST_ERR_THREAD_STOP,
   ST_ERR_THREAD_STOPPING, ST_ERR_THREAD_STOPPED, ST_ERR_THREAD_LOOP_START,
   ST_ERR_LIB_NOT_OPEN, ST_ERR_LIB_OPEN, ST_ERR_HANDLE, ST_ERR_SVR_OPEN_FAIL,
   ST_ERR_SVR_NOT_OPEN, ST_ERR_SVR_OPEN, ST_ERR_MSG_CMD, ST_ERR_MSG_FORMAT, ST_ERR_MSG_RESP_OK,
   ST_ERR_NOT_AVAILABLE, ST_ERR_MSG_NOT_FOUND, ST_ERR_MSG_PRIVILEGE, ST_ERR_RESP_FORMAT,
   ST_ERR_RESP_CMD, ST_ERR_MSG_INVALID, ST_ERR_MSG_LENGTH, ST_ERR_NO_SERVER, ST_ERR_ARMED,
   ST_ERR_NOT_ARMED, ST_ERR_RESP_CLIENT, ST_ERR_MSG_CLIENT, ST_ERR_COMM_TIMEOUT, ST_ERR_PARAM,
   ST_ERR_PARAM1, ST_ERR_PARAM2, ST_ERR_PARAM3, ST_ERR_PARAM4, ST_ERR_PARAM5, ST_ERR_PARAM6,
   ST_ERR_PARAM7, ST_ERR_PARAM8, ST_ERR_PARAM9, ST_ERR_PARAM_COUNT, ST_ERR_ADDRESS,
   ST_ERR_INDEX, ST_ERR_LENGTH, ST_ERR_DATA, ST_ERR_RADIX, ST_ERR_ITERATIONS, ST_ERR_COUNT,
   ST_ERR_FRAME, ST_ERR_FRAME_COUNT, ST_ERR_FRAME_RATE, ST_ERR_FRAMES_PER_FILE,
   ST_ERR_FRAME_TYPE, ST_ERR_DATA_TYPE, ST_ERR_NOT_ARRAY, ST_ERR_DIMENSION, ST_ERR_NO_DISK,
   ST_ERR_DIR, ST_ERR_NOT_DIR, ST_ERR_IS_DIR, ST_ERR_NOT_FILE, ST_ERR_IS_FILE,
   ST_ERR_FILE_OPEN, ST_ERR_FILE_READ, ST_ERR_FILE_WRITE, ST_ERR_FILE_PATH, ST_ERR_FILE_DELETE,
   ST_ERR_FILE_NOT_FOUND, ST_ERR_INPUT_STREAM, ST_ERR_OUTPUT_STREAM, ST_ERR_SYM_LINK,
   ST_ERR_FILE_SEEK, ST_ERR_NAME_EMPTY, ST_ERR_NAME_LENGTH, ST_ERR_NAME_CHAR,
   ST_ERR_NAME_END_DOT, ST_ERR_NAME_NON_PRINT, ST_ERR_SET_EXISTS, ST_ERR_RUN_EXISTS,
   ST_ERR_SET_NOT_FOUND, ST_ERR_RUN_NOT_FOUND, ST_ERR_FRAME_NOT_FOUND, ST_ERR_NO_RUN_STATUS,
   ST_ERR_TRIGGER_MODE, ST_ERR_TRIGGER_COUNT, ST_ERR_FRAME_SIZE, ST_ERR_FRAME_STRUCTURE,
   ST_ERR_FRAME_NUMBER, ST_ERR_NO_FRAME_BUFFERS, ST_ERR_SUBFRAME_ID, ST_ERR_IMAGE_SIZE,
   ST_ERR_FRAME_PARAMS_SIZE, ST_ERR_TELEMETRY_SIZE, ST_ERR_SET_NAME, ST_ERR_RUN_NAME,
   ST_ERR_NO_BACKGROUND, ST_ERR_RUN_ACTIVE, ST_ERR_RUN_NOT_ACTIVE, ST_ERR_SUBFRAME_NUMBER,
   ST_ERR_DISK_VOLUME, ST_ERR_RUN_STATUS, ST_ERR_FRAME_MARKER1, ST_ERR_FRAME_MARKER2,
   ST_ERR_FRAME_TIMESTAMP, ST_ERR_FRAME_FRAMENUMBER, ST_ERR_IMAGE_COUNT, ST_ERR_CAP_COUNT,
   ST_ERR_DEV_UNDEFINED, ST_ERR_DEV_OPEN, ST_ERR_DEV_NOT_OPEN, ST_ERR_DEV_READ,
   ST_ERR_DEV_WRITE, ST_ERR_DEV_BUSY, ST_ERR_DEV_DMA_FAIL, ST_ERR_DEV_READ_ONLY,
   ST_ERR_DEV_WRITE_ONLY, ST_ERR_DEV_NACK, ST_ERR_DEV_NACK_SOF, ST_ERR_DEV_NO_RESPONSE,
   ST_ERR_DEV_SERDES, ST_ERR_DEV_COMMAND, ST_ERR_RESET_TIMEOUT, ST_ERR_DEV_RMW,
   ST_ERR_DEV_COUNT, ST_ERR_DMA_BUF_COUNT, ST_ERR_NO_POWER, ST_ERR_PAD_TYPE,
   ST_ERR_QUARTUS_INDEX, ST_ERR_QUARTUS_COUNT, ST_ERR_QUARTUS_CONNECTION, ST_ERR_QUARTUS_0,
   ST_ERR_QUARTUS_1, ST_ERR_QUARTUS_2, ST_ERR_QUARTUS_3, ST_ERR_NO_QUARTII, ST_ERR_NO_HOSTIF,
   ST_ERR_ACP_NO_XCVR, ST_ERR_ACP_NO_CONNECTION, ST_ERR_ACP_LOST_PACKET,
   ST_ERR_ACP_DATA_RX_OVER, ST_ERR_ACP_DATA_TX_OVER, ST_ERR_ACP_IMAGE_RX_OVER,
   ST_ERR_ACP_IMAGE_TX_OVER, ST_ERR_ACP_STATUS_ERROR, ST_ERR_ACP_CHECKSUM, ST_ERR_ACP_ACK_NACK,
   ST_ERR_CMD_STATE, ST_ERR_CMD_CHAR, ST_ERR_CMD_COMMENT, ST_ERR_CMD_ESCAPE, ST_ERR_CMD_QUOTE,
   ST_ERR_CMD_DELIM, ST_ERR_CMD_FORMAT, ST_ERR_CMD_COMMA, ST_ERR_CMD_UNKNOWN, ST_ERR_CMD_BLANK,
   ST_ERR_CMD_EXIT_OK, ST_ERR_CMD_EXIT_FAIL, ST_ERR_CMD_LEVEL, ST_ERR_CMD_LINE,
   ST_ERR_DATA_FILE, ST_ERR_DATA_JSON, ST_ERR_DATA_UNKNOWN, ST_ERR_DATA_LOW, ST_ERR_DATA_HIGH,
   ST_ERR_DATA_INVALID, ST_ERR_DATA_RO, ST_ERR_DATA_WO, ST_ERR_DATA_ACCESS, ST_ERR_CFG_JSON,
   ST_ERR_INFO_JSON, ST_ERR_ALIAS_PROTECTED, ST_ERR_DATA_RTSUP_VER, ST_ERR_DATA_HFPGA_VER,
   ST_ERR_DATA_SFPGA_VER, ST_ERR_PIPE_OPEN_FAIL, ST_ERR_PIPE_OPEN, ST_ERR_PIPE_NOT_OPEN,
   ST_ERR_PIPE_NAME, ST_ERR_PIPE_DATA_LEN, ST_ERR_PIPE_WRITE, ST_ERR_PIPE_READ,
   ST_ERR_PIPE_VALUE, ST_ERR_SCRIPT_WIN]

/-- The named status constants of `st_errors.h`, in declaration order: the `ST_RUN_STATUS_*`
constants and `ST_STATUS_EXIT_OK`. -/
def namedStatusConstants : List Int :=
  [ST_RUN_STATUS_ARMED, ST_RUN_STATUS_NONSTOP, ST_RUN_STATUS_STOPPED,
   ST_RUN_STATUS_MAX_FRAME_COUNT, ST_RUN_STATUS_MAX_RUN_TIME, ST_RUN_STATUS_WAITING,
   ST_RUN_STATUS_DMA_ERROR, ST_RUN_STATUS_DISK_FULL, ST_RUN_STATUS_FRAME_ERROR,
   ST_RUN_STATUS_UNKNOWN, ST_STATUS_EXIT_OK]

/-! ## Classification of result codes (`stutil_error.h`) -/

/-- `STUTIL::isStatusCode(code)`: true if a code is a status code. -/
def isStatusCode (code : Int) : Bool :=
  decide (code < ST_STATUS_BASE) && decide (code ≥ ST_STATUS_END)

/-- `STUTIL::isErrorCode(code)`: true if a code is an error code. -/
def isErrorCode (code : Int) : Bool :=
  (decide (code < 0) && decide (code > ST_ERR_END)) ||
    decide (code ≤ ST_ERR_SYSTEM)

/-- `STUTIL::isNativeErrorCode(code)`: true if a code is a native error code. -/
def isNativeErrorCode (code : Int) : Bool :=
  decide (code < ST_ERR_BASE) && decide (code ≥ ST_ERR_END)

/-! ## The JSON document type used by `StMessage`

`st_message.h` stores both documents as `nlohmann::json` values
(`#include "nlohmann_json.hpp"`).  That header is a third-party library and is not among
the sources; the definitions of this section model the part of its documented behaviour
that the accessors of `StMessage` rely on.
-/

/-- Modelled from the spec: the "named-field document tree" of the envelope, a
`nlohmann::json` value, whose header `nlohmann_json.hpp` is missing from the sources.
One constructor per value type of the library that an accessor can store or meet:
`null`, `boolean`, `number_integer` (signed), `number_unsigned`, `string`, `array`,
`object`.  An object is a `std::map`, kept here as a list of fields in key order.
Floating point numbers (`number_float`) are not represented. -/
inductive Json where
  | null
  | boolean (b : Bool)
  | number_integer (i : Int)
  | number_unsigned (n : Nat)
  | string (s : String)
  | array (elems : List Json)
  | object (fields : List (String × Json))
  deriving Repr, Inhabited

/-- Modelled from the spec: the exceptions of `nlohmann::json` (`json::exception`
subclasses) that the modelled operations can throw, with the library's exception id. -/
inductive JsonException where
  | type_error (id : Nat)
  | out_of_range (id : Nat)
  deriving Repr, DecidableEq

namespace Json

/-- Modelled from the spec: `std::map::find` on the fields of an object; `none` stands
for the `end()` iterator. -/
def objFind (key : String) : List (String × Json) → Option Json
  | [] => none
  | (k, v) :: rest => if k = key then some v else objFind key rest

/-- Modelled from the spec: `std::map::operator[]` followed by assignment of `v`: the
field `key` is replaced when present and inserted at its place in key order otherwise
(keys compare character by character, as `std::string` does). -/
def objAssign (key : String) (v : Json) : List (String × Json) → List (String × Json)
  | [] => [(key, v)]
  | (k, old) :: rest =>
    if key.data < k.data then (key, v) :: (k, old) :: rest
    else if k = key then (k, v) :: rest
    else (k, old) :: objAssign key v rest

/-- Modelled from the spec: `json::find(key)`.  On an object it searches the fields; on
every other value type it returns `end()` (here `none`). -/
def find (j : Json) (key : String) : Option Json :=
  match j with
  | object fields => objFind key fields
  | _ => none

/-- Modelled from the spec: `json::at(key)`, named `atKey` because `at` is reserved.  On an
object it returns the field or throws `out_of_range` 403; on every other value type it
throws `type_error` 304. -/
def atKey (j : Json) (key : String) : Except JsonException Json :=
  match j with
  | object fields =>
    match objFind key fields with
    | some v => .ok v
    | none => .error (.out_of_range 403)
  | _ => .error (.type_error 304)

/-- Modelled from the spec: the statement `j[key] = v` (`json::operator[]` with a string
key, then assignment).  A `null` document first becomes an empty object; on an object the
field is inserted or replaced; on every other value type `operator[]` throws
`type_error` 305 and the document is not touched. -/
def assignKey (j : Json) (key : String) (v : Json) : Except JsonException Json :=
  match j with
  | null => .ok (object (objAssign key v []))
  | object fields => .ok (object (objAssign key v fields))
  | _ => .error (.type_error 305)

/-- Modelled from the spec: the statement `a[idx] = v` on the elements of an array
(`json::operator[]` with a numeric index, then assignment): when `idx` is past the end
the array is first filled with `null` up to and including `idx`. -/
def arrAssign (elems : List Json) (idx : Nat) (v : Json) : List Json :=
  if idx < elems.length then elems.set idx v
  else elems ++ List.replicate (idx - elems.length) null ++ [v]

/-- Modelled from the spec: `json::is_array()`. -/
def is_array : Json → Bool
  | array _ => true
  | _ => false

/-- Modelled from the spec: `json::is_null()`. -/
def is_null : Json → Bool
  | null => true
  | _ => false

/-- Modelled from the spec: `json::is_object()`. -/
def is_object : Json → Bool
  | object _ => true
  | _ => false

end Json

/-- The conversions of `nlohmann::json` for one C++ type `T`, as used by a template
instantiation of an accessor: `to_json` is the encode step of `json = value`, `from_json`
the decode step of `get_to` / `get<T>`, which throws when the value type does not fit. -/
structure JsonType (T : Type) where
  to_json : T → Json
  from_json : Json → Except JsonException T

/-- Modelled from the spec: conversions of `nlohmann::json` for `uint32_t`.  Encoding gives
`number_unsigned`; decoding accepts the numeric value types and `boolean` with a
`static_cast`, and throws `type_error` 302 otherwise. -/
def uint32_t : JsonType Nat where
  to_json := fun v => Json.number_unsigned v
  from_json := fun j =>
    match j with
    | .number_unsigned n => .ok (n % 2 ^ 32)
    | .number_integer i => .ok (i % 2 ^ 32).toNat
    | .boolean b => .ok (if b then 1 else 0)
    | _ => .error (.type_error 302)

/-- Modelled from the spec: conversions of `nlohmann::json` for `int32_t`.  Encoding gives
`number_integer`; decoding accepts the numeric value types and `boolean` with a
`static_cast` (two's complement wrap), and throws `type_error` 302 otherwise. -/
def int32_t : JsonType Int where
  to_json := fun v => Json.number_integer v
  from_json := fun j =>
    match j with
    | .number_unsigned n => .ok (((n : Int) + 2 ^ 31) % 2 ^ 32 - 2 ^ 31)
    | .number_integer i => .ok ((i + 2 ^ 31) % 2 ^ 32 - 2 ^ 31)
    | .boolean b => .ok (if b then 1 else 0)
    | _ => .error (.type_error 302)

/-- Modelled from the spec: conversions of `nlohmann::json` for `bool`: only a `boolean`
value decodes, everything else throws `type_error` 302. -/
def bool_t : JsonType Bool where
  to_json := fun v => Json.boolean v
  from_json := fun j =>
    match j with
    | .boolean b => .ok b
    | _ => .error (.type_error 302)

/-- Modelled from the spec: conversions of `nlohmann::json` for `std::string`: only a
`string` value decodes, everything else throws `type_error` 302. -/
def string_t : JsonType String where
  to_json := fun v => Json.string v
  from_json := fun j =>
    match j with
    | .string s => .ok s
    | _ => .error (.type_error 302)

/-! ## The message envelope (`st_message.h`) -/

/-- Client message command enumeration `MMMsgCmd`. -/
inductive MMMsgCmd where
  | MM_MSG_INVALID
  | MM_MSG_OPEN_SERVER
  | MM_MSG_CLOSE_SERVER
  | MM_MSG_HEART_BEAT
  | MM_MSG_ACQUIRE_TOKEN
  | MM_MSG_RELEASE_TOKEN
  | MM_MSG_START_CAPTURE_SET
  | MM_MSG_EDIT_CAPTURE_SET
  | MM_MSG_GET_PARAM
  | MM_MSG_SET_PARAM
  | MM_MSG_CALC_BACKGROUND
  | MM_MSG_CALC_FLATFIELD
  | MM_MSG_RELOAD_CORR
  | MM_MSG_START_CAPTURE_RUN
  | MM_MSG_STOP_CAPTURE_RUN
  | MM_MSG_GET_RUN_STATUS
  | MM_MSG_GET_NEXT_FRAME
  | MM_MSG_GET_TELEMETRY
  | MM_MSG_GET_SERVER_DATA_INDEX
  | MM_MSG_GET_RUN_CONFIG_DATA
  | MM_MSG_GET_BACKGROUND
  | MM_MSG_SET_BACKGROUND
  | MM_MSG_GET_RUN_FRAME
  | MM_MSG_RUN_DMC
  | MM_MSG_ENABLE_BACKGROUND
  | MM_MSG_BATCH_CORRECT
  | MM_MSG_GET_PARAM_ARRAY
  | MM_MSG_GET_SERVER_CLIENT_LIST
  deriving Repr, DecidableEq, Inhabited

/-- Width of `size_t` in bits on the 64-bit targets of the library. -/
def SIZE_T_BITS : Nat := 64

/-- The data members of `class StMessage` (the logger pointer apart).  A pointer is the
address it holds, `0` for `nullptr`. -/
structure StMessage where
  mMsgStr : String
  mMsgJson : Json
  mMsgCmdName : String
  mMsgCmd : MMMsgCmd
  mPMsgData : Nat
  mMsgDataMaxLen : Nat
  mMsgDataLen : Nat
  mMsgClient : Int
  mRespStr : String
  mRespJson : Json
  mRespCmdName : String
  mRespCmd : MMMsgCmd
  mPRespData : Nat
  mRespDataMaxLen : Nat
  mRespDataLen : Nat
  mRespStatus : Int
  mRespClient : Int
  deriving Repr, Inhabited

namespace StMessage

/-- `StMessage::setMessageParam<T>(name, value, rtnIn)`: the message after the call and
the returned code. -/
def setMessageParam {T : Type} (ty : JsonType T) (m : StMessage) (name : String)
    (value : T) (rtnIn : Int := 0) : StMessage × Int :=
  if 0 ≠ rtnIn then (m, rtnIn)
  else
    match m.mMsgJson.assignKey name (ty.to_json value) with
    | .ok j => ({ m with mMsgJson := j }, ST_ERR_OK)
    | .error _ => (m, ST_ERR_PARAM)

/-- `StMessage::setResponseParam<T>(name, value, rtnIn)`: the message after the call and
the returned code. -/
def setResponseParam {T : Type} (ty : JsonType T) (m : StMessage) (name : String)
    (value : T) (rtnIn : Int := 0) : StMessage × Int :=
  if 0 ≠ rtnIn then (m, rtnIn)
  else
    match m.mRespJson.assignKey name (ty.to_json value) with
    | .ok j => ({ m with mRespJson := j }, ST_ERR_OK)
    | .error _ => (m, ST_ERR_PARAM)

/-- The loop `for (i = 0; i < values.size(); i++) cache[i] = values[i];` of
`setResponseParamArray`, started at index `i` with the values from `i` on. -/
def fillArray {T : Type} (ty : JsonType T) : List T → Nat → List Json → List Json
  | [], _, cache => cache
  | v :: rest, i, cache => fillArray ty rest (i + 1) (Json.arrAssign cache i (ty.to_json v))

/-- `StMessage::setResponseParamArray<T>(name, values, rtnIn)`: the message after the
call and the returned code.  The field is first set to an empty array, which is then
filled element by element and stored. -/
def setResponseParamArray {T : Type} (ty : JsonType T) (m : StMessage) (name : String)
    (values : List T) (rtnIn : Int := 0) : StMessage × Int :=
  if 0 ≠ rtnIn then (m, rtnIn)
  else
    match m.mRespJson.assignKey name (Json.array []) with
    | .error _ => (m, ST_ERR_PARAM)
    | .ok j0 =>
      match j0.assignKey name (Json.array (fillArray ty values 0 [])) with
      | .ok j => ({ m with mRespJson := j }, ST_ERR_OK)
      | .error _ => ({ m with mRespJson := j0 }, ST_ERR_PARAM)

/-- `StMessage::getMessageParam<T>(name, value, optional, rtnIn)`: the message and the
destination after the call, and the returned code. -/
def getMessageParam {T : Type} (ty : JsonType T) (m : StMessage) (name : String)
    (value : T) (optional : Bool := false) (rtnIn : Int := 0) : StMessage × T × Int :=
  if 0 ≠ rtnIn then (m, value, rtnIn)
  else
    match m.mMsgJson.find name with
    | none =>
      if optional then (m, value, ST_ERR_OK) else (m, value, ST_ERR_MSG_NOT_FOUND)
    | some _ =>
      match m.mMsgJson.atKey name with
      | .error _ => (m, value, ST_ERR_MSG_FORMAT)
      | .ok j =>
        match ty.from_json j with
        | .error _ => (m, value, ST_ERR_MSG_FORMAT)
        | .ok v => (m, v, ST_ERR_OK)

/-- `StMessage::getResponseParam<T>(name, value, optional, rtnIn)`: the message and the
destination after the call, and the returned code. -/
def getResponseParam {T : Type} (ty : JsonType T) (m : StMessage) (name : String)
    (value : T) (optional : Bool := false) (rtnIn : Int := 0) : StMessage × T × Int :=
  if 0 ≠ rtnIn then (m, value, rtnIn)
  else
    match m.mRespJson.find name with
    | none =>
      if optional then (m, value, ST_ERR_OK) else (m, value, ST_ERR_MSG_NOT_FOUND)
    | some _ =>
      match m.mRespJson.atKey name with
      | .error _ => (m, value, ST_ERR_MSG_FORMAT)
      | .ok j =>
        match ty.from_json j with
        | .error _ => (m, value, ST_ERR_MSG_FORMAT)
        | .ok v => (m, v, ST_ERR_OK)

/-- The loop `values.push_back(entry->get<T>())` of `getResponseParamArray` over the
entries not yet visited: the vector when the loop ends or throws, and whether it threw. -/
def pushEntries {T : Type} (ty : JsonType T) : List Json → List T → List T × Bool
  | [], values => (values, false)
  | entry :: rest, values =>
    match ty.from_json entry with
    | .error _ => (values, true)
    | .ok v => pushEntries ty rest (values ++ [v])

/-- `StMessage::getResponseParamArray<T>(name, values, optional, rtnIn)`: the message and
the destination vector after the call, and the returned code. -/
def getResponseParamArray {T : Type} (ty : JsonType T) (m : StMessage) (name : String)
    (values : List T) (optional : Bool := false) (rtnIn : Int := 0) :
    StMessage × List T × Int :=
  if 0 ≠ rtnIn then (m, values, rtnIn)
  else
    match m.mRespJson.find name with
    | none => if optional then (m, values, ST_ERR_OK) else (m, values, ST_ERR_MSG_NOT_FOUND)
    | some _ =>
      match m.mRespJson.atKey name with
      | .error _ => (m, [], ST_ERR_MSG_FORMAT)
      | .ok paramJson =>
        match paramJson with
        | .array elems =>
          let r := pushEntries ty elems []
          if r.2 then (m, r.1, ST_ERR_MSG_FORMAT) else (m, r.1, ST_ERR_OK)
        | _ => (m, [], ST_ERR_NOT_ARRAY)

/-- `StMessage::setMessageData<T>(pdata, len, maxlen)` with `sizeofT = sizeof(T)`: the
message after the call and the returned length in bytes.  The comparison `0 > maxlen` is
made on the unsigned `size_t`. -/
def setMessageData (sizeofT : Nat) (m : StMessage) (pdata : Nat) (len maxlen : Nat) :
    StMessage × Nat :=
  let m1 := { m with mPMsgData := pdata }
  if m1.mPMsgData = 0 then
    ({ m1 with mMsgDataLen := 0, mMsgDataMaxLen := 0 }, 0)
  else
    let len := (len * sizeofT) % 2 ^ SIZE_T_BITS
    let maxlen := (maxlen * sizeofT) % 2 ^ SIZE_T_BITS
    let m2 := if maxlen < 0 then { m1 with mMsgDataMaxLen := maxlen } else m1
    let m3 := { m2 with mMsgDataLen := if len > m2.mMsgDataMaxLen then m2.mMsgDataMaxLen else len }
    (m3, m3.mMsgDataLen)

/-- `StMessage::getMessageDataLength<T>()` with `sizeofT = sizeof(T)`. -/
def getMessageDataLength (sizeofT : Nat) (m : StMessage) : Nat :=
  m.mMsgDataLen / sizeofT

/-- `StMessage::getMessageDataMaxLength<T>()` with `sizeofT = sizeof(T)`. -/
def getMessageDataMaxLength (sizeofT : Nat) (m : StMessage) : Nat :=
  m.mMsgDataMaxLen / sizeofT

end StMessage

/-! ## Rounding helpers (`stutil_misc.h`) -/

/-- `STUTIL::roundUp<T>(value, multiple)` for an integer type `T` of `bitsT ≤ 32` bits.
`multiple` is a `uint32_t`, so by the usual arithmetic conversions `value + multiple - 1`,
the division and the multiplication are all carried out on `unsigned int` (modulo
`2 ^ 32`, one operation after the other), and the `static_cast<T>` keeps the low `bitsT`
bits.  A signed `value` is given by its two's complement bit pattern. -/
def roundUp (bitsT : Nat) (value multiple : Nat) : Nat :=
  if multiple ≤ 1 then value
  else
    ((((value + multiple) % 2 ^ 32 + 2 ^ 32 - 1) % 2 ^ 32) / multiple * multiple % 2 ^ 32)
      % 2 ^ bitsT

/-- `STUTIL::roundDown<T>(value, multiple)` for an integer type `T` of `bitsT ≤ 32` bits,
with the same conversions as `roundUp`. -/
def roundDown (bitsT : Nat) (value multiple : Nat) : Nat :=
  if multiple ≤ 1 then value
  else (value % 2 ^ 32 / multiple * multiple % 2 ^ 32) % 2 ^ bitsT

/-! ## Frame constants (`st_if_defs.h`) -/

/-- X-PAD system type `STSystemType`. -/
inductive STSystemType where
  | ST_SYS_NONE
  | ST_SYS_MMPAD
  | ST_SYS_MEGAPAD
  | ST_SYS_KECKPAD
  deriving Repr, DecidableEq, Inhabited

/-- The enumerator value of a system type. -/
def STSystemType.toNat : STSystemType → Nat
  | .ST_SYS_NONE => 0
  | .ST_SYS_MMPAD => 1
  | .ST_SYS_MEGAPAD => 2
  | .ST_SYS_KECKPAD => 3

/-- Default frame type when none is given (`st_framebuffer.h`). -/
def ST_FRAME_DEFAULT_FRAME_TYPE : STSystemType := .ST_SYS_MMPAD

def ST_MAX_SUBFRAME_COUNT : Nat := 4
def MM_SUBFRAME_COUNT : Nat := 1
def MG_SUBFRAME_COUNT : Nat := 4
def KK_SUBFRAME_COUNT : Nat := 1
def ST_SUBFRAME_SENSOR_COUNT : Nat := 16
def ST_SENSOR_TELEM_VALUES : Nat := 12
/-- Telemetry bytes per sensor asic: `ST_SENSOR_TELEM_VALUES * sizeof(uint16_t)`. -/
def ST_SENSOR_TELEM_BYTES : Nat := ST_SENSOR_TELEM_VALUES * 2
/-- Telemetry bytes per subframe. -/
def ST_SUBFRAME_TELEM_BYTES : Nat := ST_SUBFRAME_SENSOR_COUNT * ST_SENSOR_TELEM_BYTES

def ST_FRAME_ID : Nat := 0x5354
def ST_FRAME_MAJOR_VERSION : Nat := 0x01
def ST_FRAME_MINOR_VERSION : Nat := 0x02
def ST_FRAME_VERSION : Nat := (ST_FRAME_MAJOR_VERSION <<< 8) + ST_FRAME_MINOR_VERSION
def ST_FRAME_HEADER_BYTES : Nat := 256
def ST_FRAME_FOOTER_BYTES : Nat := 8
def ST_FRAME_STAT_RAW : Nat := 0x00000000
def ST_FRAME_STAT_DEFAULT : Nat := ST_FRAME_STAT_RAW

/-- Size of `MXRawPixel` (`int32_t`). -/
def MX_RAW_PIXEL_BYTES : Nat := 4
def MX_RAW_IMAGE_WIDTH : Nat := 512
def MX_RAW_IMAGE_HEIGHT : Nat := 512
def MX_RAW_IMAGE_PIXELS : Nat := MX_RAW_IMAGE_HEIGHT * MX_RAW_IMAGE_WIDTH
def MX_RAW_IMAGE_BYTES : Nat := MX_RAW_IMAGE_PIXELS * MX_RAW_PIXEL_BYTES

def MG_RAW_IMAGE_WIDTH : Nat := MX_RAW_IMAGE_WIDTH * 2
def MG_RAW_IMAGE_HEIGHT : Nat := MX_RAW_IMAGE_HEIGHT * 2
def MG_RAW_IMAGE_PIXELS : Nat := MG_RAW_IMAGE_HEIGHT * MG_RAW_IMAGE_WIDTH
def MG_RAW_IMAGE_BYTES : Nat := MG_RAW_IMAGE_PIXELS * MX_RAW_PIXEL_BYTES

/-- Size of `KKRawPixel` (`uint16_t`). -/
def KK_RAW_PIXEL_BYTES : Nat := 2
def KK_RAW_IMAGE_WIDTH : Nat := 512
def KK_RAW_IMAGE_HEIGHT : Nat := 512
def KK_RAW_IMAGE_PIXELS : Nat := KK_RAW_IMAGE_HEIGHT * KK_RAW_IMAGE_WIDTH
def KK_RAW_IMAGE_BYTES : Nat := KK_RAW_IMAGE_PIXELS * KK_RAW_PIXEL_BYTES

/-- X-PAD raw frame metadata record `STFrameMetadata` (packed, 40 bytes). -/
structure STFrameMetadata where
  hostReference : Nat
  runFrameNumber : Nat
  triggerFrameNumber : Nat
  timeStamp : Nat
  integrationTime : Nat
  interFrameTime : Nat
  exposureMode : Nat
  detectors : Nat
  deriving Repr, DecidableEq, Inhabited

/-! ## The frame header (`st_framebuffer.h`) -/

/-- The fields of `struct StFrameHeader` that carry data (the reserved padding arrays
hold no information and are left out). -/
structure StFrameHeader where
  headerBytes : Nat
  id : Nat
  version : Nat
  frameType : Nat
  frameBytes : Nat
  frameStatus : Nat
  imageBytes : Nat
  imageWidth : Nat
  imageHeight : Nat
  pixelBytes : Nat
  pixelType : Nat
  telemetryBytes : Nat
  data1Bytes : Nat
  data2Bytes : Nat
  data3Bytes : Nat
  metadata : STFrameMetadata
  capCount : Nat
  frameTimestamp : Nat
  deriving Repr, DecidableEq, Inhabited

namespace StFrameHeader

/-- Every field of the header fits the C++ type it is declared with. -/
def valid (h : StFrameHeader) : Prop :=
  h.headerBytes < 2 ^ 16 ∧ h.id < 2 ^ 16 ∧ h.version < 2 ^ 16 ∧ h.frameType < 2 ^ 16 ∧
  h.frameBytes < 2 ^ 32 ∧ h.frameStatus < 2 ^ 32 ∧
  h.imageBytes < 2 ^ 32 ∧ h.imageWidth < 2 ^ 16 ∧ h.imageHeight < 2 ^ 16 ∧
  h.pixelBytes < 2 ^ 8 ∧ h.pixelType < 2 ^ 8 ∧
  h.telemetryBytes < 2 ^ 32 ∧ h.data1Bytes < 2 ^ 32 ∧ h.data2Bytes < 2 ^ 32 ∧
  h.data3Bytes < 2 ^ 32 ∧
  h.metadata.hostReference < 2 ^ 64 ∧ h.metadata.runFrameNumber < 2 ^ 32 ∧
  h.metadata.triggerFrameNumber < 2 ^ 32 ∧ h.metadata.timeStamp < 2 ^ 64 ∧
  h.metadata.integrationTime < 2 ^ 32 ∧ h.metadata.interFrameTime < 2 ^ 32 ∧
  h.metadata.exposureMode < 2 ^ 32 ∧ h.metadata.detectors < 2 ^ 32 ∧
  h.capCount < 2 ^ 8 ∧ h.frameTimestamp < 2 ^ 64

instance (h : StFrameHeader) : Decidable h.valid := by
  unfold valid; infer_instance

/-- The constructor `StFrameHeader(STSystemType type)`: everything zeroed by `memset`,
then the six frame parameters set. -/
def init (type : STSystemType := ST_FRAME_DEFAULT_FRAME_TYPE) : StFrameHeader where
  headerBytes := ST_FRAME_HEADER_BYTES
  id := ST_FRAME_ID
  version := ST_FRAME_VERSION
  frameType := type.toNat % 2 ^ 16
  frameBytes := ST_FRAME_HEADER_BYTES + ST_FRAME_FOOTER_BYTES
  frameStatus := ST_FRAME_STAT_DEFAULT
  imageBytes := 0
  imageWidth := 0
  imageHeight := 0
  pixelBytes := 0
  pixelType := 0
  telemetryBytes := 0
  data1Bytes := 0
  data2Bytes := 0
  data3Bytes := 0
  metadata := ⟨0, 0, 0, 0, 0, 0, 0, 0⟩
  capCount := 0
  frameTimestamp := 0

/-- `StFrameHeader::computeRoundUp()`, statement by statement.  The product
`imageWidth * imageHeight * pixelBytes` is computed on `int` and reaches `roundUp<int>`,
where it is converted to `unsigned int`: it is given here by its low 32 bits (a product
past `INT_MAX` is undefined in C++; the two's complement result is taken).  The sum
`totalBytes` is a chain of `uint32_t` additions, that is the sum modulo `2 ^ 32`; the
scanline length `imageWidth * pixelBytes` is converted to the `uint32_t multiple`. -/
def computeRoundUp (h : StFrameHeader) : StFrameHeader :=
  let h := { h with imageWidth := roundUp 16 h.imageWidth 2 }
  let h := { h with imageHeight := roundUp 16 h.imageHeight 2 }
  let h := { h with
    imageBytes := roundUp 32 ((h.imageWidth * h.imageHeight * h.pixelBytes) % 2 ^ 32) 4 }
  let h := { h with telemetryBytes := roundUp 32 h.telemetryBytes 4 }
  let h := { h with data1Bytes := roundUp 32 h.data1Bytes 4 }
  let h := { h with data2Bytes := roundUp 32 h.data2Bytes 4 }
  let h := { h with data3Bytes := roundUp 32 h.data3Bytes 4 }
  let totalBytes := (ST_FRAME_HEADER_BYTES +
                     h.imageBytes +
                     h.telemetryBytes +
                     h.data1Bytes +
                     h.data2Bytes +
                     h.data3Bytes +
                     ST_FRAME_FOOTER_BYTES) % 2 ^ 32
  { h with frameBytes := roundUp 32 totalBytes ((h.imageWidth * h.pixelBytes) % 2 ^ 32) }

end StFrameHeader

/-! ## Command keywords and command ids (`st_message.h`) -/

def ST_STR_INVALID_CMD : String := ""
def ST_STR_OPEN_SERVER : String := "OpenServer"
def ST_STR_CLOSE_SERVER : String := "CloseServer"
def ST_STR_HEART_BEAT : String := "HeartBeat"
def ST_STR_ACQUIRE_TOKEN : String := "AcquireToken"
def ST_STR_RELEASE_TOKEN : String := "ReleaseToken"
def ST_STR_START_CAPTURE_SET : String := "StartCaptureSet"
def ST_STR_EDIT_CAPTURE_SET : String := "EditCaptureSet"
def ST_STR_GET_DATA_DICTIONARY : String := "GetDataDictionary"
def ST_STR_GET_PARAM : String := "GetParam"
def ST_STR_SET_PARAM : String := "SetParam"
def ST_STR_GET_PARAM_ARRAY : String := "GetParamArray"
def ST_STR_CALC_BACKGROUND : String := "CalcBackground"
def ST_STR_CALC_FLATFIELD : String := "CalcFlatfield"
def ST_STR_RELOAD_CORR : String := "ReloadCorr"
def ST_STR_START_CAPTURE_RUN : String := "StartCaptureRun"
def ST_STR_STOP_CAPTURE_RUN : String := "StopCaptureRun"
def ST_STR_GET_RUN_STATUS : String := "GetRunStatus"
def ST_STR_GET_NEXT_FRAME : String := "GetNextFrame"
def ST_STR_GET_TELEMETRY : String := "GetTelemetry"
def ST_STR_GET_SERVER_DATA_INDEX : String := "GetServerDataIndex"
def ST_STR_GET_SERVER_CLIENT_LIST : String := "GetServerClientList"
def ST_STR_GET_RUN_CONFIG_DATA : String := "GetRunConfigData"
def ST_STR_GET_BACKGROUND : String := "GetBackground"
def ST_STR_SET_BACKGROUND : String := "SetBackground"
def ST_STR_ENABLE_BACKGROUND : String := "EnableBackground"
def ST_STR_BATCH_CORRECT : String := "BatchCorrect"
def ST_STR_GET_RUN_FRAME : String := "GetRunFrame"
def ST_STR_RUN_DMC : String := "RunDMC"

/-- The client message command names of `st_message.h`, `ST_STR_OPEN_SERVER` through
`ST_STR_RUN_DMC`, in declaration order. -/
def commandKeywords : List String :=
  [ST_STR_OPEN_SERVER, ST_STR_CLOSE_SERVER, ST_STR_HEART_BEAT, ST_STR_ACQUIRE_TOKEN,
   ST_STR_RELEASE_TOKEN, ST_STR_START_CAPTURE_SET, ST_STR_EDIT_CAPTURE_SET,
   ST_STR_GET_DATA_DICTIONARY, ST_STR_GET_PARAM, ST_STR_SET_PARAM, ST_STR_GET_PARAM_ARRAY,
   ST_STR_CALC_BACKGROUND, ST_STR_CALC_FLATFIELD, ST_STR_RELOAD_CORR, ST_STR_START_CAPTURE_RUN,
   ST_STR_STOP_CAPTURE_RUN, ST_STR_GET_RUN_STATUS, ST_STR_GET_NEXT_FRAME, ST_STR_GET_TELEMETRY,
   ST_STR_GET_SERVER_DATA_INDEX, ST_STR_GET_SERVER_CLIENT_LIST, ST_STR_GET_RUN_CONFIG_DATA,
   ST_STR_GET_BACKGROUND, ST_STR_SET_BACKGROUND, ST_STR_ENABLE_BACKGROUND,
   ST_STR_BATCH_CORRECT, ST_STR_GET_RUN_FRAME, ST_STR_RUN_DMC]

/-- The enumerators of `MMMsgCmd` other than `MM_MSG_INVALID`, in declaration order. -/
def commandIds : List MMMsgCmd :=
  [.MM_MSG_OPEN_SERVER, .MM_MSG_CLOSE_SERVER, .MM_MSG_HEART_BEAT, .MM_MSG_ACQUIRE_TOKEN,
   .MM_MSG_RELEASE_TOKEN, .MM_MSG_START_CAPTURE_SET, .MM_MSG_EDIT_CAPTURE_SET,
   .MM_MSG_GET_PARAM, .MM_MSG_SET_PARAM, .MM_MSG_CALC_BACKGROUND, .MM_MSG_CALC_FLATFIELD,
   .MM_MSG_RELOAD_CORR, .MM_MSG_START_CAPTURE_RUN, .MM_MSG_STOP_CAPTURE_RUN,
   .MM_MSG_GET_RUN_STATUS, .MM_MSG_GET_NEXT_FRAME, .MM_MSG_GET_TELEMETRY,
   .MM_MSG_GET_SERVER_DATA_INDEX, .MM_MSG_GET_RUN_CONFIG_DATA, .MM_MSG_GET_BACKGROUND,
   .MM_MSG_SET_BACKGROUND, .MM_MSG_GET_RUN_FRAME, .MM_MSG_RUN_DMC, .MM_MSG_ENABLE_BACKGROUND,
   .MM_MSG_BATCH_CORRECT, .MM_MSG_GET_PARAM_ARRAY, .MM_MSG_GET_SERVER_CLIENT_LIST]

/-- Modelled from the spec: the static table `StMessage::sMessageMap` ("a fixed keyword
string maps 1:1 through a static table to an enumerated command id"), which is filled in
`st_message.cpp`, a file missing from the sources.  Each command id is paired with the
keyword macro of the same name; `MM_MSG_INVALID` goes with `ST_STR_INVALID_CMD`. -/
def MMMsgCmd.keyword : MMMsgCmd → String
  | .MM_MSG_INVALID => ST_STR_INVALID_CMD
  | .MM_MSG_OPEN_SERVER => ST_STR_OPEN_SERVER
  | .MM_MSG_CLOSE_SERVER => ST_STR_CLOSE_SERVER
  | .MM_MSG_HEART_BEAT => ST_STR_HEART_BEAT
  | .MM_MSG_ACQUIRE_TOKEN => ST_STR_ACQUIRE_TOKEN
  | .MM_MSG_RELEASE_TOKEN => ST_STR_RELEASE_TOKEN
  | .MM_MSG_START_CAPTURE_SET => ST_STR_START_CAPTURE_SET
  | .MM_MSG_EDIT_CAPTURE_SET => ST_STR_EDIT_CAPTURE_SET
  | .MM_MSG_GET_PARAM => ST_STR_GET_PARAM
  | .MM_MSG_SET_PARAM => ST_STR_SET_PARAM
  | .MM_MSG_CALC_BACKGROUND => ST_STR_CALC_BACKGROUND
  | .MM_MSG_CALC_FLATFIELD => ST_STR_CALC_FLATFIELD
  | .MM_MSG_RELOAD_CORR => ST_STR_RELOAD_CORR
  | .MM_MSG_START_CAPTURE_RUN => ST_STR_START_CAPTURE_RUN
  | .MM_MSG_STOP_CAPTURE_RUN => ST_STR_STOP_CAPTURE_RUN
  | .MM_MSG_GET_RUN_STATUS => ST_STR_GET_RUN_STATUS
  | .MM_MSG_GET_NEXT_FRAME => ST_STR_GET_NEXT_FRAME
  | .MM_MSG_GET_TELEMETRY => ST_STR_GET_TELEMETRY
  | .MM_MSG_GET_SERVER_DATA_INDEX => ST_STR_GET_SERVER_DATA_INDEX
  | .MM_MSG_GET_RUN_CONFIG_DATA => ST_STR_GET_RUN_CONFIG_DATA
  | .MM_MSG_GET_BACKGROUND => ST_STR_GET_BACKGROUND
  | .MM_MSG_SET_BACKGROUND => ST_STR_SET_BACKGROUND
  | .MM_MSG_GET_RUN_FRAME => ST_STR_GET_RUN_FRAME
  | .MM_MSG_RUN_DMC => ST_STR_RUN_DMC
  | .MM_MSG_ENABLE_BACKGROUND => ST_STR_ENABLE_BACKGROUND
  | .MM_MSG_BATCH_CORRECT => ST_STR_BATCH_CORRECT
  | .MM_MSG_GET_PARAM_ARRAY => ST_STR_GET_PARAM_ARRAY
  | .MM_MSG_GET_SERVER_CLIENT_LIST => ST_STR_GET_SERVER_CLIENT_LIST

/-- Modelled from the spec: the entries of `StMessage::sMessageMap`, one per command id
other than `MM_MSG_INVALID`. -/
def sMessageMap : List (String × MMMsgCmd) :=
  commandIds.map fun c => (c.keyword, c)

/-- Modelled from the spec: the lookup of a command name in `sMessageMap` ("unknown
keyword → invalid id"). -/
def lookupCommand (cmdname : String) : MMMsgCmd :=
  match sMessageMap.find? fun e => e.1 == cmdname with
  | some e => e.2
  | none => .MM_MSG_INVALID

/-! ## Cached parameter values (`st_parameter.h`) -/

/-- A C++ `double`: an IEEE-754 binary64 value, given by its 64 bits (sign, 11 exponent
bits, 52 fraction bits). -/
structure Double where
  bits : Nat
  deriving Repr, DecidableEq, Inhabited

namespace Double

/-- The value is a NaN: all exponent bits set and a fraction that is not zero. -/
def isNaN (d : Double) : Bool :=
  decide (d.bits / 2 ^ 52 % 2 ^ 11 = 2047) && decide (d.bits % 2 ^ 52 ≠ 0)

/-- The value is `+0.0` or `-0.0`. -/
def isZero (d : Double) : Bool :=
  decide (d.bits % 2 ^ 63 = 0)

/-- The C++ comparison `a != b` on `double`: a NaN is unequal to everything, itself
included; the two zeros are equal; any other two values are equal exactly when their bits
are. -/
def ne (a b : Double) : Bool :=
  a.isNaN || b.isNaN || !(decide (a.bits = b.bits) || (a.isZero && b.isZero))

/-- The sign bit. -/
def sign (d : Double) : Nat := d.bits / 2 ^ 63 % 2

/-- The 11 exponent bits (biased by 1023). -/
def exponent (d : Double) : Nat := d.bits / 2 ^ 52 % 2 ^ 11

/-- The 52 fraction bits. -/
def fraction (d : Double) : Nat := d.bits % 2 ^ 52

/-- The significand `m` of the magnitude `m * 2 ^ (ex - 1075)` shifted left until its bit
52 is set, `ex` lowered by one for each shift; `fuel` bounds the number of shifts. -/
def normalize : Nat → Nat → Nat → Nat × Nat
  | 0, m, ex => (m, ex)
  | fuel + 1, m, ex => if 2 ^ 52 ≤ m then (m, ex) else normalize fuel (2 * m) (ex - 1)

/-- The conversion `static_cast<double>(n)` of an unsigned integer `n < 2 ^ 53`, which a
`double` holds exactly: zero has all bits clear, any other value has the exponent and the
fraction of its normalized significand. -/
def ofNat (n : Nat) : Double :=
  if n = 0 then ⟨0⟩
  else ⟨(normalize 53 n 1075).2 * 2 ^ 52 + ((normalize 53 n 1075).1 - 2 ^ 52)⟩

/-- The conversion `static_cast<double>(i)` of a signed integer of magnitude below
`2 ^ 53`: the magnitude with the sign bit set for a negative value. -/
def ofInt (i : Int) : Double :=
  if i < 0 then ⟨2 ^ 63 + (ofNat i.natAbs).bits⟩ else ofNat i.toNat

/-- The magnitude of a finite value with its fractional part discarded; `none` for an
infinity or a NaN.  Zero and the subnormal values are below 1. -/
def truncMagnitude (d : Double) : Option Nat :=
  if d.exponent = 2047 then none
  else if d.exponent = 0 then some 0
  else if 1075 ≤ d.exponent then some ((2 ^ 52 + d.fraction) * 2 ^ (d.exponent - 1075))
  else some ((2 ^ 52 + d.fraction) / 2 ^ (1075 - d.exponent))

/-- The conversion `static_cast<uint32_t>(d)`: truncation toward zero.  For a NaN, an
infinity or a truncated value outside `0 .. 2^32 - 1` the C++ conversion is undefined; the
result is 0 there. -/
def toUInt32 (d : Double) : Nat :=
  match d.truncMagnitude with
  | none => 0
  | some m => if m = 0 then 0 else if d.sign = 1 then 0 else if m < 2 ^ 32 then m else 0

/-- The conversion `static_cast<int32_t>(d)`: truncation toward zero.  For a NaN, an
infinity or a truncated value outside `-2^31 .. 2^31 - 1` the C++ conversion is undefined;
the result is 0 there. -/
def toInt32 (d : Double) : Int :=
  match d.truncMagnitude with
  | none => 0
  | some m =>
    if d.sign = 1 then (if m ≤ 2 ^ 31 then -(m : Int) else 0)
    else (if m < 2 ^ 31 then (m : Int) else 0)

end Double

/-- The conversions between a C++ type `T` and `double` used by a template instantiation
of the cached-value accessors: `toDouble` is `static_cast<double>(value)`, `fromDouble` is
`static_cast<T>(cached.value)`. -/
structure DoubleCast (T : Type) where
  toDouble : T → Double
  fromDouble : Double → T

/-- The conversions for `T = double`: both casts are the identity. -/
def double_t : DoubleCast Double where
  toDouble := fun v => v
  fromDouble := fun d => d

/-- The conversions for `T = uint32_t`. -/
def DoubleCast.uint32_t : DoubleCast Nat where
  toDouble := Double.ofNat
  fromDouble := Double.toUInt32

/-- The conversions for `T = int32_t`. -/
def DoubleCast.int32_t : DoubleCast Int where
  toDouble := Double.ofInt
  fromDouble := Double.toInt32

/-- Cache value entry `CachedValue_t`. -/
structure CachedValue_t where
  value : Double
  index : Nat
  rawValue : Nat
  isValid : Bool
  isModified : Bool
  deriving Repr, DecidableEq, Inhabited

/-- The members of `class StParameter` that the cached-value accessors read or write:
the array dimension and the vector of cached values. -/
structure StParameter where
  mDimension : Nat
  mCachedValue : List CachedValue_t
  deriving Repr, DecidableEq, Inhabited

namespace StParameter

/-- `StParameter::getCachedValue<T>(index, padIndex, value)`: the destination after the
call and the returned code.  `none` stands for the undefined behaviour of
`mCachedValue[index]` past the end of the vector; `padIndex` is ignored, as in the source. -/
def getCachedValue {T : Type} (ty : DoubleCast T) (p : StParameter) (index _padIndex : Nat)
    (value : T) : Option (T × Int) :=
  if index ≥ p.mDimension then some (value, ST_ERR_INDEX)
  else
    match p.mCachedValue[index]? with
    | none => none
    | some cached => some (ty.fromDouble cached.value, ST_ERR_OK)

/-- `StParameter::setCachedValue<T>(index, padIndex, value, rawValue)`: the parameter after
the call and the returned code.  `none` stands for the undefined behaviour of
`mCachedValue[index]` past the end of the vector; `padIndex` is ignored, as in the source. -/
def setCachedValue {T : Type} (ty : DoubleCast T) (p : StParameter) (index _padIndex : Nat)
    (value : T) (rawValue : Nat) : Option (StParameter × Int) :=
  if index ≥ p.mDimension then some (p, ST_ERR_INDEX)
  else
    match p.mCachedValue[index]? with
    | none => none
    | some cached =>
      let prevValue := cached.value
      let cached := { cached with value := ty.toDouble value }
      let cached := { cached with rawValue := rawValue }
      let cached :=
        if cached.isValid && Double.ne cached.value prevValue then
          { cached with isModified := true }
        else cached
      let cached := { cached with isValid := true }
      some ({ p with mCachedValue := p.mCachedValue.set index cached }, ST_ERR_OK)

end StParameter

/-! ## The double buffer (`st_doublebuf.h`) -/

/-- The data members of `DoubleBuf<T>`: the two buffers `mData[0]` and `mData[1]` and the
two flags.  The mutex holds no data; what it protects is described with each function. -/
structure DoubleBuf (T : Type) where
  mData : T × T
  mIn0 : Bool
  mSwap : Bool
  deriving Repr, DecidableEq

namespace DoubleBuf

/-- The constructor `DoubleBuf()`: `mIn0(true)`, `mSwap(false)`; the two buffers hold
default-constructed values `d0` and `d1`. -/
def new {T : Type} (d0 d1 : T) : DoubleBuf T :=
  { mData := (d0, d1), mIn0 := true, mSwap := false }

/-- The first statement of `set`, `int index = mIn0 ? 0 : 1;`, which runs before the lock
is taken. -/
def setIndex {T : Type} (b : DoubleBuf T) : Nat :=
  if b.mIn0 then 0 else 1

/-- The rest of `set`, which runs with the lock held: `mData[index] = src; mSwap = true;`. -/
def setLocked {T : Type} (b : DoubleBuf T) (index : Nat) (src : T) : DoubleBuf T :=
  { b with
    mData := if index = 0 then (src, b.mData.2) else (b.mData.1, src),
    mSwap := true }

/-- `DoubleBuf::set(src)` run without interruption. -/
def set {T : Type} (b : DoubleBuf T) (src : T) : DoubleBuf T :=
  b.setLocked b.setIndex src

/-- `DoubleBuf::get(dest)`, all of which runs with the lock held: the buffer after the
call and the value copied to `dest`. -/
def get {T : Type} (b : DoubleBuf T) : DoubleBuf T × T :=
  let b := if b.mSwap then { b with mIn0 := !b.mIn0, mSwap := false } else b
  if b.mIn0 then (b, b.mData.2) else (b, b.mData.1)

/-- `DoubleBuf::getOutputPtr()`, all of which runs with the lock held: the buffer after
the call and the index of the buffer the returned pointer points to. -/
def getOutputPtr {T : Type} (b : DoubleBuf T) : DoubleBuf T × Nat :=
  let b := if b.mSwap then { b with mIn0 := !b.mIn0, mSwap := false } else b
  (b, if b.mIn0 then 1 else 0)

/-- `DoubleBuf::getLockedInputPtr()`: the lock is taken and the buffer is not changed;
the result is the index of the buffer the returned pointer points to. -/
def getLockedInputPtr {T : Type} (b : DoubleBuf T) : Nat :=
  if b.mIn0 then 0 else 1

/-- `DoubleBuf::releaseInput()`: `mSwap = true;`, then the lock is released. -/
def releaseInput {T : Type} (b : DoubleBuf T) : DoubleBuf T :=
  { b with mSwap := true }

/-- The element `mData[index]` of the two buffers. -/
def slot {T : Type} (b : DoubleBuf T) (index : Nat) : T :=
  if index = 0 then b.mData.1 else b.mData.2

/-- The buffer that the next `get` copies from: the input buffer when a swap is due, the
output buffer otherwise. -/
def nextOutput {T : Type} (b : DoubleBuf T) : T :=
  if b.mSwap then (if b.mIn0 then b.mData.1 else b.mData.2)
  else (if b.mIn0 then b.mData.2 else b.mData.1)

/-- A call made by one thread on a buffer that no other thread touches meanwhile. -/
inductive Call (T : Type) where
  | set (src : T)
  | get
  deriving Repr, DecidableEq

/-- The buffer after a sequence of uninterrupted calls. -/
def run {T : Type} (b : DoubleBuf T) : List (Call T) → DoubleBuf T
  | [] => b
  | .set src :: rest => run (b.set src) rest
  | .get :: rest => run b.get.1 rest

/-- An atomic step of a writer thread and a reader thread that share the buffer: the
writer reads `mIn0` for a new `set(src)`, the writer finishes its `set` inside the lock,
or the reader runs a whole `get` inside the lock. -/
inductive Event (T : Type) where
  | setBegin (src : T)
  | setEnd
  | get
  deriving Repr, DecidableEq

/-- The shared buffer together with the bookkeeping of an interleaved execution: the
argument and the chosen index of a `set` that has started and not finished, the argument
of the most recently completed `set`, and for each `get` the value it returned next to the
most recently completed `set` at that moment (latest first). -/
structure Threads (T : Type) where
  buf : DoubleBuf T
  pending : Option (T × Nat)
  completed : Option T
  reads : List (T × Option T)
  deriving Repr, DecidableEq

/-- One atomic step of the two threads.  A `setBegin` while a `set` is pending and a
`setEnd` while none is pending are not steps of the program and change nothing. -/
def Threads.step {T : Type} (s : Threads T) : Event T → Threads T
  | .setBegin src =>
    match s.pending with
    | none => { s with pending := some (src, s.buf.setIndex) }
    | some _ => s
  | .setEnd =>
    match s.pending with
    | none => s
    | some (src, index) =>
      { s with buf := s.buf.setLocked index src, pending := none, completed := some src }
  | .get =>
    { s with buf := s.buf.get.1, reads := (s.buf.get.2, s.completed) :: s.reads }

/-- The two threads after a schedule of atomic steps. -/
def Threads.run {T : Type} (s : Threads T) (schedule : List (Event T)) : Threads T :=
  schedule.foldl Threads.step s

/-- The two threads before any step, on a freshly constructed buffer. -/
def Threads.start {T : Type} (d0 d1 : T) : Threads T :=
  { buf := DoubleBuf.new d0 d1, pending := none, completed := none, reads := [] }

end DoubleBuf

/-! ## Sizes of the packed records (`st_if_defs.h`, `st_framebuffer.h`)

Every record below is declared under `#pragma pack(push, 1)`, so its size is the sum of
the sizes of its members. -/

/-- A subtraction on an unsigned type of `bits` bits, which wraps around below zero. -/
def usub (bits a b : Nat) : Nat :=
  (a % 2 ^ bits + 2 ^ bits - b % 2 ^ bits) % 2 ^ bits

/-- The members of `STFrameMetadata` with their sizes in bytes, in declaration order. -/
def STFrameMetadata.members : List (String × Nat) :=
  [("hostReference", 8), ("runFrameNumber", 4), ("triggerFrameNumber", 4), ("timeStamp", 8),
   ("integrationTime", 4), ("interFrameTime", 4), ("exposureMode", 4), ("detectors", 4)]

/-- The value of `sizeof(STFrameMetadata)`. -/
def sizeof_STFrameMetadata : Nat :=
  (STFrameMetadata.members.map Prod.snd).sum

/-- Telemetry values per subframe. -/
def ST_SUBFRAME_TELEM_VALUES : Nat := ST_SUBFRAME_SENSOR_COUNT * ST_SENSOR_TELEM_VALUES

/-- The value of `sizeof(STRawTelemetry)`: `uint16_t data[ST_SUBFRAME_TELEM_VALUES]`. -/
def sizeof_STRawTelemetry : Nat := ST_SUBFRAME_TELEM_VALUES * 2

/-- The constant `StFrameHeader::rsvd3Bytes`: the `int` difference
`ST_FRAME_HEADER_BYTES - (3 * 16)`, then three subtractions on `size_t`, stored in a
`uint32_t`. -/
def StFrameHeader.rsvd3Bytes : Nat :=
  (usub SIZE_T_BITS (usub SIZE_T_BITS (usub SIZE_T_BITS (ST_FRAME_HEADER_BYTES - (3 * 16))
    sizeof_STFrameMetadata) 1) 8) % 2 ^ 32

/-- The members of `StFrameHeader` with their sizes in bytes, in declaration order (the
static constant `rsvd3Bytes` takes no room). -/
def StFrameHeader.members : List (String × Nat) :=
  [("headerBytes", 2), ("id", 2), ("version", 2), ("frameType", 2), ("frameBytes", 4),
   ("frameStatus", 4),
   ("imageBytes", 4), ("imageWidth", 2), ("imageHeight", 2), ("pixelBytes", 1),
   ("pixelType", 1), ("reserved1", 6),
   ("telemetryBytes", 4), ("data1Bytes", 4), ("data2Bytes", 4), ("data3Bytes", 4),
   ("metadata", sizeof_STFrameMetadata),
   ("capCount", 1),
   ("reserved3", StFrameHeader.rsvd3Bytes),
   ("frameTimestamp", 8)]

/-- The value of `sizeof(StFrameHeader)`. -/
def sizeof_StFrameHeader : Nat :=
  (StFrameHeader.members.map Prod.snd).sum

/-- Raw footer size in bytes. -/
def MX_RAW_FRAME_FOOTER_BYTES : Nat := MX_RAW_IMAGE_WIDTH * MX_RAW_PIXEL_BYTES
/-- Metadata size in bytes. -/
def MX_RAW_FRAME_META_BYTES : Nat := sizeof_STFrameMetadata
/-- Telemetry size in bytes. -/
def MX_RAW_FRAME_TELEMETRY_BYTES : Nat := sizeof_STRawTelemetry
/-- Size of markers in bytes. -/
def MX_RAW_FRAME_MARKER_BYTES : Nat := 16
/-- Padding of the MM-PAD/Mega-PAD raw frame in bytes (`uint32_t` subtractions). -/
def MX_RAW_FRAME_PAD_BYTES : Nat :=
  usub 32 (usub 32 (usub 32 MX_RAW_FRAME_FOOTER_BYTES
    MX_RAW_FRAME_META_BYTES)
    MX_RAW_FRAME_TELEMETRY_BYTES)
    MX_RAW_FRAME_MARKER_BYTES
def MX_RAW_FRAME_PAD_WORDS : Nat := MX_RAW_FRAME_PAD_BYTES / 4

/-- The members of `MXRawFrame` with their sizes in bytes, in declaration order. -/
def MXRawFrame.members : List (String × Nat) :=
  [("image", MX_RAW_IMAGE_HEIGHT * MX_RAW_IMAGE_WIDTH * MX_RAW_PIXEL_BYTES),
   ("metadata", sizeof_STFrameMetadata),
   ("telemetry", sizeof_STRawTelemetry),
   ("marker1", 8),
   ("padding", MX_RAW_FRAME_PAD_WORDS * 4),
   ("marker2", 8)]

/-- The value of `sizeof(MXRawFrame)`. -/
def MX_RAW_FRAME_BYTES : Nat := (MXRawFrame.members.map Prod.snd).sum

/-- Size of `MMGCRawPixel` (`double`). -/
def MMGC_RAW_PIXEL_BYTES : Nat := 8
def MM_GC_RAW_IMAGE_WIDTH : Nat := 532
def MM_GC_RAW_IMAGE_HEIGHT : Nat := 612
def MM_GC_RAW_IMAGE_PIXELS : Nat := MM_GC_RAW_IMAGE_HEIGHT * MM_GC_RAW_IMAGE_WIDTH
def MM_GC_RAW_IMAGE_BYTES : Nat := MM_GC_RAW_IMAGE_PIXELS * MMGC_RAW_PIXEL_BYTES

/-- Raw footer size in bytes. -/
def MM_GC_RAW_FRAME_FOOTER_BYTES : Nat := MM_GC_RAW_IMAGE_WIDTH * MMGC_RAW_PIXEL_BYTES
/-- Metadata size in bytes. -/
def MM_GC_RAW_FRAME_META_BYTES : Nat := sizeof_STFrameMetadata
/-- Telemetry size in bytes. -/
def MM_GC_RAW_FRAME_TELEMETRY_BYTES : Nat := sizeof_STRawTelemetry
/-- Size of markers in bytes. -/
def MM_GC_RAW_FRAME_MARKER_BYTES : Nat := 16
/-- Padding of the geocorrected MM-PAD raw frame in bytes (`uint32_t` subtractions). -/
def MM_GC_RAW_FRAME_PAD_BYTES : Nat :=
  usub 32 (usub 32 (usub 32 MM_GC_RAW_FRAME_FOOTER_BYTES
    MM_GC_RAW_FRAME_META_BYTES)
    MM_GC_RAW_FRAME_TELEMETRY_BYTES)
    MM_GC_RAW_FRAME_MARKER_BYTES
def MM_GC_RAW_FRAME_PAD_WORDS : Nat := MM_GC_RAW_FRAME_PAD_BYTES / 4

/-- The members of `MMGCRawFrame` with their sizes in bytes, in declaration order. -/
def MMGCRawFrame.members : List (String × Nat) :=
  [("image", MM_GC_RAW_IMAGE_HEIGHT * MM_GC_RAW_IMAGE_WIDTH * MMGC_RAW_PIXEL_BYTES),
   ("metadata", sizeof_STFrameMetadata),
   ("telemetry", sizeof_STRawTelemetry),
   ("marker1", 8),
   ("padding", MM_GC_RAW_FRAME_PAD_WORDS * 4),
   ("marker2", 8)]

/-- The value of `sizeof(MMGCRawFrame)`. -/
def MM_GC_RAW_FRAME_BYTES : Nat := (MMGCRawFrame.members.map Prod.snd).sum

/-- Raw footer size in bytes. -/
def KK_RAW_FRAME_FOOTER_BYTES : Nat := KK_RAW_IMAGE_WIDTH * KK_RAW_PIXEL_BYTES
/-- Metadata size in bytes. -/
def KK_RAW_FRAME_META_BYTES : Nat := sizeof_STFrameMetadata
/-- Telemetry size in bytes. -/
def KK_RAW_FRAME_TELEMETRY_BYTES : Nat := sizeof_STRawTelemetry
/-- Size of frame markers in bytes. -/
def KK_RAW_FRAME_MARKER_BYTES : Nat := 16
/-- Padding of the Keck-PAD raw frame in bytes (`uint32_t` subtractions). -/
def KK_RAW_FRAME_PAD_BYTES : Nat :=
  usub 32 (usub 32 (usub 32 KK_RAW_FRAME_FOOTER_BYTES
    KK_RAW_FRAME_META_BYTES)
    KK_RAW_FRAME_TELEMETRY_BYTES)
    KK_RAW_FRAME_MARKER_BYTES
def KK_RAW_FRAME_PAD_WORDS : Nat := KK_RAW_FRAME_PAD_BYTES / 4

/-- The members of `KKRawFrame` with their sizes in bytes, in declaration order. -/
def KKRawFrame.members : List (String × Nat) :=
  [("image", KK_RAW_IMAGE_HEIGHT * KK_RAW_IMAGE_WIDTH * KK_RAW_PIXEL_BYTES),
   ("metadata", sizeof_STFrameMetadata),
   ("telemetry", sizeof_STRawTelemetry),
   ("marker1", 8),
   ("padding", KK_RAW_FRAME_PAD_WORDS * 4),
   ("marker2", 8)]

/-- The value of `sizeof(KKRawFrame)`. -/
def KK_RAW_FRAME_BYTES : Nat := (KKRawFrame.members.map Prod.snd).sum

/-! ## The client interface (`st_client_interface.h`) -/

def ST_STR_PAD_INDEX : String := "PadIndex"
def ST_STR_PARAM_ID : String := "ParamId"
def ST_STR_PARAM_INDEX : String := "ParamIndex"
def ST_STR_PARAM_VALUE : String := "ParamValue"
def ST_STR_PARAM_ARRAY : String := "ParamArray"
def ST_STR_PARAM_COUNT : String := "ParamCount"

/-- Default message timeout in milliseconds. -/
def ST_MSG_TIMEOUT_MSEC : Int := 1500

/-- The data members of `class StClientInterface` that `getParam` and `getParamArray`
reach: the connection flag, the client handle and the reusable message. -/
structure StClientInterface where
  mIsConnected : Bool
  mClientHandle : Int
  mCurMessage : StMessage
  deriving Repr, Inhabited

/-- The member functions of `StClientInterface` that the header only declares
(`isServerConnected(name)`, `initMessage(cmdname, rtnIn)`, `sendMessage(rtnIn,
timeoutMSec)`); their bodies are not among the sources, so they are taken as parameters.
Each maps the client before the call to the client after it and the returned value. -/
structure ClientCalls where
  isServerConnected : StClientInterface → String → Bool
  initMessage : StClientInterface → String → Int → StClientInterface × Int
  sendMessage : StClientInterface → Int → Int → StClientInterface × Int

namespace StClientInterface

/-- `StClientInterface::getParam<T>(id, value, index, padIndex)`: the client and the
caller's `value` after the call, and the returned code.  `val0` is the indeterminate
content of the local `T val;`. -/
def getParam {T : Type} (calls : ClientCalls) (ty : JsonType T) (c : StClientInterface)
    (id : String) (value : T) (val0 : T) (index : Nat := 0) (padIndex : Nat := 0) :
    StClientInterface × T × Int :=
  if !calls.isServerConnected c "getParam" then (c, value, ST_ERR_SVR_NOT_OPEN)
  else
    let val := val0
    let r := calls.initMessage c ST_STR_GET_PARAM 0
    let c := r.1
    let rtn := r.2
    let r := c.mCurMessage.setMessageParam string_t ST_STR_PARAM_ID id rtn
    let c := { c with mCurMessage := r.1 }
    let rtn := r.2
    let r := c.mCurMessage.setMessageParam uint32_t ST_STR_PARAM_INDEX index rtn
    let c := { c with mCurMessage := r.1 }
    let rtn := r.2
    let r := c.mCurMessage.setMessageParam uint32_t ST_STR_PAD_INDEX padIndex rtn
    let c := { c with mCurMessage := r.1 }
    let rtn := r.2
    let r := calls.sendMessage c rtn ST_MSG_TIMEOUT_MSEC
    let c := r.1
    let rtn := r.2
    let r := c.mCurMessage.getResponseParam ty ST_STR_PARAM_VALUE val false rtn
    let c := { c with mCurMessage := r.1 }
    let val := r.2.1
    let rtn := r.2.2
    if ST_ERR_OK = rtn then (c, val, rtn)
    else (c, value, rtn)

/-- `StClientInterface::getParamArray<T>(id, values, index, count, padIndex)`: the client
and the caller's `values` after the call, and the returned code. -/
def getParamArray {T : Type} (calls : ClientCalls) (ty : JsonType T) (c : StClientInterface)
    (id : String) (values : List T) (index : Nat := 0) (count : Nat := 1)
    (padIndex : Nat := 0) : StClientInterface × List T × Int :=
  if !calls.isServerConnected c "getParamArray" then (c, values, ST_ERR_SVR_NOT_OPEN)
  else
    let r := calls.initMessage c ST_STR_GET_PARAM_ARRAY 0
    let c := r.1
    let rtn := r.2
    let r := c.mCurMessage.setMessageParam string_t ST_STR_PARAM_ID id rtn
    let c := { c with mCurMessage := r.1 }
    let rtn := r.2
    let r := c.mCurMessage.setMessageParam uint32_t ST_STR_PARAM_INDEX index rtn
    let c := { c with mCurMessage := r.1 }
    let rtn := r.2
    let r := c.mCurMessage.setMessageParam uint32_t ST_STR_PARAM_COUNT count rtn
    let c := { c with mCurMessage := r.1 }
    let rtn := r.2
    let r := c.mCurMessage.setMessageParam uint32_t ST_STR_PAD_INDEX padIndex rtn
    let c := { c with mCurMessage := r.1 }
    let rtn := r.2
    let r := calls.sendMessage c rtn ST_MSG_TIMEOUT_MSEC
    let c := r.1
    let rtn := r.2
    let r := c.mCurMessage.getResponseParamArray ty ST_STR_PARAM_ARRAY values false rtn
    let c := { c with mCurMessage := r.1 }
    (c, r.2.1, r.2.2)

end StClientInterface

/-! ## The thread safe queue (`stutil_queue.hpp`) -/

/-- Queue statistics struct `QueueInfo`.  `accumEntries` is a `double` that only ever
receives sums of entry counts; it is kept as the integer it holds. -/
structure QueueInfo where
  accumEntries : Nat
  pushCount : Nat
  maxEntries : Nat
  minEntries : Nat
  overflowCount : Nat
  deriving Repr, DecidableEq, Inhabited

/-- The data members of `SafeQueue<T>`: the base queue (front first), the maximum queue
length ("0 = no limit") and the statistics.  Every member function holds the mutex for
its whole body, so a call is one step. -/
structure SafeQueue (T : Type) where
  mQueue : List T
  mQueueLength : Nat
  mInfo : QueueInfo
  deriving Repr, DecidableEq

namespace SafeQueue

/-- `SafeQueue::resetStatistics()`. -/
def resetStatistics {T : Type} (q : SafeQueue T) : SafeQueue T :=
  let nEntries := q.mQueue.length % 2 ^ 32
  { q with
    mInfo :=
      { accumEntries := nEntries, maxEntries := nEntries, minEntries := nEntries,
        pushCount := 0, overflowCount := 0 } }

/-- The constructor `SafeQueue(int32_t length = 0)`: an empty queue, `mQueueLength(length)`
converted to `uint32_t`, then `resetStatistics()`. -/
def new {T : Type} (length : Int := 0) : SafeQueue T :=
  resetStatistics
    { mQueue := [], mQueueLength := (length % 2 ^ 32).toNat,
      mInfo := { accumEntries := 0, pushCount := 0, maxEntries := 0, minEntries := 0,
                 overflowCount := 0 } }

/-- `SafeQueue::push(entry)`. -/
def push {T : Type} (q : SafeQueue T) (entry : T) : SafeQueue T :=
  let q := { q with mQueue := q.mQueue ++ [entry] }
  let q := { q with mInfo := { q.mInfo with pushCount := (q.mInfo.pushCount + 1) % 2 ^ 32 } }
  let entryCount := q.mQueue.length % 2 ^ 32
  let q :=
    if entryCount > q.mInfo.maxEntries then
      { q with mInfo := { q.mInfo with maxEntries := entryCount } }
    else q
  let q := { q with mInfo := { q.mInfo with accumEntries := q.mInfo.accumEntries + entryCount } }
  if entryCount > q.mQueueLength then
    { q with mInfo := { q.mInfo with overflowCount := (q.mInfo.overflowCount + 1) % 2 ^ 32 } }
  else q

/-- `SafeQueue::tryPush(entry)`: the queue after the call and the returned flag.  The
`int32_t entryCount` is compared with the `uint32_t` members after conversion to
`unsigned`; it is given by that unsigned value. -/
def tryPush {T : Type} (q : SafeQueue T) (entry : T) : SafeQueue T × Bool :=
  let entryCount := (q.mQueue.length + 1) % 2 ^ 32
  if entryCount ≤ q.mQueueLength then
    let q := { q with mQueue := q.mQueue ++ [entry] }
    let q := { q with mInfo := { q.mInfo with pushCount := (q.mInfo.pushCount + 1) % 2 ^ 32 } }
    let q :=
      if entryCount > q.mInfo.maxEntries then
        { q with mInfo := { q.mInfo with maxEntries := entryCount } }
      else q
    let q :=
      { q with mInfo := { q.mInfo with accumEntries := q.mInfo.accumEntries + entryCount } }
    (q, true)
  else
    ({ q with mInfo := { q.mInfo with overflowCount := (q.mInfo.overflowCount + 1) % 2 ^ 32 } },
      false)

/-- `SafeQueue::getQueueLength()`. -/
def getQueueLength {T : Type} (q : SafeQueue T) : Nat := q.mQueueLength

/-- `SafeQueue::setQueueLength(length)`. -/
def setQueueLength {T : Type} (q : SafeQueue T) (length : Int) : SafeQueue T :=
  { q with mQueueLength := (length % 2 ^ 32).toNat }

/-- `SafeQueue::getOverflowCount()`. -/
def getOverflowCount {T : Type} (q : SafeQueue T) : Nat := q.mInfo.overflowCount

end SafeQueue

/-! ## Alias definitions of the data store (`st_alias.h`, `st_datastore.h`) -/

/-- The properties of `class StAlias`. -/
structure StAlias where
  mId : String
  mDefinition : String
  mProtected : Bool
  deriving Repr, DecidableEq, Inhabited

/-- `StAlias::isProtected()`. -/
def StAlias.isProtected (a : StAlias) : Bool := a.mProtected

/-- The alias collection of `class StDataStore`: `std::map<std::string, StAlias> mAliases`,
kept as a list of entries. -/
structure StDataStore where
  mAliases : List (String × StAlias)
  deriving Repr, DecidableEq, Inhabited

namespace StDataStore

/-- Modelled from the spec: `StDataStore::findAlias(id)`, whose body is in the missing
`st_datastore.cpp` ("`findAlias`/`addAlias`/`deleteAlias`: id-keyed map operations"): the
alias stored under `id`, or `none` for the null pointer when there is none. -/
def findAlias (d : StDataStore) (id : String) : Option StAlias :=
  (d.mAliases.find? fun e => e.1 == id).map Prod.snd

/-- Modelled from the spec: `StDataStore::deleteAlias(id)`, whose body is in the missing
`st_datastore.cpp` ("`deleteAlias` on a protected alias fails without mutation"; "returns
the alias-protected error").  An unprotected alias is erased from the map and 0 is
returned.  The spec does not say what deleting an unknown id returns: that code is the
parameter `rtnUnknown`. -/
def deleteAlias (rtnUnknown : Int) (d : StDataStore) (id : String) : StDataStore × Int :=
  match d.findAlias id with
  | none => (d, rtnUnknown)
  | some a =>
    if a.isProtected then (d, ST_ERR_ALIAS_PROTECTED)
    else ({ d with mAliases := d.mAliases.filter fun e => !(e.1 == id) }, ST_ERR_OK)

end StDataStore

/-! ## Array references in parameter ids (`st_parameter.h`) -/

/-- The text before the first occurrence of the character `c`, and the text behind that
occurrence, `none` when `c` does not occur (`std::string::find` and `substr`). -/
def cutAt (c : Char) : List Char → List Char × Option (List Char)
  | [] => ([], none)
  | x :: xs =>
    if x = c then ([], some xs)
    else ((x :: (cutAt c xs).1), (cutAt c xs).2)

/-- The number written by a list of decimal digits, most significant first. -/
def digitsValue (cs : List Char) : Nat :=
  cs.foldl (fun n c => 10 * n + (c.toNat - 48)) 0

/-- Modelled from the spec: the value of an index written between the brackets of a
parameter id.  The text has to be numeric: at least one character, decimal digits only,
and a value that a `uint32_t` holds. -/
def parseIndex (cs : List Char) : Option Nat :=
  if cs.isEmpty || !cs.all Char.isDigit then none
  else if digitsValue cs < 2 ^ 32 then some (digitsValue cs) else none

/-- Modelled from the spec: `StParameter::splitArrayIndex(fullId, paramId, index,
padIndex)`, whose body is in the missing `st_parameter.cpp` ("parses `Base`, `Base[i]`, or
`Base[i,j]`; returns dimension 0/1/2; malformed bracket syntax (unterminated bracket,
non-numeric index, trailing characters) is an error, not a silent default").  The result
is the returned dimension with `paramId`, `index` and `padIndex`, or the returned error
code.  The spec does not name that code; the model returns `ST_ERR_INDEX` ("Invalid
index"). -/
def StParameter.splitArrayIndex (fullId : String) :
    Except Int (Nat × String × Nat × Nat) :=
  match cutAt '[' fullId.data with
  | (base, none) =>
    if ']' ∈ base then .error ST_ERR_INDEX else .ok (0, String.mk base, 0, 0)
  | (base, some rest) =>
    match cutAt ']' rest with
    | (_, none) => .error ST_ERR_INDEX
    | (inner, some trailing) =>
      if trailing ≠ [] then .error ST_ERR_INDEX
      else
        match cutAt ',' inner with
        | (i, none) =>
          match parseIndex i with
          | some n => .ok (1, String.mk base, n, 0)
          | none => .error ST_ERR_INDEX
        | (i, some j) =>
          match parseIndex i, parseIndex j with
          | some n, some k => .ok (2, String.mk base, n, k)
          | _, _ => .error ST_ERR_INDEX

/-- The decimal digit character of `d < 10`. -/
def digitChar (d : Nat) : Char := Char.ofNat (48 + d)

/-- The digits of `n` put in front of `acc`; `fuel` bounds the number of digits. -/
def decimalAux : Nat → Nat → List Char → List Char
  | 0, _, acc => acc
  | fuel + 1, n, acc =>
    if n / 10 = 0 then digitChar (n % 10) :: acc
    else decimalAux fuel (n / 10) (digitChar (n % 10) :: acc)

/-- The decimal numeral of `n`, without leading zeros. -/
def decimal (n : Nat) : String := String.mk (decimalAux (n + 1) n [])

/-! ## Conversion between raw and scaled values (`st_parameter.h`) -/

namespace ParameterDefinition

end ParameterDefinition

/-! ## The frame buffer and its wire format (`st_framebuffer.h`) -/

/-- The `n` bytes of the unsigned value `v` in memory, least significant first. -/
def leBytes : Nat → Nat → List Nat
  | 0, _ => []
  | n + 1, v => v % 256 :: leBytes n (v / 256)

/-- The unsigned value held by a run of bytes, least significant first. -/
def leValue : List Nat → Nat
  | [] => 0
  | b :: bs => b + 256 * leValue bs

/-- The bytes of consecutive members of a packed record: member widths, member values. -/
def writeFields : List Nat → List Nat → List Nat
  | w :: ws, v :: vs => leBytes w v ++ writeFields ws vs
  | _, _ => []

/-- The values of consecutive members of a packed record read from its bytes. -/
def readFields : List Nat → List Nat → List Nat
  | [], _ => []
  | w :: ws, bs => leValue (bs.take w) :: readFields ws (bs.drop w)

namespace StFrameHeader

/-- The widths in bytes of the members of the packed `struct StFrameHeader` in declaration
order, with the nested `metadata` record replaced by its own members. -/
def fieldWidths : List Nat :=
  (StFrameHeader.members.flatMap fun m =>
    if m.1 = "metadata" then STFrameMetadata.members else [m]).map Prod.snd

/-- The values of the members in the order of `fieldWidths`; the two reserved arrays are
zero, as the constructor's `memset` leaves them. -/
def fieldValues (h : StFrameHeader) : List Nat :=
  [h.headerBytes, h.id, h.version, h.frameType, h.frameBytes, h.frameStatus,
   h.imageBytes, h.imageWidth, h.imageHeight, h.pixelBytes, h.pixelType, 0,
   h.telemetryBytes, h.data1Bytes, h.data2Bytes, h.data3Bytes,
   h.metadata.hostReference, h.metadata.runFrameNumber, h.metadata.triggerFrameNumber,
   h.metadata.timeStamp, h.metadata.integrationTime, h.metadata.interFrameTime,
   h.metadata.exposureMode, h.metadata.detectors,
   h.capCount, 0, h.frameTimestamp]

/-- The header whose members have the given values, in the order of `fieldWidths`. -/
def ofFieldValues : List Nat → Option StFrameHeader
  | [headerBytes, id, version, frameType, frameBytes, frameStatus,
     imageBytes, imageWidth, imageHeight, pixelBytes, pixelType, _,
     telemetryBytes, data1Bytes, data2Bytes, data3Bytes,
     hostReference, runFrameNumber, triggerFrameNumber, timeStamp, integrationTime,
     interFrameTime, exposureMode, detectors,
     capCount, _, frameTimestamp] =>
    some
      { headerBytes := headerBytes, id := id, version := version, frameType := frameType,
        frameBytes := frameBytes, frameStatus := frameStatus,
        imageBytes := imageBytes, imageWidth := imageWidth, imageHeight := imageHeight,
        pixelBytes := pixelBytes, pixelType := pixelType,
        telemetryBytes := telemetryBytes, data1Bytes := data1Bytes,
        data2Bytes := data2Bytes, data3Bytes := data3Bytes,
        metadata :=
          { hostReference := hostReference, runFrameNumber := runFrameNumber,
            triggerFrameNumber := triggerFrameNumber, timeStamp := timeStamp,
            integrationTime := integrationTime, interFrameTime := interFrameTime,
            exposureMode := exposureMode, detectors := detectors },
        capCount := capCount, frameTimestamp := frameTimestamp }
  | _ => none

/-- The bytes of the header record in memory (packed, little-endian target). -/
def toBytes (h : StFrameHeader) : List Nat :=
  writeFields fieldWidths h.fieldValues

/-- The header record held by the first `sizeof(StFrameHeader)` bytes of `bs`; `none`
when there are fewer bytes. -/
def fromBytes (bs : List Nat) : Option StFrameHeader :=
  if bs.length < sizeof_StFrameHeader then none
  else ofFieldValues (readFields fieldWidths bs)

end StFrameHeader

/-- The data of `class StFrameBuffer`: the header member, and the bytes of the allocated
buffer with the sections of the frame (image, telemetry, data 1 to 3, footer) behind one
another. -/
structure StFrameBuffer where
  mHeader : StFrameHeader
  mBuffer : List Nat
  deriving Repr, DecidableEq, Inhabited

namespace StFrameBuffer

/-- `StFrameBuffer::getFrameBytes()`. -/
def getFrameBytes (f : StFrameBuffer) : Nat := f.mHeader.frameBytes

/-- The frame on the wire: the header bytes followed by the sections. -/
def wireBytes (f : StFrameBuffer) : List Nat := f.mHeader.toBytes ++ f.mBuffer

/-- The bytes `[offset, offset + length)` of the section buffer. -/
def slice (f : StFrameBuffer) (offset length : Nat) : List Nat :=
  (f.mBuffer.drop offset).take length

/-- Modelled from the spec: the section behind `getImagePtr()`.  The bodies of the six
section accessors are in the missing `st_framebuffer.cpp` ("accessors expose
pointers/offsets into the single buffer per section (image, telemetry, up to 3 data
sections, footer) computed from the header's own length fields"): the sections lie behind
one another in that order. -/
def getImage (f : StFrameBuffer) : List Nat :=
  f.slice 0 f.mHeader.imageBytes

/-- Modelled from the spec: the section behind `getTelemetryPtr()`. -/
def getTelemetry (f : StFrameBuffer) : List Nat :=
  f.slice f.mHeader.imageBytes f.mHeader.telemetryBytes

/-- Modelled from the spec: the section behind `getData1Ptr()`. -/
def getData1 (f : StFrameBuffer) : List Nat :=
  f.slice (f.mHeader.imageBytes + f.mHeader.telemetryBytes) f.mHeader.data1Bytes

/-- Modelled from the spec: the section behind `getData2Ptr()`. -/
def getData2 (f : StFrameBuffer) : List Nat :=
  f.slice (f.mHeader.imageBytes + f.mHeader.telemetryBytes + f.mHeader.data1Bytes)
    f.mHeader.data2Bytes

/-- Modelled from the spec: the section behind `getData3Ptr()`. -/
def getData3 (f : StFrameBuffer) : List Nat :=
  f.slice
    (f.mHeader.imageBytes + f.mHeader.telemetryBytes + f.mHeader.data1Bytes +
      f.mHeader.data2Bytes)
    f.mHeader.data3Bytes

/-- Modelled from the spec: the section behind `getFooterPtr()`. -/
def getFooter (f : StFrameBuffer) : List Nat :=
  f.slice
    (f.mHeader.imageBytes + f.mHeader.telemetryBytes + f.mHeader.data1Bytes +
      f.mHeader.data2Bytes + f.mHeader.data3Bytes)
    ST_FRAME_FOOTER_BYTES

/-- Modelled from the spec: `StFrameBuffer::serializeTo(pDest, maxBytes)`, whose body is in
the missing `st_framebuffer.cpp` ("bulk copy to an externally owned buffer"; wire format
"256-byte header + sections").  `dest` is the content of the memory at `pDest`; the result
is that memory after the call and the returned code.  A destination of fewer than
`getFrameBytes()` bytes is refused; the spec does not name the code, the model returns
`ST_ERR_FRAME_SIZE` ("Incorrect Frame size"). -/
def serializeTo (f : StFrameBuffer) (dest : List Nat) (maxBytes : Nat) :
    List Nat × Int :=
  if maxBytes < f.getFrameBytes then (dest, ST_ERR_FRAME_SIZE)
  else (f.wireBytes.take f.getFrameBytes ++ dest.drop f.getFrameBytes, ST_ERR_OK)

/-- Modelled from the spec: `StFrameBuffer::deserializeFrom(pSrc, srcBytes)`, whose body is
in the missing `st_framebuffer.cpp` ("bulk copy from an externally owned buffer; fails
without mutating the live object if `srcBytes` is smaller than the header's own declared
total length").  `src` is the content of the memory at `pSrc`; the result is the object
after the call and the returned code, `ST_ERR_FRAME_SIZE` for a refused source. -/
def deserializeFrom (f : StFrameBuffer) (src : List Nat) (srcBytes : Nat) :
    StFrameBuffer × Int :=
  if srcBytes < sizeof_StFrameHeader then (f, ST_ERR_FRAME_SIZE)
  else
    match StFrameHeader.fromBytes src with
    | none => (f, ST_ERR_FRAME_SIZE)
    | some h =>
      if srcBytes < h.frameBytes then (f, ST_ERR_FRAME_SIZE)
      else
        ({ mHeader := h,
           mBuffer := (src.drop sizeof_StFrameHeader).take (h.frameBytes - sizeof_StFrameHeader) },
          ST_ERR_OK)

end StFrameBuffer

/-! ## Sample values used to instantiate the theorems -/

/-- A `GetParam` exchange: the request names a parameter, the response carries its value
and a status text. -/
def sampleMessage : StMessage where
  mMsgStr := ""
  mMsgJson := .object [("Command", .string "GetParam"), ("ParamId", .string "Exposure")]
  mMsgCmdName := "GetParam"
  mMsgCmd := .MM_MSG_GET_PARAM
  mPMsgData := 0
  mMsgDataMaxLen := 0
  mMsgDataLen := 0
  mMsgClient := 3
  mRespStr := ""
  mRespJson := .object [("ParamValue", .number_unsigned 250), ("Status", .string "ok")]
  mRespCmdName := "GetParam"
  mRespCmd := .MM_MSG_GET_PARAM
  mPRespData := 0
  mRespDataMaxLen := 0
  mRespDataLen := 0
  mRespStatus := 0
  mRespClient := 3

/-- The sample exchange with a request that holds only the string field `Status`. -/
def sampleMessageWithStatus : StMessage :=
  { sampleMessage with mMsgJson := .object [("Status", .string "ok")] }

/-- A header of an MM-PAD frame whose section lengths are not yet aligned: a 511 x 511
image of two-byte pixels, 6 bytes of telemetry, and auxiliary sections of 1, 10 and 0
bytes. -/
def sampleHeader : StFrameHeader :=
  { StFrameHeader.init with
    imageWidth := 511, imageHeight := 511, pixelBytes := 2,
    telemetryBytes := 6, data1Bytes := 1, data2Bytes := 10, data3Bytes := 0 }

/-- The header `h` made to hold an image of the given width, height and pixel size, the
given telemetry length and no auxiliary section; every other field is kept. -/
def StFrameHeader.withGeometry (h : StFrameHeader)
    (width height pixelBytes telemetryBytes : Nat) : StFrameHeader :=
  { h with
    imageWidth := width, imageHeight := height, pixelBytes := pixelBytes,
    telemetryBytes := telemetryBytes, data1Bytes := 0, data2Bytes := 0, data3Bytes := 0 }

/-- A header of an MM-PAD frame with a 6 x 2 image of one-byte pixels and 4 bytes of
telemetry: its scanline is 6 bytes long. -/
def narrowHeader : StFrameHeader :=
  { StFrameHeader.init with
    imageWidth := 6, imageHeight := 2, pixelBytes := 1, telemetryBytes := 4 }

/-- A quiet NaN: sign 0, exponent bits all set, top fraction bit set. -/
def quietNaN : Double := ⟨0x7FF8000000000000⟩

/-- The `double` 1.5. -/
def onePointFive : Double := ⟨0x3FF8000000000000⟩

/-- The `double` 2.0. -/
def twoPointZero : Double := ⟨0x4000000000000000⟩

/-- A parameter of dimension 2: element 0 holds the valid, unmodified value 1.5 with raw
value 3, element 1 has never been written. -/
def sampleParameter : StParameter :=
  { mDimension := 2,
    mCachedValue := [⟨onePointFive, 0, 3, true, false⟩, ⟨⟨0⟩, 1, 0, false, false⟩] }

/-- A scalar parameter whose only element holds a valid, unmodified NaN. -/
def nanParameter : StParameter :=
  { mDimension := 1, mCachedValue := [⟨quietNaN, 0, 0, true, false⟩] }

/-- A data store with the protected alias `Detector` and the unprotected alias `Gain`. -/
def sampleStore : StDataStore :=
  { mAliases :=
      [("Detector", ⟨"Detector", "Head[0]", true⟩), ("Gain", ⟨"Gain", "Amp.Gain", false⟩)] }

/-- A connected client whose reusable message is the sample exchange. -/
def sampleClient : StClientInterface :=
  { mIsConnected := true, mClientHandle := 3, mCurMessage := sampleMessage }

/-- Stand-ins for the undefined member functions, for a server that answers every
message with the response document `resp`: the connection test reads `mIsConnected`,
`initMessage` starts an empty request and hands the chained code on, and `sendMessage`
stores `resp` as the response unless the chained code is an error. -/
def sampleCalls (resp : Json) : ClientCalls where
  isServerConnected := fun c _ => c.mIsConnected
  initMessage := fun c _ rtnIn =>
    ({ c with mCurMessage := { c.mCurMessage with mMsgJson := .null, mRespJson := .null } },
      rtnIn)
  sendMessage := fun c rtnIn _ =>
    if rtnIn ≠ 0 then (c, rtnIn)
    else ({ c with mCurMessage := { c.mCurMessage with mRespJson := resp } }, 0)

/-- A frame with every section in use: a 2 x 2 image of one-byte pixels and four bytes
each of telemetry and of the three data sections, with the header that `computeRoundUp`
gives for these lengths (284 bytes in all), and 28 section bytes that all differ. -/
def loadedFrame : StFrameBuffer :=
  { mHeader :=
      ({ StFrameHeader.init with
          imageWidth := 2, imageHeight := 2, pixelBytes := 1, telemetryBytes := 4,
          data1Bytes := 4, data2Bytes := 4, data3Bytes := 4 } : StFrameHeader).computeRoundUp,
    mBuffer :=
      [11, 12, 13, 14, 21, 22, 23, 24, 31, 32, 33, 34, 41, 42, 43, 44, 51, 52, 53, 54,
       61, 62, 63, 64, 65, 66, 67, 68] }

/-- A frame buffer that receives a frame: default header and a zeroed footer. -/
def emptyFrame : StFrameBuffer :=
  { mHeader := StFrameHeader.init, mBuffer := List.replicate 8 0 }

/-- An exchange whose response document is not a tree of named fields but the JSON array
`[1]`. -/
def arrayReplyMessage : StMessage :=
  { sampleMessage with mRespJson := .array [.number_unsigned 1] }

/-- A header with the widest image a `uint16_t` can record: 65535 x 2 one-byte pixels. -/
def wideHeader : StFrameHeader :=
  { StFrameHeader.init with imageWidth := 65535, imageHeight := 2, pixelBytes := 1 }

/-- A header without image whose telemetry and first data section have `2^31` bytes each. -/
def hugeHeader : StFrameHeader :=
  { StFrameHeader.init with telemetryBytes := 2147483648, data1Bytes := 2147483648 }

/-- A header with a 6 x 2 image of one-byte pixels and 4294967016 bytes of telemetry: its
sections add up to `2^32 - 4` bytes. -/
def edgeHeader : StFrameHeader :=
  { StFrameHeader.init with
    imageWidth := 6, imageHeight := 2, pixelBytes := 1, telemetryBytes := 4294967016 }

theorem Json.objFind_objAssign_self (key : String) (v : Json) (fields : List (String × Json)) :
    Json.objFind key (Json.objAssign key v fields) = some v := by
  induction fields with
  | nil => simp [Json.objAssign, Json.objFind]
  | cons p rest ih =>
    obtain ⟨k, old⟩ := p
    simp only [Json.objAssign]
    split_ifs with h1 h2
    · simp [Json.objFind]
    · simp [Json.objFind, h2]
    · simp [Json.objFind, h2, ih]

theorem Json.objFind_objAssign_other (key other : String) (v : Json)
    (fields : List (String × Json)) (hne : other ≠ key) :
    Json.objFind other (Json.objAssign key v fields) = Json.objFind other fields := by
  induction fields with
  | nil => simp [Json.objAssign, Json.objFind, Ne.symm hne]
  | cons p rest ih =>
    obtain ⟨k, old⟩ := p
    simp only [Json.objAssign]
    split_ifs with h1 h2
    · simp [Json.objFind, Ne.symm hne]
    · subst h2
      simp [Json.objFind, Ne.symm hne]
    · by_cases hk : k = other
      · simp [Json.objFind, hk]
      · simp [Json.objFind, hk, ih]

theorem Json.assignKey_ok_of_null_or_object (j : Json) (key : String) (v : Json)
    (hdoc : j.is_null = true ∨ j.is_object = true) :
    ∃ j', j.assignKey key v = .ok j' ∧ j'.find key = some v ∧
      ∀ other, other ≠ key → j'.find other = j.find other := by
  cases j with
  | null =>
    refine ⟨_, rfl, ?_, ?_⟩
    · simp [Json.find, Json.objAssign, Json.objFind]
    · intro other hne
      simp [Json.find, Json.objAssign, Json.objFind, Ne.symm hne]
  | object fields =>
    refine ⟨_, rfl, ?_, ?_⟩
    · simpa [Json.find] using Json.objFind_objAssign_self key v fields
    · intro other hne
      simpa [Json.find] using Json.objFind_objAssign_other key other v fields hne
  | boolean b => simp [Json.is_null, Json.is_object] at hdoc
  | number_integer i => simp [Json.is_null, Json.is_object] at hdoc
  | number_unsigned n => simp [Json.is_null, Json.is_object] at hdoc
  | string s => simp [Json.is_null, Json.is_object] at hdoc
  | array elems => simp [Json.is_null, Json.is_object] at hdoc

theorem Json.atKey_of_find (j : Json) (key : String) (v : Json) (h : j.find key = some v) :
    j.atKey key = .ok v := by
  cases j <;> simp_all [Json.find, Json.atKey]

/-! ## The chained-result accessors of the envelope -/

/-- C1: for each of the six accessors and every non-zero incoming code `rtnIn`, the call
returns exactly `rtnIn`; the whole message after the call equals the message before it, so
neither the request tree nor the response tree is changed, and the destination of a get
accessor is returned as it was. -/
theorem accessor_nonzero_rtnIn_is_noop {T : Type} (ty : JsonType T) (m : StMessage)
    (name : String) (value : T) (values : List T) (optional : Bool) (rtnIn : Int)
    (hE : rtnIn ≠ 0) :
    StMessage.setMessageParam ty m name value rtnIn = (m, rtnIn) ∧
    StMessage.setResponseParam ty m name value rtnIn = (m, rtnIn) ∧
    StMessage.setResponseParamArray ty m name values rtnIn = (m, rtnIn) ∧
    StMessage.getMessageParam ty m name value optional rtnIn = (m, value, rtnIn) ∧
    StMessage.getResponseParam ty m name value optional rtnIn = (m, value, rtnIn) ∧
    StMessage.getResponseParamArray ty m name values optional rtnIn = (m, values, rtnIn) := by
  have h0 : (0 : Int) ≠ rtnIn := Ne.symm hE
  simp [StMessage.setMessageParam, StMessage.setResponseParam,
    StMessage.setResponseParamArray, StMessage.getMessageParam, StMessage.getResponseParam,
    StMessage.getResponseParamArray, h0]

/-- Witness of C1: the six accessors on the sample exchange with the incoming code
`ST_ERR_MSG_NOT_FOUND`. -/
theorem accessor_nonzero_rtnIn_is_noop_witness :
    StMessage.setMessageParam uint32_t sampleMessage "ParamIndex" 7 ST_ERR_MSG_NOT_FOUND
      = (sampleMessage, ST_ERR_MSG_NOT_FOUND) ∧
    StMessage.setResponseParam uint32_t sampleMessage "ParamIndex" 7 ST_ERR_MSG_NOT_FOUND
      = (sampleMessage, ST_ERR_MSG_NOT_FOUND) ∧
    StMessage.setResponseParamArray uint32_t sampleMessage "ParamIndex" [1, 2]
      ST_ERR_MSG_NOT_FOUND = (sampleMessage, ST_ERR_MSG_NOT_FOUND) ∧
    StMessage.getMessageParam uint32_t sampleMessage "ParamIndex" 7 true ST_ERR_MSG_NOT_FOUND
      = (sampleMessage, 7, ST_ERR_MSG_NOT_FOUND) ∧
    StMessage.getResponseParam uint32_t sampleMessage "ParamIndex" 7 true ST_ERR_MSG_NOT_FOUND
      = (sampleMessage, 7, ST_ERR_MSG_NOT_FOUND) ∧
    StMessage.getResponseParamArray uint32_t sampleMessage "ParamIndex" [1, 2] true
      ST_ERR_MSG_NOT_FOUND = (sampleMessage, [1, 2], ST_ERR_MSG_NOT_FOUND) :=
  accessor_nonzero_rtnIn_is_noop uint32_t sampleMessage "ParamIndex" 7 [1, 2] true
    ST_ERR_MSG_NOT_FOUND (by decide)

/-- C2: with `rtnIn = 0` and a target document that is `null` or an object,
`setMessageParam` (resp. `setResponseParam`) returns `ST_ERR_OK`, which is `0` and is not
`ST_ERR_PARAM`; afterwards the target document maps `name` to the encoded value and every
other field name looks up as before. -/
theorem setParam_ok_on_null_or_object {T : Type} (ty : JsonType T) (m : StMessage)
    (name : String) (value : T) :
    ((m.mMsgJson.is_null = true ∨ m.mMsgJson.is_object = true) →
      (StMessage.setMessageParam ty m name value 0).2 = ST_ERR_OK ∧
      (StMessage.setMessageParam ty m name value 0).2 = 0 ∧
      (StMessage.setMessageParam ty m name value 0).2 ≠ ST_ERR_PARAM ∧
      (StMessage.setMessageParam ty m name value 0).1.mMsgJson.find name
        = some (ty.to_json value) ∧
      ∀ other, other ≠ name →
        (StMessage.setMessageParam ty m name value 0).1.mMsgJson.find other
          = m.mMsgJson.find other) ∧
    ((m.mRespJson.is_null = true ∨ m.mRespJson.is_object = true) →
      (StMessage.setResponseParam ty m name value 0).2 = ST_ERR_OK ∧
      (StMessage.setResponseParam ty m name value 0).2 = 0 ∧
      (StMessage.setResponseParam ty m name value 0).2 ≠ ST_ERR_PARAM ∧
      (StMessage.setResponseParam ty m name value 0).1.mRespJson.find name
        = some (ty.to_json value) ∧
      ∀ other, other ≠ name →
        (StMessage.setResponseParam ty m name value 0).1.mRespJson.find other
          = m.mRespJson.find other) := by
  constructor
  · intro hdoc
    obtain ⟨j', hj, hself, hother⟩ :=
      Json.assignKey_ok_of_null_or_object m.mMsgJson name (ty.to_json value) hdoc
    simp only [StMessage.setMessageParam, hj]
    refine ⟨by simp, by simp [ST_ERR_OK], by simp [ST_ERR_OK, ST_ERR_PARAM, ST_ERR_BASE],
      by simpa using hself, ?_⟩
    intro other hne
    simpa using hother other hne
  · intro hdoc
    obtain ⟨j', hj, hself, hother⟩ :=
      Json.assignKey_ok_of_null_or_object m.mRespJson name (ty.to_json value) hdoc
    simp only [StMessage.setResponseParam, hj]
    refine ⟨by simp, by simp [ST_ERR_OK], by simp [ST_ERR_OK, ST_ERR_PARAM, ST_ERR_BASE],
      by simpa using hself, ?_⟩
    intro other hne
    simpa using hother other hne

/-- Witness of C2: a new field `ParamIndex` is set on both object documents of the sample
exchange. -/
theorem setParam_ok_on_null_or_object_witness :
    sampleMessage.mMsgJson.is_object = true ∧ sampleMessage.mRespJson.is_object = true ∧
    ((StMessage.setMessageParam uint32_t sampleMessage "ParamIndex" 7 0).2 = ST_ERR_OK ∧
      (StMessage.setMessageParam uint32_t sampleMessage "ParamIndex" 7 0).2 = 0 ∧
      (StMessage.setMessageParam uint32_t sampleMessage "ParamIndex" 7 0).2 ≠ ST_ERR_PARAM ∧
      (StMessage.setMessageParam uint32_t sampleMessage "ParamIndex" 7 0).1.mMsgJson.find
        "ParamIndex" = some (uint32_t.to_json 7) ∧
      ∀ other, other ≠ "ParamIndex" →
        (StMessage.setMessageParam uint32_t sampleMessage "ParamIndex" 7 0).1.mMsgJson.find
          other = sampleMessage.mMsgJson.find other) ∧
    ((StMessage.setResponseParam uint32_t sampleMessage "ParamIndex" 7 0).2 = ST_ERR_OK ∧
      (StMessage.setResponseParam uint32_t sampleMessage "ParamIndex" 7 0).2 = 0 ∧
      (StMessage.setResponseParam uint32_t sampleMessage "ParamIndex" 7 0).2 ≠ ST_ERR_PARAM ∧
      (StMessage.setResponseParam uint32_t sampleMessage "ParamIndex" 7 0).1.mRespJson.find
        "ParamIndex" = some (uint32_t.to_json 7) ∧
      ∀ other, other ≠ "ParamIndex" →
        (StMessage.setResponseParam uint32_t sampleMessage "ParamIndex" 7 0).1.mRespJson.find
          other = sampleMessage.mRespJson.find other) :=
  ⟨rfl, rfl,
    (setParam_ok_on_null_or_object uint32_t sampleMessage "ParamIndex" 7).1 (Or.inr rfl),
    (setParam_ok_on_null_or_object uint32_t sampleMessage "ParamIndex" 7).2 (Or.inr rfl)⟩

/-- C3: with `rtnIn = 0` and `optional = false`, when the respective document has no field
called `name`, `getMessageParam` and `getResponseParam` return `ST_ERR_MSG_NOT_FOUND`,
which is `-10110`, and hand the destination back unchanged (the message too). -/
theorem getParam_absent_required_not_found {T : Type} (ty : JsonType T) (m : StMessage)
    (name : String) (value : T) :
    ST_ERR_MSG_NOT_FOUND = -10110 ∧
    (m.mMsgJson.find name = none →
      StMessage.getMessageParam ty m name value false 0 = (m, value, ST_ERR_MSG_NOT_FOUND)) ∧
    (m.mRespJson.find name = none →
      StMessage.getResponseParam ty m name value false 0 = (m, value, ST_ERR_MSG_NOT_FOUND)) := by
  refine ⟨by decide, ?_, ?_⟩
  · intro h
    simp [StMessage.getMessageParam, h]
  · intro h
    simp [StMessage.getResponseParam, h]

/-- Witness of C3: `ParamIndex` is in neither document of the sample exchange. -/
theorem getParam_absent_required_not_found_witness :
    sampleMessage.mMsgJson.find "ParamIndex" = none ∧
    sampleMessage.mRespJson.find "ParamIndex" = none ∧
    StMessage.getMessageParam uint32_t sampleMessage "ParamIndex" 7 false 0
      = (sampleMessage, 7, -10110) ∧
    StMessage.getResponseParam uint32_t sampleMessage "ParamIndex" 7 false 0
      = (sampleMessage, 7, -10110) :=
  ⟨rfl, rfl,
    (getParam_absent_required_not_found uint32_t sampleMessage "ParamIndex" 7).2.1 rfl,
    (getParam_absent_required_not_found uint32_t sampleMessage "ParamIndex" 7).2.2 rfl⟩

/-- C4: with `rtnIn = 0`, when the field `name` is present with a JSON value `j` whose
decoding to the destination type throws, `getMessageParam` and `getResponseParam` return
`ST_ERR_MSG_FORMAT`, which is `-10107`, for either value of `optional`. -/
theorem getParam_present_unconvertible_format {T : Type} (ty : JsonType T) (m : StMessage)
    (name : String) (value : T) (optional : Bool) (j : Json) (e : JsonException)
    (hconv : ty.from_json j = .error e) :
    ST_ERR_MSG_FORMAT = -10107 ∧
    (m.mMsgJson.find name = some j →
      (StMessage.getMessageParam ty m name value optional 0).2.2 = ST_ERR_MSG_FORMAT) ∧
    (m.mRespJson.find name = some j →
      (StMessage.getResponseParam ty m name value optional 0).2.2 = ST_ERR_MSG_FORMAT) := by
  refine ⟨by decide, ?_, ?_⟩
  · intro h
    simp [StMessage.getMessageParam, h, Json.atKey_of_find _ _ _ h, hconv]
  · intro h
    simp [StMessage.getResponseParam, h, Json.atKey_of_find _ _ _ h, hconv]

/-- Witness of C4: the string field `Status` requested as an unsigned integer, from the
request and from the response, required and optional. -/
theorem getParam_present_unconvertible_format_witness :
    uint32_t.from_json (.string "ok") = .error (.type_error 302) ∧
    sampleMessageWithStatus.mMsgJson.find "Status" = some (.string "ok") ∧
    sampleMessageWithStatus.mRespJson.find "Status" = some (.string "ok") ∧
    (StMessage.getMessageParam uint32_t sampleMessageWithStatus "Status" 7 false 0).2.2
      = ST_ERR_MSG_FORMAT ∧
    (StMessage.getResponseParam uint32_t sampleMessageWithStatus "Status" 7 true 0).2.2
      = ST_ERR_MSG_FORMAT :=
  ⟨rfl, rfl, rfl,
    (getParam_present_unconvertible_format uint32_t sampleMessageWithStatus "Status" 7 false
      (.string "ok") (.type_error 302) rfl).2.1 rfl,
    (getParam_present_unconvertible_format uint32_t sampleMessageWithStatus "Status" 7 true
      (.string "ok") (.type_error 302) rfl).2.2 rfl⟩

/-- C5: with `rtnIn = 0` and `optional = true`, when the field `name` is absent,
`getMessageParam`, `getResponseParam` and `getResponseParamArray` return `ST_ERR_OK`,
which is `0`, and hand the destination value or vector back exactly as it was. -/
theorem getParam_absent_optional_ok {T : Type} (ty : JsonType T) (m : StMessage)
    (name : String) (value : T) (values : List T) :
    ST_ERR_OK = 0 ∧
    (m.mMsgJson.find name = none →
      StMessage.getMessageParam ty m name value true 0 = (m, value, ST_ERR_OK)) ∧
    (m.mRespJson.find name = none →
      StMessage.getResponseParam ty m name value true 0 = (m, value, ST_ERR_OK) ∧
      StMessage.getResponseParamArray ty m name values true 0 = (m, values, ST_ERR_OK)) := by
  refine ⟨rfl, ?_, ?_⟩
  · intro h
    simp [StMessage.getMessageParam, h]
  · intro h
    simp [StMessage.getResponseParam, StMessage.getResponseParamArray, h]

/-- Witness of C5: the optional field `ParamIndex` is in neither document of the sample
exchange. -/
theorem getParam_absent_optional_ok_witness :
    sampleMessage.mMsgJson.find "ParamIndex" = none ∧
    sampleMessage.mRespJson.find "ParamIndex" = none ∧
    StMessage.getMessageParam uint32_t sampleMessage "ParamIndex" 7 true 0
      = (sampleMessage, 7, 0) ∧
    StMessage.getResponseParam uint32_t sampleMessage "ParamIndex" 7 true 0
      = (sampleMessage, 7, 0) ∧
    StMessage.getResponseParamArray uint32_t sampleMessage "ParamIndex" [1, 2] true 0
      = (sampleMessage, [1, 2], 0) :=
  ⟨rfl, rfl,
    (getParam_absent_optional_ok uint32_t sampleMessage "ParamIndex" 7 [1, 2]).2.1 rfl,
    (getParam_absent_optional_ok uint32_t sampleMessage "ParamIndex" 7 [1, 2]).2.2 rfl⟩

/-- C6: the two documents and the payload descriptors are independent.  `setMessageParam`
replaces at most the request tree; `setResponseParam` and `setResponseParamArray` replace
at most the response tree; every other member, the payload pointer, length and capacity of
both sides among them, keeps its value.  The get accessors return the message they were
given.  `setMessageData` changes neither tree (nor the payload descriptor of the response
side). -/
theorem accessors_frame {T : Type} (ty : JsonType T) (m : StMessage) (name : String)
    (value : T) (values : List T) (optional : Bool) (rtnIn : Int)
    (sizeofT pdata len maxlen : Nat) :
    (∃ j, (StMessage.setMessageParam ty m name value rtnIn).1 = { m with mMsgJson := j }) ∧
    (∃ j, (StMessage.setResponseParam ty m name value rtnIn).1 = { m with mRespJson := j }) ∧
    (∃ j, (StMessage.setResponseParamArray ty m name values rtnIn).1
      = { m with mRespJson := j }) ∧
    (StMessage.getMessageParam ty m name value optional rtnIn).1 = m ∧
    (StMessage.getResponseParam ty m name value optional rtnIn).1 = m ∧
    (StMessage.getResponseParamArray ty m name values optional rtnIn).1 = m ∧
    (StMessage.setMessageData sizeofT m pdata len maxlen).1.mMsgJson = m.mMsgJson ∧
    (StMessage.setMessageData sizeofT m pdata len maxlen).1.mRespJson = m.mRespJson ∧
    (StMessage.setMessageData sizeofT m pdata len maxlen).1.mPRespData = m.mPRespData ∧
    (StMessage.setMessageData sizeofT m pdata len maxlen).1.mRespDataLen = m.mRespDataLen ∧
    (StMessage.setMessageData sizeofT m pdata len maxlen).1.mRespDataMaxLen
      = m.mRespDataMaxLen := by
  refine ⟨?_, ?_, ?_, ?_, ?_, ?_, ?_⟩
  · unfold StMessage.setMessageParam
    split_ifs
    · exact ⟨m.mMsgJson, rfl⟩
    · cases h : m.mMsgJson.assignKey name (ty.to_json value) with
      | error e => exact ⟨m.mMsgJson, rfl⟩
      | ok j => exact ⟨j, rfl⟩
  · unfold StMessage.setResponseParam
    split_ifs
    · exact ⟨m.mRespJson, rfl⟩
    · cases h : m.mRespJson.assignKey name (ty.to_json value) with
      | error e => exact ⟨m.mRespJson, rfl⟩
      | ok j => exact ⟨j, rfl⟩
  · unfold StMessage.setResponseParamArray
    split_ifs
    · exact ⟨m.mRespJson, rfl⟩
    · split
      · exact ⟨m.mRespJson, rfl⟩
      · split <;> exact ⟨_, rfl⟩
  · unfold StMessage.getMessageParam
    repeat' split
    all_goals rfl
  · unfold StMessage.getResponseParam
    repeat' split
    all_goals rfl
  · unfold StMessage.getResponseParamArray
    repeat' split
    all_goals first
      | rfl
      | (dsimp only; split <;> rfl)
  · simp only [StMessage.setMessageData]
    split_ifs <;> simp

/-! ## Alignment of the frame header -/

theorem roundUp_32_dvd (v m : Nat) (hm : m ≠ 0) : m ∣ roundUp 32 v m := by
  unfold roundUp
  split_ifs with h1
  · have : m = 1 := by omega
    subst this
    exact one_dvd v
  · have hlt : ((v + m) % 2 ^ 32 + 2 ^ 32 - 1) % 2 ^ 32 < 2 ^ 32 :=
      Nat.mod_lt _ (by norm_num)
    have hle : ((v + m) % 2 ^ 32 + 2 ^ 32 - 1) % 2 ^ 32 / m * m < 2 ^ 32 :=
      lt_of_le_of_lt (Nat.div_mul_le_self _ _) hlt
    rw [Nat.mod_eq_of_lt hle, Nat.mod_eq_of_lt hle]
    exact Nat.dvd_mul_left m _

theorem roundUp_32_four_dvd (v : Nat) : 4 ∣ roundUp 32 v 4 :=
  roundUp_32_dvd v 4 (by decide)

theorem roundUp_32_four_eq (v : Nat) (hv : v + 3 < 2 ^ 32) :
    roundUp 32 v 4 = (v + 3) / 4 * 4 := by
  have hX : ((v + 4) % 2 ^ 32 + 2 ^ 32 - 1) % 2 ^ 32 = v + 3 := by omega
  have hle : (v + 3) / 4 * 4 < 2 ^ 32 := lt_of_le_of_lt (Nat.div_mul_le_self _ _) hv
  unfold roundUp
  rw [if_neg (by decide), hX, Nat.mod_eq_of_lt hle, Nat.mod_eq_of_lt hle]

theorem roundUp_32_four_isLeast (v : Nat) (hv : v + 3 < 2 ^ 32) :
    IsLeast {x | 4 ∣ x ∧ v ≤ x} (roundUp 32 v 4) := by
  rw [roundUp_32_four_eq v hv]
  refine ⟨⟨Nat.dvd_mul_left 4 _, by omega⟩, ?_⟩
  rintro x ⟨hx4, hvx⟩
  omega

theorem computeRoundUp_frameBytes_eq (h : StFrameHeader) :
    h.computeRoundUp.imageWidth = roundUp 16 h.imageWidth 2 ∧
    h.computeRoundUp.pixelBytes = h.pixelBytes ∧
    h.computeRoundUp.frameBytes
      = roundUp 32
          ((ST_FRAME_HEADER_BYTES +
              roundUp 32
                ((roundUp 16 h.imageWidth 2 * roundUp 16 h.imageHeight 2 * h.pixelBytes)
                  % 2 ^ 32) 4 +
              roundUp 32 h.telemetryBytes 4 + roundUp 32 h.data1Bytes 4 +
              roundUp 32 h.data2Bytes 4 + roundUp 32 h.data3Bytes 4 +
              ST_FRAME_FOOTER_BYTES) % 2 ^ 32)
          ((roundUp 16 h.imageWidth 2 * h.pixelBytes) % 2 ^ 32) :=
  ⟨rfl, rfl, rfl⟩

/-- C7: for every header state, after `computeRoundUp` each of `imageBytes`,
`telemetryBytes`, `data1Bytes`, `data2Bytes`, `data3Bytes` is a multiple of 4; and each of
the last four is the least multiple of 4 that is not less than its previous value, provided
that multiple fits 32 bits (`old + 3 < 2 ^ 32`). -/
theorem computeRoundUp_sections_aligned (h : StFrameHeader) :
    (4 ∣ h.computeRoundUp.imageBytes ∧ 4 ∣ h.computeRoundUp.telemetryBytes ∧
      4 ∣ h.computeRoundUp.data1Bytes ∧ 4 ∣ h.computeRoundUp.data2Bytes ∧
      4 ∣ h.computeRoundUp.data3Bytes) ∧
    (h.telemetryBytes + 3 < 2 ^ 32 →
      IsLeast {x | 4 ∣ x ∧ h.telemetryBytes ≤ x} h.computeRoundUp.telemetryBytes) ∧
    (h.data1Bytes + 3 < 2 ^ 32 →
      IsLeast {x | 4 ∣ x ∧ h.data1Bytes ≤ x} h.computeRoundUp.data1Bytes) ∧
    (h.data2Bytes + 3 < 2 ^ 32 →
      IsLeast {x | 4 ∣ x ∧ h.data2Bytes ≤ x} h.computeRoundUp.data2Bytes) ∧
    (h.data3Bytes + 3 < 2 ^ 32 →
      IsLeast {x | 4 ∣ x ∧ h.data3Bytes ≤ x} h.computeRoundUp.data3Bytes) :=
  ⟨⟨roundUp_32_four_dvd _, roundUp_32_four_dvd _, roundUp_32_four_dvd _,
      roundUp_32_four_dvd _, roundUp_32_four_dvd _⟩,
    roundUp_32_four_isLeast _, roundUp_32_four_isLeast _, roundUp_32_four_isLeast _,
    roundUp_32_four_isLeast _⟩

/-- Witness of C7: the sample header, whose sections of 6, 1, 10 and 0 bytes become 8, 4,
12 and 0 bytes. -/
theorem computeRoundUp_sections_aligned_witness :
    (sampleHeader.telemetryBytes + 3 < 2 ^ 32 ∧ sampleHeader.data1Bytes + 3 < 2 ^ 32 ∧
      sampleHeader.data2Bytes + 3 < 2 ^ 32 ∧ sampleHeader.data3Bytes + 3 < 2 ^ 32) ∧
    (sampleHeader.computeRoundUp.telemetryBytes = 8 ∧
      sampleHeader.computeRoundUp.data1Bytes = 4 ∧
      sampleHeader.computeRoundUp.data2Bytes = 12 ∧
      sampleHeader.computeRoundUp.data3Bytes = 0) ∧
    IsLeast {x | 4 ∣ x ∧ sampleHeader.telemetryBytes ≤ x}
      sampleHeader.computeRoundUp.telemetryBytes ∧
    IsLeast {x | 4 ∣ x ∧ sampleHeader.data1Bytes ≤ x} sampleHeader.computeRoundUp.data1Bytes ∧
    IsLeast {x | 4 ∣ x ∧ sampleHeader.data2Bytes ≤ x} sampleHeader.computeRoundUp.data2Bytes ∧
    IsLeast {x | 4 ∣ x ∧ sampleHeader.data3Bytes ≤ x} sampleHeader.computeRoundUp.data3Bytes :=
  ⟨by decide, by decide,
    (computeRoundUp_sections_aligned sampleHeader).2.1 (by decide),
    (computeRoundUp_sections_aligned sampleHeader).2.2.1 (by decide),
    (computeRoundUp_sections_aligned sampleHeader).2.2.2.1 (by decide),
    (computeRoundUp_sections_aligned sampleHeader).2.2.2.2 (by decide)⟩

/-- C8: for every header state whose fields fit their types and whose scanline length
`imageWidth * pixelBytes` after `computeRoundUp` is not zero, the total frame length
`frameBytes` after `computeRoundUp` is an exact multiple of that scanline length.  No bound
on the section sizes is needed: the multiple is taken after the 32-bit sum. -/
theorem computeRoundUp_frameBytes_whole_scanlines (h : StFrameHeader) (hv : h.valid)
    (hline : h.computeRoundUp.imageWidth * h.computeRoundUp.pixelBytes ≠ 0) :
    h.computeRoundUp.imageWidth * h.computeRoundUp.pixelBytes ∣ h.computeRoundUp.frameBytes := by
  obtain ⟨hW, hP, hF⟩ := computeRoundUp_frameBytes_eq h
  rw [hW, hP] at hline ⊢
  have hpb : h.pixelBytes < 2 ^ 8 := hv.2.2.2.2.2.2.2.2.2.1
  have hw : roundUp 16 h.imageWidth 2 < 2 ^ 16 := by
    unfold roundUp
    rw [if_neg (by decide)]
    exact Nat.mod_lt _ (by decide)
  have hprod : roundUp 16 h.imageWidth 2 * h.pixelBytes < 2 ^ 32 := by
    calc roundUp 16 h.imageWidth 2 * h.pixelBytes
        ≤ 2 ^ 16 * 2 ^ 8 := Nat.mul_le_mul (le_of_lt hw) (le_of_lt hpb)
      _ < 2 ^ 32 := by decide
  rw [hF, Nat.mod_eq_of_lt hprod]
  exact roundUp_32_dvd _ _ hline

/-- Witness of C8: the sample header gets a scanline of 1024 bytes and a frame of 513
scanlines. -/
theorem computeRoundUp_frameBytes_whole_scanlines_witness :
    sampleHeader.valid ∧
    sampleHeader.computeRoundUp.imageWidth * sampleHeader.computeRoundUp.pixelBytes ≠ 0 ∧
    sampleHeader.computeRoundUp.imageWidth * sampleHeader.computeRoundUp.pixelBytes
      ∣ sampleHeader.computeRoundUp.frameBytes :=
  ⟨by decide, by decide,
    computeRoundUp_frameBytes_whole_scanlines sampleHeader (by decide) (by decide)⟩

/-- Counterexample to C9: the narrow header is a valid header with small sizes; its
sections add up to 280 bytes and its scanline is 6 bytes, so `computeRoundUp` sets
`frameBytes` to 282, which is not a multiple of 4. -/
theorem computeRoundUp_frameBytes_not_aligned :
    narrowHeader.valid ∧
    narrowHeader.computeRoundUp.imageWidth * narrowHeader.computeRoundUp.pixelBytes = 6 ∧
    narrowHeader.computeRoundUp.frameBytes = 282 ∧
    ¬ (4 ∣ narrowHeader.computeRoundUp.frameBytes) := by
  decide

/-- C9 as amended: for every header state, when the scanline length
`imageWidth * pixelBytes` after `computeRoundUp` is a multiple of 4 (zero included), the
total frame length `frameBytes` after `computeRoundUp` is a multiple of 4. -/
theorem computeRoundUp_frameBytes_aligned_of_scanline (h : StFrameHeader)
    (hline : 4 ∣ h.computeRoundUp.imageWidth * h.computeRoundUp.pixelBytes) :
    4 ∣ h.computeRoundUp.frameBytes := by
  obtain ⟨hW, hP, hF⟩ := computeRoundUp_frameBytes_eq h
  rw [hW, hP] at hline
  rw [hF]
  have hmod : 4 ∣ (roundUp 16 h.imageWidth 2 * h.pixelBytes) % 2 ^ 32 :=
    (Nat.dvd_mod_iff (by decide)).2 hline
  by_cases hz : (roundUp 16 h.imageWidth 2 * h.pixelBytes) % 2 ^ 32 = 0
  · have hret : ∀ v, roundUp 32 v 0 = v := fun v => by simp [roundUp]
    rw [hz, hret]
    refine (Nat.dvd_mod_iff (by decide)).2 ?_
    have hI := roundUp_32_four_dvd
      ((roundUp 16 h.imageWidth 2 * roundUp 16 h.imageHeight 2 * h.pixelBytes) % 2 ^ 32)
    have hT := roundUp_32_four_dvd h.telemetryBytes
    have h1 := roundUp_32_four_dvd h.data1Bytes
    have h2 := roundUp_32_four_dvd h.data2Bytes
    have h3 := roundUp_32_four_dvd h.data3Bytes
    have hH : 4 ∣ ST_FRAME_HEADER_BYTES := by decide
    have hFt : 4 ∣ ST_FRAME_FOOTER_BYTES := by decide
    exact Nat.dvd_add (Nat.dvd_add (Nat.dvd_add (Nat.dvd_add (Nat.dvd_add
      (Nat.dvd_add hH hI) hT) h1) h2) h3) hFt
  · exact dvd_trans hmod (roundUp_32_dvd _ _ hz)

/-- Witness of C9 as amended: the sample header gets a scanline of 1024 bytes. -/
theorem computeRoundUp_frameBytes_aligned_of_scanline_witness :
    4 ∣ sampleHeader.computeRoundUp.imageWidth * sampleHeader.computeRoundUp.pixelBytes ∧
    4 ∣ sampleHeader.computeRoundUp.frameBytes :=
  ⟨by decide, computeRoundUp_frameBytes_aligned_of_scanline sampleHeader (by decide)⟩

theorem computeRoundUp_withGeometry (h : StFrameHeader) (w ht pb tb : Nat) :
    (h.withGeometry w ht pb tb).computeRoundUp.imageWidth = roundUp 16 w 2 ∧
    (h.withGeometry w ht pb tb).computeRoundUp.imageHeight = roundUp 16 ht 2 ∧
    (h.withGeometry w ht pb tb).computeRoundUp.pixelBytes = pb ∧
    (h.withGeometry w ht pb tb).computeRoundUp.imageBytes
      = roundUp 32 ((roundUp 16 w 2 * roundUp 16 ht 2 * pb) % 2 ^ 32) 4 ∧
    (h.withGeometry w ht pb tb).computeRoundUp.frameBytes
      = roundUp 32
          ((ST_FRAME_HEADER_BYTES +
              roundUp 32 ((roundUp 16 w 2 * roundUp 16 ht 2 * pb) % 2 ^ 32) 4 +
              roundUp 32 tb 4 + roundUp 32 0 4 + roundUp 32 0 4 + roundUp 32 0 4 +
              ST_FRAME_FOOTER_BYTES) % 2 ^ 32)
          ((roundUp 16 w 2 * pb) % 2 ^ 32) :=
  ⟨rfl, rfl, rfl, rfl, rfl⟩

/-- C10: for a header that holds the raw geometry of a detector variant, one telemetry
block per head and no auxiliary sections (its other fields are arbitrary), `computeRoundUp`
keeps `imageWidth` and `imageHeight`, sets `imageBytes` to the raw image length of the
variant and `frameBytes` to `imageHeight + 1` scanlines: MM-PAD 512 x 512 x 4 with 384
telemetry bytes gives 1048576 and 1050624, Mega-PAD 1024 x 1024 x 4 with 1536 gives 4194304
and 4198400, Keck-PAD 512 x 512 x 2 with 384 gives 524288 and 525312. -/
theorem computeRoundUp_raw_geometry (h : StFrameHeader) :
    ((MX_RAW_IMAGE_WIDTH = 512 ∧ MX_RAW_IMAGE_HEIGHT = 512 ∧ MX_RAW_PIXEL_BYTES = 4 ∧
        MM_SUBFRAME_COUNT * ST_SUBFRAME_TELEM_BYTES = 384 ∧ MX_RAW_IMAGE_BYTES = 1048576) ∧
      (h.withGeometry MX_RAW_IMAGE_WIDTH MX_RAW_IMAGE_HEIGHT MX_RAW_PIXEL_BYTES
          (MM_SUBFRAME_COUNT * ST_SUBFRAME_TELEM_BYTES)).computeRoundUp.imageWidth = 512 ∧
      (h.withGeometry MX_RAW_IMAGE_WIDTH MX_RAW_IMAGE_HEIGHT MX_RAW_PIXEL_BYTES
          (MM_SUBFRAME_COUNT * ST_SUBFRAME_TELEM_BYTES)).computeRoundUp.imageHeight = 512 ∧
      (h.withGeometry MX_RAW_IMAGE_WIDTH MX_RAW_IMAGE_HEIGHT MX_RAW_PIXEL_BYTES
          (MM_SUBFRAME_COUNT * ST_SUBFRAME_TELEM_BYTES)).computeRoundUp.imageBytes
        = MX_RAW_IMAGE_BYTES ∧
      (h.withGeometry MX_RAW_IMAGE_WIDTH MX_RAW_IMAGE_HEIGHT MX_RAW_PIXEL_BYTES
          (MM_SUBFRAME_COUNT * ST_SUBFRAME_TELEM_BYTES)).computeRoundUp.frameBytes = 1050624 ∧
      1050624 = (512 + 1) * (512 * 4)) ∧
    ((MG_RAW_IMAGE_WIDTH = 1024 ∧ MG_RAW_IMAGE_HEIGHT = 1024 ∧
        MG_SUBFRAME_COUNT * ST_SUBFRAME_TELEM_BYTES = 1536 ∧ MG_RAW_IMAGE_BYTES = 4194304) ∧
      (h.withGeometry MG_RAW_IMAGE_WIDTH MG_RAW_IMAGE_HEIGHT MX_RAW_PIXEL_BYTES
          (MG_SUBFRAME_COUNT * ST_SUBFRAME_TELEM_BYTES)).computeRoundUp.imageWidth = 1024 ∧
      (h.withGeometry MG_RAW_IMAGE_WIDTH MG_RAW_IMAGE_HEIGHT MX_RAW_PIXEL_BYTES
          (MG_SUBFRAME_COUNT * ST_SUBFRAME_TELEM_BYTES)).computeRoundUp.imageHeight = 1024 ∧
      (h.withGeometry MG_RAW_IMAGE_WIDTH MG_RAW_IMAGE_HEIGHT MX_RAW_PIXEL_BYTES
          (MG_SUBFRAME_COUNT * ST_SUBFRAME_TELEM_BYTES)).computeRoundUp.imageBytes
        = MG_RAW_IMAGE_BYTES ∧
      (h.withGeometry MG_RAW_IMAGE_WIDTH MG_RAW_IMAGE_HEIGHT MX_RAW_PIXEL_BYTES
          (MG_SUBFRAME_COUNT * ST_SUBFRAME_TELEM_BYTES)).computeRoundUp.frameBytes = 4198400 ∧
      4198400 = (1024 + 1) * (1024 * 4)) ∧
    ((KK_RAW_IMAGE_WIDTH = 512 ∧ KK_RAW_IMAGE_HEIGHT = 512 ∧ KK_RAW_PIXEL_BYTES = 2 ∧
        KK_SUBFRAME_COUNT * ST_SUBFRAME_TELEM_BYTES = 384 ∧ KK_RAW_IMAGE_BYTES = 524288) ∧
      (h.withGeometry KK_RAW_IMAGE_WIDTH KK_RAW_IMAGE_HEIGHT KK_RAW_PIXEL_BYTES
          (KK_SUBFRAME_COUNT * ST_SUBFRAME_TELEM_BYTES)).computeRoundUp.imageWidth = 512 ∧
      (h.withGeometry KK_RAW_IMAGE_WIDTH KK_RAW_IMAGE_HEIGHT KK_RAW_PIXEL_BYTES
          (KK_SUBFRAME_COUNT * ST_SUBFRAME_TELEM_BYTES)).computeRoundUp.imageHeight = 512 ∧
      (h.withGeometry KK_RAW_IMAGE_WIDTH KK_RAW_IMAGE_HEIGHT KK_RAW_PIXEL_BYTES
          (KK_SUBFRAME_COUNT * ST_SUBFRAME_TELEM_BYTES)).computeRoundUp.imageBytes
        = KK_RAW_IMAGE_BYTES ∧
      (h.withGeometry KK_RAW_IMAGE_WIDTH KK_RAW_IMAGE_HEIGHT KK_RAW_PIXEL_BYTES
          (KK_SUBFRAME_COUNT * ST_SUBFRAME_TELEM_BYTES)).computeRoundUp.frameBytes = 525312 ∧
      525312 = (512 + 1) * (512 * 2)) := by
  have eMM := computeRoundUp_withGeometry h MX_RAW_IMAGE_WIDTH MX_RAW_IMAGE_HEIGHT
    MX_RAW_PIXEL_BYTES (MM_SUBFRAME_COUNT * ST_SUBFRAME_TELEM_BYTES)
  have eMG := computeRoundUp_withGeometry h MG_RAW_IMAGE_WIDTH MG_RAW_IMAGE_HEIGHT
    MX_RAW_PIXEL_BYTES (MG_SUBFRAME_COUNT * ST_SUBFRAME_TELEM_BYTES)
  have eKK := computeRoundUp_withGeometry h KK_RAW_IMAGE_WIDTH KK_RAW_IMAGE_HEIGHT
    KK_RAW_PIXEL_BYTES (KK_SUBFRAME_COUNT * ST_SUBFRAME_TELEM_BYTES)
  rw [eMM.1, eMM.2.1, eMM.2.2.2.1, eMM.2.2.2.2, eMG.1, eMG.2.1, eMG.2.2.2.1, eMG.2.2.2.2,
    eKK.1, eKK.2.1, eKK.2.2.2.1, eKK.2.2.2.2]
  norm_num [roundUp, ST_FRAME_HEADER_BYTES, ST_FRAME_FOOTER_BYTES,
    MX_RAW_IMAGE_WIDTH, MX_RAW_IMAGE_HEIGHT, MX_RAW_PIXEL_BYTES, MX_RAW_IMAGE_PIXELS,
    MX_RAW_IMAGE_BYTES, MG_RAW_IMAGE_WIDTH, MG_RAW_IMAGE_HEIGHT, MG_RAW_IMAGE_PIXELS,
    MG_RAW_IMAGE_BYTES, KK_RAW_IMAGE_WIDTH, KK_RAW_IMAGE_HEIGHT, KK_RAW_PIXEL_BYTES,
    KK_RAW_IMAGE_PIXELS, KK_RAW_IMAGE_BYTES, MM_SUBFRAME_COUNT, MG_SUBFRAME_COUNT,
    KK_SUBFRAME_COUNT, ST_SUBFRAME_TELEM_BYTES, ST_SUBFRAME_SENSOR_COUNT,
    ST_SENSOR_TELEM_BYTES, ST_SENSOR_TELEM_VALUES]

/-! ## The minimal header and the sizes of the packed records -/

/-- C11: a default-constructed `StFrameHeader` for a system type `t` describes a frame
that is header plus footer only: `headerBytes = 256`, `id = 0x5354`, `version = 0x0102`,
`frameType = t`, `frameStatus = 0`, the image width, height, pixel size and every section
length are 0, and `frameBytes = 264 = ST_FRAME_HEADER_BYTES + ST_FRAME_FOOTER_BYTES`. -/
theorem init_is_header_plus_footer (t : STSystemType) :
    (StFrameHeader.init t).headerBytes = 256 ∧
    (StFrameHeader.init t).id = 0x5354 ∧
    (StFrameHeader.init t).version = 0x0102 ∧
    (StFrameHeader.init t).frameType = t.toNat ∧
    (StFrameHeader.init t).frameStatus = 0 ∧
    (StFrameHeader.init t).imageWidth = 0 ∧
    (StFrameHeader.init t).imageHeight = 0 ∧
    (StFrameHeader.init t).pixelBytes = 0 ∧
    (StFrameHeader.init t).imageBytes = 0 ∧
    (StFrameHeader.init t).telemetryBytes = 0 ∧
    (StFrameHeader.init t).data1Bytes = 0 ∧
    (StFrameHeader.init t).data2Bytes = 0 ∧
    (StFrameHeader.init t).data3Bytes = 0 ∧
    (StFrameHeader.init t).frameBytes = 264 ∧
    (StFrameHeader.init t).frameBytes = ST_FRAME_HEADER_BYTES + ST_FRAME_FOOTER_BYTES := by
  cases t <;> decide

/-- C12: the packed `StFrameHeader` occupies exactly 256 bytes.  Its members in
declaration order are 16 bytes of frame parameters, 16 of image parameters, 16 of section
lengths, the 40-byte `STFrameMetadata` record, 1 byte `capCount`, `rsvd3Bytes = 159`
reserved bytes (the subtractions that define it do not wrap) and 8 bytes
`frameTimestamp`; they sum to `ST_FRAME_HEADER_BYTES`. -/
theorem sizeof_StFrameHeader_eq :
    sizeof_StFrameHeader = ST_FRAME_HEADER_BYTES ∧ sizeof_StFrameHeader = 256 ∧
    ((StFrameHeader.members.take 6).map Prod.snd).sum = 16 ∧
    (((StFrameHeader.members.drop 6).take 6).map Prod.snd).sum = 16 ∧
    (((StFrameHeader.members.drop 12).take 4).map Prod.snd).sum = 16 ∧
    (StFrameHeader.members.drop 16).map Prod.snd = [sizeof_STFrameMetadata, 1, 159, 8] ∧
    StFrameHeader.rsvd3Bytes = 159 ∧
    3 * 16 + sizeof_STFrameMetadata + 1 + 8 + StFrameHeader.rsvd3Bytes = ST_FRAME_HEADER_BYTES ∧
    sizeof_STFrameMetadata = 40 := by
  decide

/-- C13: in each raw wire-format record (`MXRawFrame`, `KKRawFrame`, `MMGCRawFrame`) the
members that follow the image (metadata, telemetry, `marker1`, padding, `marker2`) are 40,
384, 8, the padding and 8 bytes long and add up to one image scanline (2048, 1024 and 4256
bytes); the padding byte count does not wrap below zero and is a multiple of 4 (1608, 584,
3816), so `PAD_WORDS * 4 = PAD_BYTES`; and the whole raw frame is `imageHeight + 1`
scanlines long (1050624, 525312 and 2608928 bytes). -/
theorem raw_frame_trailer_is_one_scanline :
    (sizeof_STFrameMetadata = 40 ∧ sizeof_STRawTelemetry = 384) ∧
    (((MXRawFrame.members.drop 1).map Prod.snd = [40, 384, 8, MX_RAW_FRAME_PAD_BYTES, 8] ∧
        ((MXRawFrame.members.drop 1).map Prod.snd).sum = MX_RAW_IMAGE_WIDTH * MX_RAW_PIXEL_BYTES ∧
        MX_RAW_IMAGE_WIDTH * MX_RAW_PIXEL_BYTES = 2048) ∧
      (MX_RAW_FRAME_META_BYTES + MX_RAW_FRAME_TELEMETRY_BYTES + MX_RAW_FRAME_MARKER_BYTES
          ≤ MX_RAW_FRAME_FOOTER_BYTES ∧
        MX_RAW_FRAME_PAD_BYTES = 1608 ∧ 4 ∣ MX_RAW_FRAME_PAD_BYTES ∧
        MX_RAW_FRAME_PAD_WORDS * 4 = MX_RAW_FRAME_PAD_BYTES) ∧
      (MX_RAW_FRAME_BYTES = (MX_RAW_IMAGE_HEIGHT + 1) * (MX_RAW_IMAGE_WIDTH * MX_RAW_PIXEL_BYTES) ∧
        MX_RAW_FRAME_BYTES = 1050624)) ∧
    (((KKRawFrame.members.drop 1).map Prod.snd = [40, 384, 8, KK_RAW_FRAME_PAD_BYTES, 8] ∧
        ((KKRawFrame.members.drop 1).map Prod.snd).sum = KK_RAW_IMAGE_WIDTH * KK_RAW_PIXEL_BYTES ∧
        KK_RAW_IMAGE_WIDTH * KK_RAW_PIXEL_BYTES = 1024) ∧
      (KK_RAW_FRAME_META_BYTES + KK_RAW_FRAME_TELEMETRY_BYTES + KK_RAW_FRAME_MARKER_BYTES
          ≤ KK_RAW_FRAME_FOOTER_BYTES ∧
        KK_RAW_FRAME_PAD_BYTES = 584 ∧ 4 ∣ KK_RAW_FRAME_PAD_BYTES ∧
        KK_RAW_FRAME_PAD_WORDS * 4 = KK_RAW_FRAME_PAD_BYTES) ∧
      (KK_RAW_FRAME_BYTES = (KK_RAW_IMAGE_HEIGHT + 1) * (KK_RAW_IMAGE_WIDTH * KK_RAW_PIXEL_BYTES) ∧
        KK_RAW_FRAME_BYTES = 525312)) ∧
    (((MMGCRawFrame.members.drop 1).map Prod.snd = [40, 384, 8, MM_GC_RAW_FRAME_PAD_BYTES, 8] ∧
        ((MMGCRawFrame.members.drop 1).map Prod.snd).sum
          = MM_GC_RAW_IMAGE_WIDTH * MMGC_RAW_PIXEL_BYTES ∧
        MM_GC_RAW_IMAGE_WIDTH * MMGC_RAW_PIXEL_BYTES = 4256) ∧
      (MM_GC_RAW_FRAME_META_BYTES + MM_GC_RAW_FRAME_TELEMETRY_BYTES
          + MM_GC_RAW_FRAME_MARKER_BYTES ≤ MM_GC_RAW_FRAME_FOOTER_BYTES ∧
        MM_GC_RAW_FRAME_PAD_BYTES = 3816 ∧ 4 ∣ MM_GC_RAW_FRAME_PAD_BYTES ∧
        MM_GC_RAW_FRAME_PAD_WORDS * 4 = MM_GC_RAW_FRAME_PAD_BYTES) ∧
      (MM_GC_RAW_FRAME_BYTES
          = (MM_GC_RAW_IMAGE_HEIGHT + 1) * (MM_GC_RAW_IMAGE_WIDTH * MMGC_RAW_PIXEL_BYTES) ∧
        MM_GC_RAW_FRAME_BYTES = 2608928)) := by
  decide

/-! ## Classification of result codes -/

/-- C18: for every code (the 32-bit signed ones among them), `isStatusCode` and
`isErrorCode` are never both true, and both are false for the success code 0 and for
every positive code. -/
theorem status_and_error_codes_disjoint (code : Int) :
    ¬ (isStatusCode code = true ∧ isErrorCode code = true) ∧
    (0 ≤ code → isStatusCode code = false ∧ isErrorCode code = false) := by
  simp only [isStatusCode, isErrorCode, ST_STATUS_BASE, ST_STATUS_END, ST_ERR_END,
    ST_ERR_SYSTEM, Bool.and_eq_true, Bool.or_eq_true, decide_eq_true_eq,
    Bool.and_eq_false_iff, Bool.or_eq_false_iff, decide_eq_false_iff_not]
  constructor
  · omega
  · intro h
    omega

/-- Witness of C18: the success code 0. -/
theorem status_and_error_codes_disjoint_witness :
    (0 : Int) ≤ 0 ∧ isStatusCode 0 = false ∧ isErrorCode 0 = false :=
  ⟨le_refl 0, (status_and_error_codes_disjoint 0).2 (le_refl 0)⟩

set_option maxRecDepth 100000 in
/-- C19: every named error constant of `st_errors.h` (194 of them, `ST_ERR_UNKNOWN`,
`ST_ERR_INVALID` and the three version codes included) satisfies `isErrorCode` and not
`isStatusCode`; every named status constant (11 of them) satisfies `isStatusCode` and not
`isErrorCode`; and all of these constants are pairwise distinct. -/
theorem named_constants_classified :
    (namedErrorConstants.length = 194 ∧ namedStatusConstants.length = 11 ∧
      ST_ERR_UNKNOWN ∈ namedErrorConstants ∧ ST_ERR_INVALID ∈ namedErrorConstants ∧
      ST_ERR_DATA_RTSUP_VER ∈ namedErrorConstants ∧
      ST_ERR_DATA_HFPGA_VER ∈ namedErrorConstants ∧
      ST_ERR_DATA_SFPGA_VER ∈ namedErrorConstants ∧
      ST_STATUS_EXIT_OK ∈ namedStatusConstants) ∧
    (∀ c ∈ namedErrorConstants, isErrorCode c = true ∧ isStatusCode c = false) ∧
    (∀ c ∈ namedStatusConstants, isStatusCode c = true ∧ isErrorCode c = false) ∧
    (namedErrorConstants ++ namedStatusConstants).Nodup := by
  refine ⟨by decide, by decide, by decide, by decide⟩

/-! ## Cached parameter values -/

/-- C14: for a parameter of dimension `d` and every index `>= d`, `getCachedValue` and
`setCachedValue` both return `ST_ERR_INDEX`, which is `-10212`; `getCachedValue` hands the
destination back unchanged and `setCachedValue` leaves the parameter, every cached slot
included, unchanged. -/
theorem cachedValue_index_out_of_range {T : Type} (ty : DoubleCast T) (p : StParameter)
    (index padIndex : Nat) (value : T) (rawValue : Nat) (hidx : index ≥ p.mDimension) :
    ST_ERR_INDEX = -10212 ∧
    StParameter.getCachedValue ty p index padIndex value = some (value, ST_ERR_INDEX) ∧
    StParameter.setCachedValue ty p index padIndex value rawValue = some (p, ST_ERR_INDEX) := by
  refine ⟨by decide, ?_, ?_⟩
  · simp [StParameter.getCachedValue, hidx]
  · simp [StParameter.setCachedValue, hidx]

/-- Witness of C14: index 2 of the sample parameter of dimension 2. -/
theorem cachedValue_index_out_of_range_witness :
    2 ≥ sampleParameter.mDimension ∧
    StParameter.getCachedValue double_t sampleParameter 2 0 twoPointZero
      = some (twoPointZero, -10212) ∧
    StParameter.setCachedValue double_t sampleParameter 2 0 twoPointZero 4
      = some (sampleParameter, -10212) :=
  ⟨by decide,
    (cachedValue_index_out_of_range double_t sampleParameter 2 0 twoPointZero 4
      (by decide)).2⟩

/-- Counterexample to C15: the only slot of `nanParameter` is valid, not modified and
holds a NaN; writing the same NaN again leaves the value as it was and still sets
`isModified`, because a NaN compares unequal to itself. -/
theorem setCachedValue_unchanged_nan_sets_modified :
    nanParameter.mCachedValue = [⟨quietNaN, 0, 0, true, false⟩] ∧
    StParameter.setCachedValue double_t nanParameter 0 0 quietNaN 0
      = some ({ mDimension := 1, mCachedValue := [⟨quietNaN, 0, 0, true, true⟩] }, ST_ERR_OK) := by
  decide

/-- C15 as amended: for every index below the dimension whose slot `old` exists,
`setCachedValue(index, v, raw)` returns 0 and afterwards that slot has `value = v` (cast to
`double`), `rawValue = raw`, `isValid = true` and
`isModified = old.isModified || (old.isValid && v != old.value)`, with `!=` the comparison
of `double`; the other slots and the dimension are unchanged.  In particular a write to a
slot that was not valid, and a write of a value that compares equal to the stored one,
leave `isModified` as it was. -/
theorem setCachedValue_in_range {T : Type} (ty : DoubleCast T) (p : StParameter)
    (index padIndex : Nat) (v : T) (raw : Nat) (old : CachedValue_t)
    (hidx : index < p.mDimension) (hslot : p.mCachedValue[index]? = some old) :
    ∃ p' slot,
      StParameter.setCachedValue ty p index padIndex v raw = some (p', ST_ERR_OK) ∧
      ST_ERR_OK = 0 ∧
      p'.mDimension = p.mDimension ∧
      p'.mCachedValue[index]? = some slot ∧
      slot = { value := ty.toDouble v, index := old.index, rawValue := raw, isValid := true,
               isModified :=
                 old.isModified || (old.isValid && Double.ne (ty.toDouble v) old.value) } ∧
      (∀ i, i ≠ index → p'.mCachedValue[i]? = p.mCachedValue[i]?) ∧
      (old.isValid = false → slot.isModified = old.isModified) ∧
      (Double.ne (ty.toDouble v) old.value = false → slot.isModified = old.isModified) := by
  have hlt : index < p.mCachedValue.length := by
    rcases Nat.lt_or_ge index p.mCachedValue.length with h | h
    · exact h
    · rw [List.getElem?_eq_none h] at hslot
      exact absurd hslot (by simp)
  have hset : StParameter.setCachedValue ty p index padIndex v raw =
      some ({ p with
              mCachedValue := p.mCachedValue.set index
                { value := ty.toDouble v, index := old.index, rawValue := raw,
                  isValid := true,
                  isModified :=
                    old.isModified ||
                      (old.isValid && Double.ne (ty.toDouble v) old.value) } },
            ST_ERR_OK) := by
    simp only [StParameter.setCachedValue, hslot, if_neg (Nat.not_le.mpr hidx)]
    cases hv : old.isValid <;> cases hn : Double.ne (ty.toDouble v) old.value <;>
      cases hm : old.isModified <;> simp [hv, hn, hm]
  refine ⟨_, _, hset, rfl, rfl, ?_, rfl, ?_, ?_, ?_⟩
  · simp [hlt]
  · intro i hi
    simp [List.getElem?_set, Ne.symm hi]
  · intro hv
    simp [hv]
  · intro hn
    simp [hn]

/-- Witness of C15 as amended: 2.0 with raw value 4 is written over the valid 1.5 in
element 0 of the sample parameter, which becomes modified. -/
theorem setCachedValue_in_range_witness :
    0 < sampleParameter.mDimension ∧
    sampleParameter.mCachedValue[0]? = some ⟨onePointFive, 0, 3, true, false⟩ ∧
    ∃ p' slot,
      StParameter.setCachedValue double_t sampleParameter 0 0 twoPointZero 4
        = some (p', ST_ERR_OK) ∧
      ST_ERR_OK = 0 ∧
      p'.mDimension = sampleParameter.mDimension ∧
      p'.mCachedValue[0]? = some slot ∧
      slot = { value := double_t.toDouble twoPointZero,
               index := (⟨onePointFive, 0, 3, true, false⟩ : CachedValue_t).index,
               rawValue := 4, isValid := true,
               isModified :=
                 (⟨onePointFive, 0, 3, true, false⟩ : CachedValue_t).isModified ||
                   ((⟨onePointFive, 0, 3, true, false⟩ : CachedValue_t).isValid &&
                     Double.ne (double_t.toDouble twoPointZero)
                       (⟨onePointFive, 0, 3, true, false⟩ : CachedValue_t).value) } ∧
      (∀ i, i ≠ 0 → p'.mCachedValue[i]? = sampleParameter.mCachedValue[i]?) ∧
      ((⟨onePointFive, 0, 3, true, false⟩ : CachedValue_t).isValid = false →
        slot.isModified = (⟨onePointFive, 0, 3, true, false⟩ : CachedValue_t).isModified) ∧
      (Double.ne (double_t.toDouble twoPointZero)
          (⟨onePointFive, 0, 3, true, false⟩ : CachedValue_t).value = false →
        slot.isModified = (⟨onePointFive, 0, 3, true, false⟩ : CachedValue_t).isModified) :=
  ⟨by decide, by decide,
    setCachedValue_in_range double_t sampleParameter 0 0 twoPointZero 4
      ⟨onePointFive, 0, 3, true, false⟩ (by decide) (by decide)⟩

/-! ## The double buffer -/

theorem DoubleBuf.nextOutput_set {T : Type} (b : DoubleBuf T) (v : T) :
    (b.set v).nextOutput = v := by
  cases h : b.mIn0 <;> simp [DoubleBuf.set, DoubleBuf.setLocked, DoubleBuf.setIndex,
    DoubleBuf.nextOutput, h]

theorem DoubleBuf.get_eq_nextOutput {T : Type} (b : DoubleBuf T) :
    b.get.2 = b.nextOutput ∧ b.get.1.nextOutput = b.nextOutput := by
  cases h1 : b.mSwap <;> cases h2 : b.mIn0 <;>
    simp [DoubleBuf.get, DoubleBuf.nextOutput, h1, h2]

theorem DoubleBuf.run_append {T : Type} (b : DoubleBuf T) (l1 l2 : List (DoubleBuf.Call T)) :
    b.run (l1 ++ l2) = (b.run l1).run l2 := by
  induction l1 generalizing b with
  | nil => rfl
  | cons c rest ih =>
    cases c with
    | set src => simpa [DoubleBuf.run] using ih (b.set src)
    | get => simpa [DoubleBuf.run] using ih b.get.1

theorem DoubleBuf.nextOutput_run_gets {T : Type} (b : DoubleBuf T) (n : Nat) :
    (b.run (List.replicate n .get)).nextOutput = b.nextOutput := by
  induction n generalizing b with
  | zero => rfl
  | succ k ih =>
    rw [List.replicate_succ]
    show (b.get.1.run (List.replicate k .get)).nextOutput = b.nextOutput
    rw [ih b.get.1, (DoubleBuf.get_eq_nextOutput b).2]

/-- C16: in a sequence of uninterrupted `set` and `get` calls on a freshly constructed
`DoubleBuf` (whatever its two buffers hold), a `get` that comes after some `set v` and any
number of `get` calls since returns exactly `v`, whatever calls came before that `set`; in
particular after `set(v1); set(v2); set(v3)` a `get` returns `v3`. -/
theorem doubleBuf_get_returns_latest_set {T : Type} (d0 d1 : T)
    (calls : List (DoubleBuf.Call T)) (v : T) (n : Nat) :
    ((DoubleBuf.new d0 d1).run (calls ++ [.set v] ++ List.replicate n .get)).get.2 = v ∧
    (∀ v1 v2 v3 : T, ((DoubleBuf.new d0 d1).run [.set v1, .set v2, .set v3]).get.2 = v3) := by
  constructor
  · rw [DoubleBuf.run_append, DoubleBuf.run_append, (DoubleBuf.get_eq_nextOutput _).1,
      DoubleBuf.nextOutput_run_gets]
    exact DoubleBuf.nextOutput_set _ v
  · intro v1 v2 v3
    rw [(DoubleBuf.get_eq_nextOutput _).1]
    exact DoubleBuf.nextOutput_set _ v3

/-- C17, on the schedule that breaks it: `set(1)` completes; the writer starts `set(2)` and
reads `mIn0` (index 0); the reader runs a `get`, which swaps the buffers and returns 1; the
writer then stores 2 into buffer 0, now the output buffer, and asks for a swap; the next
`get` swaps again and returns the initial content 0 of buffer 1, although `set(2)` is the
most recently completed `set`. -/
theorem doubleBuf_interleaved_get_misses_completed_set :
    ((DoubleBuf.Threads.start 0 0).run
      [.setBegin 1, .setEnd, .setBegin 2, .get, .setEnd, .get]).reads
      = [(0, some 2), (1, some 1)] := by
  decide

/-! ## Command keywords and command ids -/

/-- Counterexample to C20: the 28 command keywords are pairwise distinct, and the ids
other than `MM_MSG_INVALID` are the 27 pairwise distinct entries of `commandIds`, so the
number of keywords differs from the number of ids and no pairing of all keywords with ids
is one-to-one. -/
theorem command_keywords_outnumber_ids :
    commandKeywords.Nodup ∧ commandKeywords.length = 28 ∧
    (∀ c : MMMsgCmd, c ∈ commandIds ↔ c ≠ .MM_MSG_INVALID) ∧
    commandIds.Nodup ∧ commandIds.length = 27 ∧
    commandKeywords.length ≠ commandIds.length := by
  refine ⟨by decide, by decide, ?_, by decide, by decide, by decide⟩
  intro c
  cases c <;> decide

/-- C20 as amended: the command keywords are non-empty and pairwise distinct; every id
other than `MM_MSG_INVALID` has a keyword of its own in the table, which is one of the
command keywords and looks up to that id, and distinct ids have distinct keywords; every
command keyword except `ST_STR_GET_DATA_DICTIONARY` is the keyword of an id, while
`ST_STR_GET_DATA_DICTIONARY` is the keyword of none and looks up to `MM_MSG_INVALID`; so
there is one keyword more than there are ids. -/
theorem command_ids_have_own_keywords :
    (∀ k ∈ commandKeywords, k ≠ "") ∧ commandKeywords.Nodup ∧
    (∀ c ∈ commandIds, c.keyword ∈ commandKeywords ∧ lookupCommand c.keyword = c) ∧
    (∀ c ∈ commandIds, ∀ c' ∈ commandIds, c.keyword = c'.keyword → c = c') ∧
    (∀ k ∈ commandKeywords, k ≠ ST_STR_GET_DATA_DICTIONARY →
      ∃ c ∈ commandIds, c.keyword = k) ∧
    (∀ c ∈ commandIds, c.keyword ≠ ST_STR_GET_DATA_DICTIONARY) ∧
    lookupCommand ST_STR_GET_DATA_DICTIONARY = .MM_MSG_INVALID ∧
    commandKeywords.length = commandIds.length + 1 := by
  refine ⟨by decide, by decide, by decide, by decide, by decide, by decide, by decide,
    by decide⟩

/-! ## Rounding helpers -/

theorem roundUp_32_eq (v m : Nat) (hm : 1 < m) (hv : v + m - 1 < 2 ^ 32) :
    roundUp 32 v m = (v + m - 1) / m * m := by
  have hX : ((v + m) % 2 ^ 32 + 2 ^ 32 - 1) % 2 ^ 32 = v + m - 1 := by omega
  have hle : (v + m - 1) / m * m < 2 ^ 32 := lt_of_le_of_lt (Nat.div_mul_le_self _ _) hv
  unfold roundUp
  rw [if_neg (by omega), hX, Nat.mod_eq_of_lt hle, Nat.mod_eq_of_lt hle]

theorem roundDown_32_eq (v m : Nat) (hm : 1 < m) (hv : v < 2 ^ 32) :
    roundDown 32 v m = v / m * m := by
  have hle : v / m * m < 2 ^ 32 := lt_of_le_of_lt (Nat.div_mul_le_self _ _) hv
  unfold roundDown
  rw [if_neg (by omega), Nat.mod_eq_of_lt hv, Nat.mod_eq_of_lt hle, Nat.mod_eq_of_lt hle]

theorem div_mul_isLeast (v m : Nat) (hm : 1 < m) :
    IsLeast {x | m ∣ x ∧ v ≤ x} ((v + m - 1) / m * m) := by
  refine ⟨⟨Nat.dvd_mul_left m _, ?_⟩, ?_⟩
  · have h1 := Nat.div_add_mod (v + m - 1) m
    have h2 := Nat.mod_lt (v + m - 1) (show m > 0 by omega)
    rw [Nat.mul_comm] at h1
    omega
  · rintro x ⟨⟨k, rfl⟩, hvx⟩
    have hlt : v + m - 1 < m * (k + 1) := by
      rw [Nat.mul_add, Nat.mul_one]
      omega
    have hq : (v + m - 1) / m < k + 1 := Nat.div_lt_of_lt_mul hlt
    calc (v + m - 1) / m * m ≤ k * m := Nat.mul_le_mul_right m (by omega)
      _ = m * k := Nat.mul_comm k m

theorem div_mul_isGreatest (v m : Nat) (hm : 1 < m) :
    IsGreatest {x | m ∣ x ∧ x ≤ v} (v / m * m) := by
  refine ⟨⟨Nat.dvd_mul_left m _, Nat.div_mul_le_self v m⟩, ?_⟩
  rintro x ⟨⟨k, rfl⟩, hxv⟩
  have hk : k ≤ v / m := (Nat.le_div_iff_mul_le (by omega)).2 (by rw [Nat.mul_comm]; exact hxv)
  calc m * k = k * m := Nat.mul_comm m k
    _ ≤ v / m * m := Nat.mul_le_mul_right m hk

theorem roundUp_bits_eq (bitsT v m : Nat) (hm : 1 < m) (hv : v + m - 1 < 2 ^ 32) :
    roundUp bitsT v m = (v + m - 1) / m * m % 2 ^ bitsT := by
  have hX : ((v + m) % 2 ^ 32 + 2 ^ 32 - 1) % 2 ^ 32 = v + m - 1 := by omega
  have hle : (v + m - 1) / m * m < 2 ^ 32 := lt_of_le_of_lt (Nat.div_mul_le_self _ _) hv
  unfold roundUp
  rw [if_neg (by omega), hX, Nat.mod_eq_of_lt hle]

theorem roundDown_bits_eq (bitsT v m : Nat) (hm : 1 < m) (hv : v < 2 ^ 32) :
    roundDown bitsT v m = v / m * m % 2 ^ bitsT := by
  have hle : v / m * m < 2 ^ 32 := lt_of_le_of_lt (Nat.div_mul_le_self _ _) hv
  unfold roundDown
  rw [if_neg (by omega), Nat.mod_eq_of_lt hv, Nat.mod_eq_of_lt hle]

/-- Counterexample to C21: `roundUp<uint16_t>(65535, 2)`, the call `computeRoundUp` makes
for an image width of 65535, lies inside the bound `v + m - 1 < 2^32`; the arithmetic on
`unsigned int` gives 65536 and the cast to `uint16_t` gives 0, which is below 65535 and so
is not the least multiple of 2 that is `>= 65535`. -/
theorem roundUp_narrow_type_wraps :
    (1 : Nat) < 2 ∧ 65535 + 2 - 1 < 2 ^ 32 ∧ 65535 < 2 ^ 16 ∧
    roundUp 16 65535 2 = 0 ∧ ¬ (65535 ≤ roundUp 16 65535 2) ∧
    roundUp 32 65535 2 = 65536 := by
  decide

/-- C21 as amended: for every unsigned type `T` of `bitsT` bits, every value `v` and
every multiple `m > 1` with `v + m - 1 < 2 ^ 32`: when the least multiple of `m` that is
`>= v` fits `T`, `roundUp<T>(v, m)` is that multiple, and when the greatest multiple of
`m` that is `<= v` fits `T`, `roundDown<T>(v, m)` is that multiple; for `T = uint32_t`
both fit, so `roundUp(v, m)` is the least multiple `>= v` and `roundDown(v, m)` the
greatest multiple `<= v`.  For `m = 0` and `m = 1` both return `v` unchanged, for every
type `T`, without reaching the division. -/
theorem roundUp_roundDown_are_nearest_multiples (bitsT v m : Nat) :
    (1 < m → v + m - 1 < 2 ^ 32 →
      (∀ x, IsLeast {y | m ∣ y ∧ v ≤ y} x → x < 2 ^ bitsT → roundUp bitsT v m = x) ∧
      (∀ x, IsGreatest {y | m ∣ y ∧ y ≤ v} x → x < 2 ^ bitsT → roundDown bitsT v m = x)) ∧
    (1 < m → v + m - 1 < 2 ^ 32 →
      IsLeast {x | m ∣ x ∧ v ≤ x} (roundUp 32 v m) ∧
      IsGreatest {x | m ∣ x ∧ x ≤ v} (roundDown 32 v m)) ∧
    (m ≤ 1 → roundUp bitsT v m = v ∧ roundDown bitsT v m = v) := by
  refine ⟨?_, ?_, ?_⟩
  · intro hm hv
    constructor
    · intro x hx hfit
      have hx' : x = (v + m - 1) / m * m := hx.unique (div_mul_isLeast v m hm)
      rw [roundUp_bits_eq bitsT v m hm hv, ← hx', Nat.mod_eq_of_lt hfit]
    · intro x hx hfit
      have hx' : x = v / m * m := hx.unique (div_mul_isGreatest v m hm)
      rw [roundDown_bits_eq bitsT v m hm (by omega), ← hx', Nat.mod_eq_of_lt hfit]
  · intro hm hv
    rw [roundUp_32_eq v m hm hv, roundDown_32_eq v m hm (by omega)]
    exact ⟨div_mul_isLeast v m hm, div_mul_isGreatest v m hm⟩
  · intro hm
    simp [roundUp, roundDown, hm]

/-- Witness of C21 as amended: 1049224 rounded to the 2048-byte scanline of an MM-PAD
frame as `uint32_t`, the image width 511 rounded to even as `uint16_t`, and a value rounded
with the multiples 0 and 1. -/
theorem roundUp_roundDown_are_nearest_multiples_witness :
    ((1 : Nat) < 2048 ∧ 1049224 + 2048 - 1 < 2 ^ 32 ∧ (1 : Nat) < 2 ∧ 511 + 2 - 1 < 2 ^ 32 ∧
      (512 : Nat) < 2 ^ 16 ∧ (510 : Nat) < 2 ^ 16 ∧ (0 : Nat) ≤ 1 ∧ (1 : Nat) ≤ 1) ∧
    (IsLeast {x | 2048 ∣ x ∧ 1049224 ≤ x} (roundUp 32 1049224 2048) ∧
      IsGreatest {x | 2048 ∣ x ∧ x ≤ 1049224} (roundDown 32 1049224 2048)) ∧
    roundUp 16 511 2 = 512 ∧ roundDown 16 511 2 = 510 ∧
    (roundUp 16 1049224 0 = 1049224 ∧ roundDown 16 1049224 0 = 1049224) ∧
    (roundUp 32 1049224 1 = 1049224 ∧ roundDown 32 1049224 1 = 1049224) :=
  ⟨by decide,
    (roundUp_roundDown_are_nearest_multiples 32 1049224 2048).2.1 (by decide) (by decide),
    ((roundUp_roundDown_are_nearest_multiples 16 511 2).1 (by decide) (by decide)).1 512
      (by
        refine ⟨⟨by decide, by decide⟩, ?_⟩
        rintro y ⟨hy2, hy⟩
        omega)
      (by decide),
    ((roundUp_roundDown_are_nearest_multiples 16 511 2).1 (by decide) (by decide)).2 510
      (by
        refine ⟨⟨by decide, by decide⟩, ?_⟩
        rintro y ⟨hy2, hy⟩
        omega)
      (by decide),
    (roundUp_roundDown_are_nearest_multiples 16 1049224 0).2.2 (by decide),
    (roundUp_roundDown_are_nearest_multiples 32 1049224 1).2.2 (by decide)⟩

/-! ## The binary payload of a message -/

theorem setMessageData_keeps_capacity (sizeofT : Nat) (m : StMessage) (pdata len maxlen : Nat)
    (hp : pdata ≠ 0) :
    (StMessage.setMessageData sizeofT m pdata len maxlen).1.mMsgDataMaxLen
      = m.mMsgDataMaxLen := by
  simp [StMessage.setMessageData, hp]

/-- C22, on an input that breaks it: on the sample message, whose payload capacity is 0, a
non-null buffer of 8 bytes of which 4 are used is attached as `uint8_t`.  The test
`0 > maxlen` on the unsigned `maxlen` never holds, so the capacity stays 0, the length is
clamped to 0 and 0 is returned, where the claim has capacity 8, length 4 and result 4.
The pointer is recorded. -/
theorem setMessageData_does_not_record_capacity :
    sampleMessage.mMsgDataMaxLen = 0 ∧
    (StMessage.setMessageData 1 sampleMessage 4096 4 8).2 = 0 ∧
    (StMessage.setMessageData 1 sampleMessage 4096 4 8).1.mPMsgData = 4096 ∧
    (StMessage.setMessageData 1 sampleMessage 4096 4 8).1.mMsgDataMaxLen = 0 ∧
    (StMessage.setMessageData 1 sampleMessage 4096 4 8).1.mMsgDataLen = 0 ∧
    StMessage.getMessageDataMaxLength 1 (StMessage.setMessageData 1 sampleMessage 4096 4 8).1
      = 0 ∧
    StMessage.getMessageDataLength 1 (StMessage.setMessageData 1 sampleMessage 4096 4 8).1
      = 0 := by
  decide

/-! ## The thread safe queue -/

theorem SafeQueue.tryPush_length_zero {T : Type} (q : SafeQueue T) (entry : T)
    (h0 : q.mQueueLength = 0) (hsize : q.mQueue.length + 1 < 2 ^ 32) :
    (q.tryPush entry).2 = false ∧ (q.tryPush entry).1.mQueue = q.mQueue ∧
    (q.tryPush entry).1.mInfo.overflowCount = (q.mInfo.overflowCount + 1) % 2 ^ 32 := by
  have hne : ¬ ((q.mQueue.length + 1) % 4294967296 ≤ q.mQueueLength) := by
    omega
  simp [SafeQueue.tryPush, hne]

/-- C25, on an input that breaks it: a default-constructed queue has queue length 0,
documented as "no limit".  `tryPush(7)` computes `entryCount = 1`, finds `1 <= 0` false,
returns false, leaves the queue empty and counts an overflow; `push(7)` appends the entry
and, since `1 > 0`, counts an overflow as well.  The claim has `tryPush` return true and
append, and `push` leave the overflow count alone. -/
theorem safeQueue_length_zero_overflows :
    (SafeQueue.new : SafeQueue Nat).getQueueLength = 0 ∧
    (SafeQueue.new : SafeQueue Nat).getOverflowCount = 0 ∧
    ((SafeQueue.new : SafeQueue Nat).tryPush 7).2 = false ∧
    ((SafeQueue.new : SafeQueue Nat).tryPush 7).1.mQueue = [] ∧
    ((SafeQueue.new : SafeQueue Nat).tryPush 7).1.getOverflowCount = 1 ∧
    ((SafeQueue.new : SafeQueue Nat).push 7).mQueue = [7] ∧
    ((SafeQueue.new : SafeQueue Nat).push 7).getOverflowCount = 1 := by
  decide

/-! ## Alias definitions -/

/-- C29: for every data store and every alias id whose definition has the protected flag
set, `deleteAlias(id)` returns `ST_ERR_ALIAS_PROTECTED`, which is `-10711`, the store with
its alias map is unchanged, and `findAlias(id)` still returns that alias afterwards. -/
theorem deleteAlias_protected (rtnUnknown : Int) (d : StDataStore) (id : String) (a : StAlias)
    (hfind : d.findAlias id = some a) (hprot : a.isProtected = true) :
    ST_ERR_ALIAS_PROTECTED = -10711 ∧
    d.deleteAlias rtnUnknown id = (d, ST_ERR_ALIAS_PROTECTED) ∧
    (d.deleteAlias rtnUnknown id).1.mAliases = d.mAliases ∧
    (d.deleteAlias rtnUnknown id).1.findAlias id = some a := by
  have h : d.deleteAlias rtnUnknown id = (d, ST_ERR_ALIAS_PROTECTED) := by
    simp [StDataStore.deleteAlias, hfind, hprot]
  refine ⟨by decide, h, ?_, ?_⟩
  · rw [h]
  · rw [h]
    exact hfind

/-- Witness of C29: the protected alias `Detector` of the sample store. -/
theorem deleteAlias_protected_witness :
    sampleStore.findAlias "Detector" = some ⟨"Detector", "Head[0]", true⟩ ∧
    (⟨"Detector", "Head[0]", true⟩ : StAlias).isProtected = true ∧
    ST_ERR_ALIAS_PROTECTED = -10711 ∧
    sampleStore.deleteAlias 0 "Detector" = (sampleStore, ST_ERR_ALIAS_PROTECTED) ∧
    (sampleStore.deleteAlias 0 "Detector").1.mAliases = sampleStore.mAliases ∧
    (sampleStore.deleteAlias 0 "Detector").1.findAlias "Detector"
      = some ⟨"Detector", "Head[0]", true⟩ :=
  ⟨by decide, rfl,
    deleteAlias_protected 0 sampleStore "Detector" ⟨"Detector", "Head[0]", true⟩
      (by decide) rfl⟩

/-! ## Set followed by get -/

theorem setMessageParam_then_get {T : Type} (ty : JsonType T) (m : StMessage) (name : String)
    (v dest : T) (optional : Bool)
    (hdoc : m.mMsgJson.is_null = true ∨ m.mMsgJson.is_object = true)
    (hrt : ty.from_json (ty.to_json v) = .ok v) :
    (StMessage.setMessageParam ty m name v 0).2 = 0 ∧
    (StMessage.getMessageParam ty (StMessage.setMessageParam ty m name v 0).1 name dest
      optional 0).2 = (v, 0) := by
  obtain ⟨j, hj, hself, _⟩ :=
    Json.assignKey_ok_of_null_or_object m.mMsgJson name (ty.to_json v) hdoc
  have hat := Json.atKey_of_find j name _ hself
  simp [StMessage.setMessageParam, StMessage.getMessageParam, hj, hself, hat, hrt, ST_ERR_OK]

theorem setResponseParam_then_get {T : Type} (ty : JsonType T) (m : StMessage) (name : String)
    (v dest : T) (optional : Bool)
    (hdoc : m.mRespJson.is_null = true ∨ m.mRespJson.is_object = true)
    (hrt : ty.from_json (ty.to_json v) = .ok v) :
    (StMessage.setResponseParam ty m name v 0).2 = 0 ∧
    (StMessage.getResponseParam ty (StMessage.setResponseParam ty m name v 0).1 name dest
      optional 0).2 = (v, 0) := by
  obtain ⟨j, hj, hself, _⟩ :=
    Json.assignKey_ok_of_null_or_object m.mRespJson name (ty.to_json v) hdoc
  have hat := Json.atKey_of_find j name _ hself
  simp [StMessage.setResponseParam, StMessage.getResponseParam, hj, hself, hat, hrt, ST_ERR_OK]

theorem uint32_t_decode_encode (v : Nat) (hv : v < 2 ^ 32) :
    uint32_t.from_json (uint32_t.to_json v) = .ok v := by
  simp only [uint32_t, Nat.mod_eq_of_lt hv]

theorem int32_t_decode_encode (v : Int) (hlo : -2 ^ 31 ≤ v) (hhi : v < 2 ^ 31) :
    int32_t.from_json (int32_t.to_json v) = .ok v := by
  have h : (v + 2 ^ 31) % 2 ^ 32 - 2 ^ 31 = v := by omega
  simp only [int32_t, h]

/-- C30: for every message whose request document (resp. response document) is `null` or
an object, every field name, and every value `v` of type `uint32_t` (`v < 2^32`),
`int32_t` (`-2^31 <= v < 2^31`), `bool` or `std::string`, `setMessageParam(name, v)`
returns 0 and the following `getMessageParam<T>(name, dest)` returns 0 with `dest = v`,
whatever `dest` held and whether or not the field is optional; likewise
`setResponseParam` followed by `getResponseParam`. -/
theorem set_then_get_round_trip (m : StMessage) (name : String) (optional : Bool) :
    ((m.mMsgJson.is_null = true ∨ m.mMsgJson.is_object = true) →
      (∀ v dest : Nat, v < 2 ^ 32 →
        (StMessage.setMessageParam uint32_t m name v 0).2 = 0 ∧
        (StMessage.getMessageParam uint32_t (StMessage.setMessageParam uint32_t m name v 0).1
          name dest optional 0).2 = (v, 0)) ∧
      (∀ v dest : Int, -2 ^ 31 ≤ v → v < 2 ^ 31 →
        (StMessage.setMessageParam int32_t m name v 0).2 = 0 ∧
        (StMessage.getMessageParam int32_t (StMessage.setMessageParam int32_t m name v 0).1
          name dest optional 0).2 = (v, 0)) ∧
      (∀ v dest : Bool,
        (StMessage.setMessageParam bool_t m name v 0).2 = 0 ∧
        (StMessage.getMessageParam bool_t (StMessage.setMessageParam bool_t m name v 0).1
          name dest optional 0).2 = (v, 0)) ∧
      (∀ v dest : String,
        (StMessage.setMessageParam string_t m name v 0).2 = 0 ∧
        (StMessage.getMessageParam string_t (StMessage.setMessageParam string_t m name v 0).1
          name dest optional 0).2 = (v, 0))) ∧
    ((m.mRespJson.is_null = true ∨ m.mRespJson.is_object = true) →
      (∀ v dest : Nat, v < 2 ^ 32 →
        (StMessage.setResponseParam uint32_t m name v 0).2 = 0 ∧
        (StMessage.getResponseParam uint32_t (StMessage.setResponseParam uint32_t m name v 0).1
          name dest optional 0).2 = (v, 0)) ∧
      (∀ v dest : Int, -2 ^ 31 ≤ v → v < 2 ^ 31 →
        (StMessage.setResponseParam int32_t m name v 0).2 = 0 ∧
        (StMessage.getResponseParam int32_t (StMessage.setResponseParam int32_t m name v 0).1
          name dest optional 0).2 = (v, 0)) ∧
      (∀ v dest : Bool,
        (StMessage.setResponseParam bool_t m name v 0).2 = 0 ∧
        (StMessage.getResponseParam bool_t (StMessage.setResponseParam bool_t m name v 0).1
          name dest optional 0).2 = (v, 0)) ∧
      (∀ v dest : String,
        (StMessage.setResponseParam string_t m name v 0).2 = 0 ∧
        (StMessage.getResponseParam string_t (StMessage.setResponseParam string_t m name v 0).1
          name dest optional 0).2 = (v, 0))) := by
  refine ⟨fun hdoc => ⟨?_, ?_, ?_, ?_⟩, fun hdoc => ⟨?_, ?_, ?_, ?_⟩⟩
  · intro v dest hv
    exact setMessageParam_then_get uint32_t m name v dest optional hdoc
      (uint32_t_decode_encode v hv)
  · intro v dest hlo hhi
    exact setMessageParam_then_get int32_t m name v dest optional hdoc
      (int32_t_decode_encode v hlo hhi)
  · intro v dest
    exact setMessageParam_then_get bool_t m name v dest optional hdoc rfl
  · intro v dest
    exact setMessageParam_then_get string_t m name v dest optional hdoc rfl
  · intro v dest hv
    exact setResponseParam_then_get uint32_t m name v dest optional hdoc
      (uint32_t_decode_encode v hv)
  · intro v dest hlo hhi
    exact setResponseParam_then_get int32_t m name v dest optional hdoc
      (int32_t_decode_encode v hlo hhi)
  · intro v dest
    exact setResponseParam_then_get bool_t m name v dest optional hdoc rfl
  · intro v dest
    exact setResponseParam_then_get string_t m name v dest optional hdoc rfl

/-- Witness of C30: on the sample exchange, whose two documents are objects, the largest
`uint32_t` is written to and read back from the request side and the least `int32_t` from
the response side. -/
theorem set_then_get_round_trip_witness :
    sampleMessage.mMsgJson.is_object = true ∧ sampleMessage.mRespJson.is_object = true ∧
    (4294967295 : Nat) < 2 ^ 32 ∧ (-2 ^ 31 : Int) ≤ -2147483648 ∧
    (-2147483648 : Int) < 2 ^ 31 ∧
    ((StMessage.setMessageParam uint32_t sampleMessage "ParamIndex" 4294967295 0).2 = 0 ∧
      (StMessage.getMessageParam uint32_t
        (StMessage.setMessageParam uint32_t sampleMessage "ParamIndex" 4294967295 0).1
        "ParamIndex" 5 false 0).2 = (4294967295, 0)) ∧
    ((StMessage.setResponseParam int32_t sampleMessage "ParamValue" (-2147483648) 0).2 = 0 ∧
      (StMessage.getResponseParam int32_t
        (StMessage.setResponseParam int32_t sampleMessage "ParamValue" (-2147483648) 0).1
        "ParamValue" 5 false 0).2 = (-2147483648, 0)) :=
  ⟨rfl, rfl, by decide, by decide, by decide,
    ((set_then_get_round_trip sampleMessage "ParamIndex" false).1 (Or.inr rfl)).1
      4294967295 5 (by decide),
    ((set_then_get_round_trip sampleMessage "ParamValue" false).2 (Or.inr rfl)).2.1
      (-2147483648) 5 (by decide) (by decide)⟩

/-! ## Parameter reads of the client interface -/

theorem getResponseParam_required {T : Type} (ty : JsonType T) (m : StMessage) (name : String)
    (value : T) (rtnIn : Int) :
    (StMessage.getResponseParam ty m name value false rtnIn).1 = m ∧
    ((StMessage.getResponseParam ty m name value false rtnIn).2.2 = 0 →
      ∃ j, m.mRespJson.find name = some j ∧
        ty.from_json j
          = .ok (StMessage.getResponseParam ty m name value false rtnIn).2.1) := by
  unfold StMessage.getResponseParam
  by_cases h0 : (0 : Int) ≠ rtnIn
  · rw [if_pos h0]
    exact ⟨rfl, fun h => absurd h.symm h0⟩
  · rw [if_neg h0]
    cases hf : m.mRespJson.find name with
    | none =>
      simp [ST_ERR_MSG_NOT_FOUND, ST_ERR_BASE]
    | some j =>
      simp only [Json.atKey_of_find _ _ _ hf]
      cases hd : ty.from_json j with
      | error e => simp [ST_ERR_MSG_FORMAT, ST_ERR_BASE]
      | ok v => simp [hd]

/-- C23: whatever the undefined member functions `isServerConnected`, `initMessage` and
`sendMessage` do, `getParam` returns the caller's `value` as it was whenever the returned
code is not 0, and when the returned code is `ST_ERR_OK` the response document of the
current message has a `ParamValue` field and the returned `value` is its decoding as `T`.
When the server is not connected the call returns `ST_ERR_SVR_NOT_OPEN`, which is not 0,
and changes nothing. -/
theorem getParam_assigns_only_on_ok {T : Type} (calls : ClientCalls) (ty : JsonType T)
    (c : StClientInterface) (id : String) (value val0 : T) (index padIndex : Nat) :
    ((StClientInterface.getParam calls ty c id value val0 index padIndex).2.2 ≠ 0 →
      (StClientInterface.getParam calls ty c id value val0 index padIndex).2.1 = value) ∧
    ((StClientInterface.getParam calls ty c id value val0 index padIndex).2.2 = ST_ERR_OK →
      ∃ j,
        (StClientInterface.getParam calls ty c id value val0 index padIndex).1.mCurMessage.mRespJson.find
          ST_STR_PARAM_VALUE = some j ∧
        ty.from_json j
          = .ok (StClientInterface.getParam calls ty c id value val0 index padIndex).2.1) ∧
    (calls.isServerConnected c "getParam" = false →
      StClientInterface.getParam calls ty c id value val0 index padIndex
        = (c, value, ST_ERR_SVR_NOT_OPEN)) ∧
    ST_ERR_SVR_NOT_OPEN ≠ 0 := by
  have hopen : ST_ERR_SVR_NOT_OPEN ≠ 0 := by decide
  by_cases hconn : calls.isServerConnected c "getParam" = true
  · simp only [StClientInterface.getParam, hconn, Bool.not_true, Bool.false_eq_true, if_false]
    generalize calls.sendMessage _ _ _ = s
    obtain ⟨hm, hok⟩ :=
      getResponseParam_required ty s.1.mCurMessage ST_STR_PARAM_VALUE val0 s.2
    generalize StMessage.getResponseParam ty s.1.mCurMessage ST_STR_PARAM_VALUE val0 false s.2
      = r at hm hok ⊢
    by_cases hr : ST_ERR_OK = r.2.2
    · rw [if_pos hr]
      refine ⟨fun hne => absurd hr.symm hne, fun _ => ?_, ?_, hopen⟩
      · obtain ⟨j, hf, hd⟩ := hok hr.symm
        exact ⟨j, by simpa [hm] using hf, hd⟩
      · intro hf
        simp [hconn] at hf
    · rw [if_neg hr]
      refine ⟨fun _ => rfl, fun h => absurd h.symm hr, ?_, hopen⟩
      intro hf
      simp [hconn] at hf
  · have hfalse : calls.isServerConnected c "getParam" = false := by
      simpa using hconn
    have hres : StClientInterface.getParam calls ty c id value val0 index padIndex
        = (c, value, ST_ERR_SVR_NOT_OPEN) := by
      simp [StClientInterface.getParam, hfalse]
    rw [hres]
    exact ⟨fun _ => rfl, fun h => absurd h hopen, fun _ => rfl, hopen⟩

/-- Witness of C23: the connected sample client reads `Exposure` into a `uint32_t` that
holds 7.  A server answering with the string `"x"` as `ParamValue` gives a non-zero code
and leaves 7; a server answering 42 gives `ST_ERR_OK` and the value decoded from the
response. -/
theorem getParam_assigns_only_on_ok_witness :
    (StClientInterface.getParam (sampleCalls (.object [("ParamValue", .string "x")]))
      uint32_t sampleClient "Exposure" 7 0 0 0).2.2 ≠ 0 ∧
    (StClientInterface.getParam (sampleCalls (.object [("ParamValue", .string "x")]))
      uint32_t sampleClient "Exposure" 7 0 0 0).2.1 = 7 ∧
    (StClientInterface.getParam (sampleCalls (.object [("ParamValue", .number_unsigned 42)]))
      uint32_t sampleClient "Exposure" 7 0 0 0).2 = (42, ST_ERR_OK) ∧
    (∃ j,
      (StClientInterface.getParam (sampleCalls (.object [("ParamValue", .number_unsigned 42)]))
        uint32_t sampleClient "Exposure" 7 0 0 0).1.mCurMessage.mRespJson.find
          ST_STR_PARAM_VALUE = some j ∧
      uint32_t.from_json j
        = .ok (StClientInterface.getParam
            (sampleCalls (.object [("ParamValue", .number_unsigned 42)]))
            uint32_t sampleClient "Exposure" 7 0 0 0).2.1) :=
  ⟨by decide,
    (getParam_assigns_only_on_ok (sampleCalls (.object [("ParamValue", .string "x")]))
      uint32_t sampleClient "Exposure" 7 0 0 0).1 (by decide),
    by decide,
    (getParam_assigns_only_on_ok (sampleCalls (.object [("ParamValue", .number_unsigned 42)]))
      uint32_t sampleClient "Exposure" 7 0 0 0).2.1 (by decide)⟩

/-- C24, on inputs that break it: the connected sample client reads the array `Exposure`
into a vector that holds `[1, 2]`.  When the server answers with the number 5 as
`ParamArray`, `getParamArray` returns `ST_ERR_NOT_ARRAY` and the caller's vector is empty;
when it answers with `[1, "x"]` the call returns `ST_ERR_MSG_FORMAT` and the vector is
`[1]`.  Both codes are non-zero.  `getResponseParamArray` is handed the caller's vector
and clears it before it looks at the field.  When the field is missing the vector is
kept. -/
theorem getParamArray_modifies_values_on_error :
    (StClientInterface.getParamArray (sampleCalls (.object [("ParamArray", .number_unsigned 5)]))
      uint32_t sampleClient "Exposure" [1, 2] 0 2 0).2 = ([], ST_ERR_NOT_ARRAY) ∧
    (StClientInterface.getParamArray
      (sampleCalls (.object [("ParamArray", .array [.number_unsigned 1, .string "x"])]))
      uint32_t sampleClient "Exposure" [1, 2] 0 2 0).2 = ([1], ST_ERR_MSG_FORMAT) ∧
    (StClientInterface.getParamArray (sampleCalls (.object []))
      uint32_t sampleClient "Exposure" [1, 2] 0 2 0).2 = ([1, 2], ST_ERR_MSG_NOT_FOUND) ∧
    ST_ERR_NOT_ARRAY ≠ 0 ∧ ST_ERR_MSG_FORMAT ≠ 0 ∧ ST_ERR_MSG_NOT_FOUND ≠ 0 := by
  decide

/-! ## Array references in parameter ids -/

theorem cutAt_absent (c : Char) (l : List Char) (h : c ∉ l) : cutAt c l = (l, none) := by
  induction l with
  | nil => rfl
  | cons x xs ih =>
    have hx : x ≠ c := fun e => h (by simp [e])
    have hxs : c ∉ xs := fun e => h (List.mem_cons_of_mem _ e)
    simp [cutAt, hx, ih hxs]

theorem cutAt_append (c : Char) (l r : List Char) (h : c ∉ l) :
    cutAt c (l ++ c :: r) = (l, some r) := by
  induction l with
  | nil => simp [cutAt]
  | cons x xs ih =>
    have hx : x ≠ c := fun e => h (by simp [e])
    have hxs : c ∉ xs := fun e => h (List.mem_cons_of_mem _ e)
    simp [cutAt, hx, ih hxs]

theorem digitChar_spec :
    ∀ d, d < 10 → (digitChar d).isDigit = true ∧ (digitChar d).toNat - 48 = d := by
  decide

theorem isDigit_not_punctuation (c : Char) (h : c.isDigit = true) :
    c ≠ '[' ∧ c ≠ ']' ∧ c ≠ ',' := by
  refine ⟨?_, ?_, ?_⟩ <;> rintro rfl <;> exact absurd h (by decide)

theorem decimalAux_value (fuel : Nat) :
    ∀ (n : Nat) (acc : List Char), n < fuel →
      (decimalAux fuel n acc).foldl (fun n c => 10 * n + (c.toNat - 48)) 0
        = acc.foldl (fun n c => 10 * n + (c.toNat - 48)) n := by
  induction fuel with
  | zero => intro n acc h; omega
  | succ fuel ih =>
    intro n acc h
    have hd := (digitChar_spec (n % 10) (Nat.mod_lt _ (by decide))).2
    unfold decimalAux
    split_ifs with h0
    · have hn : n % 10 = n := by omega
      simp only [List.foldl_cons, hd, Nat.mul_zero, Nat.zero_add]
      rw [hn]
    · rw [ih (n / 10) _ (by omega)]
      have hn : 10 * (n / 10) + n % 10 = n := by omega
      simp only [List.foldl_cons, hd, hn]

theorem decimalAux_isDigit (fuel : Nat) :
    ∀ (n : Nat) (acc : List Char), (∀ c ∈ acc, c.isDigit = true) →
      ∀ c ∈ decimalAux fuel n acc, c.isDigit = true := by
  induction fuel with
  | zero => intro n acc h; exact h
  | succ fuel ih =>
    intro n acc h
    have hd := (digitChar_spec (n % 10) (Nat.mod_lt _ (by decide))).1
    have hacc : ∀ c ∈ digitChar (n % 10) :: acc, c.isDigit = true := by
      intro c hc
      rcases List.mem_cons.mp hc with rfl | hc
      · exact hd
      · exact h c hc
    unfold decimalAux
    split_ifs with h0
    · exact hacc
    · exact ih _ _ hacc

theorem decimalAux_ne_nil (fuel : Nat) :
    ∀ (n : Nat) (acc : List Char), acc ≠ [] → decimalAux fuel n acc ≠ [] := by
  induction fuel with
  | zero => intro n acc h; exact h
  | succ fuel ih =>
    intro n acc _
    unfold decimalAux
    split_ifs with h0
    · exact List.cons_ne_nil _ _
    · exact ih _ _ (List.cons_ne_nil _ _)

theorem decimal_isDigit (n : Nat) : ∀ c ∈ (decimal n).data, c.isDigit = true :=
  decimalAux_isDigit (n + 1) n [] (by simp)

theorem decimal_ne_nil (n : Nat) : (decimal n).data ≠ [] := by
  show decimalAux (n + 1) n [] ≠ []
  unfold decimalAux
  split_ifs with h0
  · exact List.cons_ne_nil _ _
  · exact decimalAux_ne_nil _ _ _ (List.cons_ne_nil _ _)

theorem parseIndex_decimal (n : Nat) (hn : n < 2 ^ 32) :
    parseIndex (decimal n).data = some n := by
  have hval : digitsValue (decimal n).data = n := by
    have h := decimalAux_value (n + 1) n [] (by omega)
    simpa [digitsValue, decimal] using h
  have hall : (decimal n).data.all Char.isDigit = true :=
    List.all_eq_true.mpr (decimal_isDigit n)
  have hne : (decimal n).data.isEmpty = false := by
    cases hd : (decimal n).data with
    | nil => exact absurd hd (decimal_ne_nil n)
    | cons x xs => rfl
  have hn' : n < 4294967296 := by omega
  simp [parseIndex, hval, hall, hne, hn']

theorem parseIndex_not_numeric (cs : List Char)
    (h : cs = [] ∨ ∃ c ∈ cs, c.isDigit = false) : parseIndex cs = none := by
  rcases h with h | ⟨c, hc, hd⟩
  · subst h
    rfl
  · have hall : cs.all Char.isDigit = false := by
      rw [List.all_eq_false]
      exact ⟨c, hc, by simp [hd]⟩
    simp [parseIndex, hall]

theorem splitArrayIndex_no_bracket (base : List Char)
    (hopen : '[' ∉ base) (hclose : ']' ∉ base) :
    StParameter.splitArrayIndex (String.mk base) = .ok (0, String.mk base, 0, 0) := by
  simp [StParameter.splitArrayIndex, cutAt_absent _ _ hopen, hclose]

theorem splitArrayIndex_unterminated (base inner : List Char)
    (hopen : '[' ∉ base) (hin : ']' ∉ inner) :
    StParameter.splitArrayIndex (String.mk (base ++ '[' :: inner))
      = .error ST_ERR_INDEX := by
  simp [StParameter.splitArrayIndex, cutAt_append _ _ _ hopen, cutAt_absent _ _ hin]

theorem splitArrayIndex_trailing (base inner trailing : List Char)
    (hopen : '[' ∉ base) (hin : ']' ∉ inner) (ht : trailing ≠ []) :
    StParameter.splitArrayIndex (String.mk (base ++ '[' :: (inner ++ ']' :: trailing)))
      = .error ST_ERR_INDEX := by
  simp [StParameter.splitArrayIndex, cutAt_append _ _ _ hopen, cutAt_append _ _ _ hin, ht]

theorem splitArrayIndex_one (base inner : List Char)
    (hopen : '[' ∉ base) (hin : ']' ∉ inner) (hcomma : ',' ∉ inner) :
    StParameter.splitArrayIndex (String.mk (base ++ '[' :: (inner ++ [']'])))
      = match parseIndex inner with
        | some n => .ok (1, String.mk base, n, 0)
        | none => .error ST_ERR_INDEX := by
  simp [StParameter.splitArrayIndex, cutAt_append _ _ _ hopen, cutAt_append _ _ _ hin,
    cutAt_absent _ _ hcomma]

theorem splitArrayIndex_two (base a b : List Char)
    (hopen : '[' ∉ base) (ha : ']' ∉ a) (hcomma : ',' ∉ a) (hb : ']' ∉ b) :
    StParameter.splitArrayIndex (String.mk (base ++ '[' :: (a ++ ',' :: (b ++ [']']))))
      = match parseIndex a, parseIndex b with
        | some n, some k => .ok (2, String.mk base, n, k)
        | _, _ => .error ST_ERR_INDEX := by
  have hab : ']' ∉ a ++ ',' :: b := by
    simp [ha, hb]
  have e : a ++ ',' :: (b ++ [']']) = (a ++ ',' :: b) ++ [']'] := by simp
  have hc : cutAt ']' (a ++ ',' :: (b ++ [']'])) = (a ++ ',' :: b, some []) := by
    rw [e]
    exact cutAt_append _ _ _ hab
  simp [StParameter.splitArrayIndex, cutAt_append _ _ _ hopen, hc, cutAt_append _ _ _ hcomma]

/-- C27 (on the model written from the spec): for every base id without brackets and all
indices `i`, `j` that a `uint32_t` holds, `splitArrayIndex` returns dimension 0 with
`(base, 0, 0)` for the base id alone, dimension 1 with `(base, i, 0)` for `base[i]` and
dimension 2 with `(base, i, j)` for `base[i,j]`, the indices written as decimal numerals;
`Base[3,1]` gives `("Base", 3, 1)`.  A bracket that is not closed (`Base[3` among them),
an index that is not numeric, that is, one that is empty or has a character that is not a
digit (`Base[]`, `Base[3,]`, `Base[,1]`, `Base[x]` among them), and characters behind the
closing bracket (`Base[3]x`) give the error code `ST_ERR_INDEX`, which is negative, and no
default index. -/
theorem splitArrayIndex_parses (base : String) (i j : Nat)
    (hopen : '[' ∉ base.data) (hclose : ']' ∉ base.data)
    (hi : i < 2 ^ 32) (hj : j < 2 ^ 32) :
    StParameter.splitArrayIndex base = .ok (0, base, 0, 0) ∧
    StParameter.splitArrayIndex (base ++ "[" ++ decimal i ++ "]") = .ok (1, base, i, 0) ∧
    StParameter.splitArrayIndex (base ++ "[" ++ decimal i ++ "," ++ decimal j ++ "]")
      = .ok (2, base, i, j) ∧
    StParameter.splitArrayIndex "Base" = .ok (0, "Base", 0, 0) ∧
    StParameter.splitArrayIndex "Base[3,1]" = .ok (2, "Base", 3, 1) ∧
    ST_ERR_INDEX < 0 ∧
    StParameter.splitArrayIndex "Base[3" = .error ST_ERR_INDEX ∧
    StParameter.splitArrayIndex "Base[]" = .error ST_ERR_INDEX ∧
    StParameter.splitArrayIndex "Base[3,]" = .error ST_ERR_INDEX ∧
    StParameter.splitArrayIndex "Base[,1]" = .error ST_ERR_INDEX ∧
    StParameter.splitArrayIndex "Base[x]" = .error ST_ERR_INDEX ∧
    StParameter.splitArrayIndex "Base[3]x" = .error ST_ERR_INDEX ∧
    (∀ inner : String, ']' ∉ inner.data →
      StParameter.splitArrayIndex (base ++ "[" ++ inner) = .error ST_ERR_INDEX) ∧
    (∀ inner : String, ']' ∉ inner.data → ',' ∉ inner.data →
      (inner.data = [] ∨ ∃ c ∈ inner.data, c.isDigit = false) →
      StParameter.splitArrayIndex (base ++ "[" ++ inner ++ "]") = .error ST_ERR_INDEX) ∧
    (∀ a b : String, ']' ∉ a.data → ',' ∉ a.data → ']' ∉ b.data →
      ((a.data = [] ∨ ∃ c ∈ a.data, c.isDigit = false) ∨
        (b.data = [] ∨ ∃ c ∈ b.data, c.isDigit = false)) →
      StParameter.splitArrayIndex (base ++ "[" ++ a ++ "," ++ b ++ "]")
        = .error ST_ERR_INDEX) ∧
    (∀ inner trailing : String, ']' ∉ inner.data → trailing ≠ "" →
      StParameter.splitArrayIndex (base ++ "[" ++ inner ++ "]" ++ trailing)
        = .error ST_ERR_INDEX) := by
  have hdi := decimal_isDigit i
  have hdj := decimal_isDigit j
  have hi1 : ']' ∉ (decimal i).data := fun h => (isDigit_not_punctuation _ (hdi _ h)).2.1 rfl
  have hi2 : ',' ∉ (decimal i).data := fun h => (isDigit_not_punctuation _ (hdi _ h)).2.2 rfl
  have hj1 : ']' ∉ (decimal j).data := fun h => (isDigit_not_punctuation _ (hdj _ h)).2.1 rfl
  have e1 : ∀ x : String, base ++ "[" ++ x ++ "]"
      = String.mk (base.data ++ '[' :: (x.data ++ [']'])) := by
    intro x
    apply String.ext
    simp [String.data_append]
  have e2 : ∀ x y : String, base ++ "[" ++ x ++ "," ++ y ++ "]"
      = String.mk (base.data ++ '[' :: (x.data ++ ',' :: (y.data ++ [']']))) := by
    intro x y
    apply String.ext
    simp [String.data_append]
  have e3 : ∀ x : String, base ++ "[" ++ x = String.mk (base.data ++ '[' :: x.data) := by
    intro x
    apply String.ext
    simp [String.data_append]
  have e4 : ∀ x y : String, base ++ "[" ++ x ++ "]" ++ y
      = String.mk (base.data ++ '[' :: (x.data ++ ']' :: y.data)) := by
    intro x y
    apply String.ext
    simp [String.data_append]
  refine ⟨splitArrayIndex_no_bracket base.data hopen hclose, ?_, ?_, rfl, rfl, by decide,
    rfl, rfl, rfl, rfl, rfl, rfl, ?_, ?_, ?_, ?_⟩
  · rw [e1, splitArrayIndex_one _ _ hopen hi1 hi2, parseIndex_decimal i hi]
  · rw [e2, splitArrayIndex_two _ _ _ hopen hi1 hi2 hj1, parseIndex_decimal i hi,
      parseIndex_decimal j hj]
  · intro inner hin
    rw [e3, splitArrayIndex_unterminated _ _ hopen hin]
  · intro inner hin hcomma hnum
    rw [e1, splitArrayIndex_one _ _ hopen hin hcomma, parseIndex_not_numeric _ hnum]
  · intro a b ha hcomma hb hnum
    rw [e2, splitArrayIndex_two _ _ _ hopen ha hcomma hb]
    rcases hnum with h | h
    · rw [parseIndex_not_numeric _ h]
    · rw [parseIndex_not_numeric _ h]
      cases parseIndex a.data <;> rfl
  · intro inner trailing hin ht
    have ht' : trailing.data ≠ [] := fun h => ht (String.ext h)
    rw [e4, splitArrayIndex_trailing _ _ _ hopen hin ht']

/-- Witness of C27: the base id `Base` with the indices 3 and 1, an empty index and an
index with a letter. -/
theorem splitArrayIndex_parses_witness :
    '[' ∉ "Base".data ∧ ']' ∉ "Base".data ∧
    (3 : Nat) < 2 ^ 32 ∧ (1 : Nat) < 2 ^ 32 ∧
    "Base" ++ "[" ++ decimal 3 ++ "]" = "Base[3]" ∧
    "Base" ++ "[" ++ decimal 3 ++ "," ++ decimal 1 ++ "]" = "Base[3,1]" ∧
    StParameter.splitArrayIndex "Base" = .ok (0, "Base", 0, 0) ∧
    StParameter.splitArrayIndex ("Base" ++ "[" ++ decimal 3 ++ "]") = .ok (1, "Base", 3, 0) ∧
    StParameter.splitArrayIndex ("Base" ++ "[" ++ decimal 3 ++ "," ++ decimal 1 ++ "]")
      = .ok (2, "Base", 3, 1) ∧
    StParameter.splitArrayIndex ("Base" ++ "[" ++ "" ++ "]") = .error ST_ERR_INDEX ∧
    StParameter.splitArrayIndex ("Base" ++ "[" ++ "3" ++ "," ++ "x1" ++ "]")
      = .error ST_ERR_INDEX :=
  ⟨by decide, by decide, by decide, by decide, by decide, by decide,
    (splitArrayIndex_parses "Base" 3 1 (by decide) (by decide) (by decide) (by decide)).1,
    (splitArrayIndex_parses "Base" 3 1 (by decide) (by decide) (by decide)
      (by decide)).2.1,
    (splitArrayIndex_parses "Base" 3 1 (by decide) (by decide) (by decide)
      (by decide)).2.2.1,
    (splitArrayIndex_parses "Base" 3 1 (by decide) (by decide) (by decide)
      (by decide)).2.2.2.2.2.2.2.2.2.2.2.2.2.1 "" (by decide) (by decide) (Or.inl rfl),
    (splitArrayIndex_parses "Base" 3 1 (by decide) (by decide) (by decide)
      (by decide)).2.2.2.2.2.2.2.2.2.2.2.2.2.2.1 "3" "x1" (by decide) (by decide)
      (by decide) (Or.inr (Or.inr ⟨'x', by decide, by decide⟩))⟩

/-! ## The wire format of a frame -/

theorem leBytes_length (n : Nat) : ∀ v, (leBytes n v).length = n := by
  induction n with
  | zero => intro v; rfl
  | succ n ih => intro v; simp [leBytes, ih]

theorem leValue_leBytes (n : Nat) : ∀ v, v < 256 ^ n → leValue (leBytes n v) = v := by
  induction n with
  | zero =>
    intro v hv
    simp at hv
    simp [leBytes, leValue, hv]
  | succ n ih =>
    intro v hv
    have hdiv : v / 256 < 256 ^ n := by
      rw [Nat.div_lt_iff_lt_mul (by decide)]
      rwa [pow_succ] at hv
    simp only [leBytes, leValue, ih _ hdiv]
    omega

theorem readFields_writeFields (ws vs : List Nat) (rest : List Nat)
    (h : List.Forall₂ (fun w v => v < 256 ^ w) ws vs) :
    readFields ws (writeFields ws vs ++ rest) = vs := by
  induction h with
  | nil => rfl
  | cons hwv _ ih =>
    simp only [writeFields, readFields, List.append_assoc]
    rw [List.take_left' (leBytes_length _ _), List.drop_left' (leBytes_length _ _),
      leValue_leBytes _ _ hwv, ih]

theorem writeFields_length (ws vs : List Nat) (h : ws.length = vs.length) :
    (writeFields ws vs).length = ws.sum := by
  induction ws generalizing vs with
  | nil => cases vs <;> simp [writeFields]
  | cons w ws ih =>
    cases vs with
    | nil => simp at h
    | cons v vs =>
      simp only [List.length_cons, Nat.add_right_cancel_iff] at h
      simp [writeFields, leBytes_length, ih vs h]

theorem StFrameHeader.fieldWidths_eq :
    StFrameHeader.fieldWidths
      = [2, 2, 2, 2, 4, 4, 4, 2, 2, 1, 1, 6, 4, 4, 4, 4, 8, 4, 4, 8, 4, 4, 4, 4, 1, 159, 8] := by
  decide

theorem sizeof_StFrameHeader_value : sizeof_StFrameHeader = 256 := by
  decide

theorem StFrameHeader.toBytes_length (h : StFrameHeader) : h.toBytes.length = 256 := by
  unfold StFrameHeader.toBytes
  rw [writeFields_length _ _ (by rw [StFrameHeader.fieldWidths_eq]; rfl),
    StFrameHeader.fieldWidths_eq]
  rfl

theorem StFrameHeader.fromBytes_toBytes (h : StFrameHeader) (hv : h.valid) (rest : List Nat) :
    StFrameHeader.fromBytes (h.toBytes ++ rest) = some h := by
  have hlen : ¬ (h.toBytes ++ rest).length < sizeof_StFrameHeader := by
    rw [List.length_append, StFrameHeader.toBytes_length, sizeof_StFrameHeader_value]
    omega
  have hall : List.Forall₂ (fun w v => v < 256 ^ w) StFrameHeader.fieldWidths
      h.fieldValues := by
    rw [StFrameHeader.fieldWidths_eq]
    obtain ⟨h1, h2, h3, h4, h5, h6, h7, h8, h9, h10, h11, h12, h13, h14, h15, h16, h17, h18,
      h19, h20, h21, h22, h23, h24, h25⟩ := hv
    unfold StFrameHeader.fieldValues
    simp only [List.forall₂_cons]
    refine ⟨?_, ?_, ?_, ?_, ?_, ?_, ?_, ?_, ?_, ?_, ?_, ?_, ?_, ?_, ?_, ?_, ?_, ?_, ?_, ?_,
      ?_, ?_, ?_, ?_, ?_, ?_, ?_, List.Forall₂.nil⟩
    all_goals omega
  unfold StFrameHeader.fromBytes
  rw [if_neg hlen]
  unfold StFrameHeader.toBytes
  rw [readFields_writeFields _ _ _ hall]
  rfl

theorem StFrameBuffer.wireBytes_length (f : StFrameBuffer)
    (hlen : f.mBuffer.length + sizeof_StFrameHeader = f.mHeader.frameBytes) :
    f.wireBytes.length = f.getFrameBytes := by
  rw [sizeof_StFrameHeader_value] at hlen
  simp only [StFrameBuffer.wireBytes, StFrameBuffer.getFrameBytes, List.length_append,
    StFrameHeader.toBytes_length]
  omega

theorem StFrameBuffer.serializeTo_fits (f : StFrameBuffer) (dest : List Nat)
    (maxBytes : Nat)
    (hlen : f.mBuffer.length + sizeof_StFrameHeader = f.mHeader.frameBytes)
    (hmax : f.getFrameBytes ≤ maxBytes) :
    f.serializeTo dest maxBytes
      = (f.mHeader.toBytes ++ (f.mBuffer ++ dest.drop f.getFrameBytes), 0) := by
  have h1 : ¬ maxBytes < f.getFrameBytes := by omega
  have h2 := StFrameBuffer.wireBytes_length f hlen
  unfold StFrameBuffer.serializeTo
  rw [if_neg h1, List.take_of_length_le (by omega)]
  simp [StFrameBuffer.wireBytes, ST_ERR_OK]

theorem StFrameBuffer.deserializeFrom_wire (f g : StFrameBuffer)
    (rest : List Nat) (srcBytes : Nat) (hv : f.mHeader.valid)
    (hlen : f.mBuffer.length + sizeof_StFrameHeader = f.mHeader.frameBytes)
    (hsrc : f.getFrameBytes ≤ srcBytes) :
    g.deserializeFrom (f.mHeader.toBytes ++ (f.mBuffer ++ rest)) srcBytes = (f, 0) := by
  have h0 : ¬ srcBytes < sizeof_StFrameHeader := by
    unfold StFrameBuffer.getFrameBytes at hsrc
    omega
  have h1 : ¬ srcBytes < f.mHeader.frameBytes := by
    unfold StFrameBuffer.getFrameBytes at hsrc
    omega
  have h2 : f.mHeader.frameBytes - sizeof_StFrameHeader = f.mBuffer.length := by omega
  unfold StFrameBuffer.deserializeFrom
  rw [if_neg h0, StFrameHeader.fromBytes_toBytes _ hv]
  simp only [if_neg h1, h2]
  rw [List.drop_left' (by rw [StFrameHeader.toBytes_length, sizeof_StFrameHeader_value]),
    List.take_left' rfl]
  rfl

/-- C28 (on the model written from the spec): let `f` be a frame buffer whose header
fields fit their types and whose buffer holds the `frameBytes` bytes behind the header.
`serializeTo` into a destination of at least `getFrameBytes()` bytes returns 0 and puts
the wire bytes of `f` there; `deserializeFrom` of that memory into any frame buffer `g`,
with at least `getFrameBytes()` source bytes, returns 0 and makes the object equal to `f`:
the header bytes are the same, and so are the image, telemetry, data 1, data 2, data 3
and footer sections and every other byte range of the section buffer.  For every object
and every source whose header declares more than `srcBytes` bytes, `deserializeFrom`
returns `ST_ERR_FRAME_SIZE`, which is negative, and the object is unchanged. -/
theorem serialize_deserialize_round_trip (f g : StFrameBuffer) (dest : List Nat)
    (maxBytes srcBytes : Nat) (hv : f.mHeader.valid)
    (hlen : f.mBuffer.length + sizeof_StFrameHeader = f.mHeader.frameBytes)
    (hmax : f.getFrameBytes ≤ maxBytes) (hsrc : f.getFrameBytes ≤ srcBytes) :
    (f.serializeTo dest maxBytes).2 = 0 ∧
    (f.serializeTo dest maxBytes).1.take f.getFrameBytes = f.wireBytes ∧
    g.deserializeFrom (f.serializeTo dest maxBytes).1 srcBytes = (f, 0) ∧
    (g.deserializeFrom (f.serializeTo dest maxBytes).1 srcBytes).1.mHeader.toBytes
      = f.mHeader.toBytes ∧
    (g.deserializeFrom (f.serializeTo dest maxBytes).1 srcBytes).1.getImage
      = f.getImage ∧
    (g.deserializeFrom (f.serializeTo dest maxBytes).1 srcBytes).1.getTelemetry
      = f.getTelemetry ∧
    (g.deserializeFrom (f.serializeTo dest maxBytes).1 srcBytes).1.getData1
      = f.getData1 ∧
    (g.deserializeFrom (f.serializeTo dest maxBytes).1 srcBytes).1.getData2
      = f.getData2 ∧
    (g.deserializeFrom (f.serializeTo dest maxBytes).1 srcBytes).1.getData3
      = f.getData3 ∧
    (g.deserializeFrom (f.serializeTo dest maxBytes).1 srcBytes).1.getFooter
      = f.getFooter ∧
    (∀ offset length,
      (g.deserializeFrom (f.serializeTo dest maxBytes).1 srcBytes).1.slice offset length
        = f.slice offset length) ∧
    ST_ERR_FRAME_SIZE < 0 ∧
    (∀ (r : StFrameBuffer) (src : List Nat) (n : Nat) (h : StFrameHeader),
      StFrameHeader.fromBytes src = some h → n < h.frameBytes →
      r.deserializeFrom src n = (r, ST_ERR_FRAME_SIZE)) := by
  have hser := StFrameBuffer.serializeTo_fits f dest maxBytes hlen hmax
  have hdes := StFrameBuffer.deserializeFrom_wire f g (dest.drop f.getFrameBytes)
    srcBytes hv hlen hsrc
  have hwire := StFrameBuffer.wireBytes_length f hlen
  rw [hser]
  refine ⟨rfl, ?_, hdes, by rw [hdes], by rw [hdes], by rw [hdes], by rw [hdes],
    by rw [hdes], by rw [hdes], by rw [hdes], fun offset length => by rw [hdes],
    by decide, ?_⟩
  · show (f.mHeader.toBytes ++ (f.mBuffer ++ dest.drop f.getFrameBytes)).take f.getFrameBytes
      = f.wireBytes
    rw [← List.append_assoc]
    exact List.take_left' hwire
  · intro r src n h hh hn
    unfold StFrameBuffer.deserializeFrom
    split_ifs with h0
    · rfl
    · simp only [hh, if_pos hn]

set_option maxRecDepth 100000 in
/-- Witness of C28: the loaded frame of 284 bytes, whose six sections are all in use, is
written to a destination of 300 bytes and read back into a minimal frame, which then has
the same header and the same six sections; a source length of 283 is refused with
`ST_ERR_FRAME_SIZE` and leaves the receiving frame as it was. -/
theorem serialize_deserialize_round_trip_witness :
    loadedFrame.mHeader.valid ∧
    loadedFrame.mBuffer.length + sizeof_StFrameHeader = loadedFrame.mHeader.frameBytes ∧
    loadedFrame.getFrameBytes = 284 ∧
    loadedFrame.getFrameBytes ≤ 300 ∧ loadedFrame.getFrameBytes ≤ 284 ∧
    (loadedFrame.getImage = [11, 12, 13, 14] ∧ loadedFrame.getTelemetry = [21, 22, 23, 24] ∧
      loadedFrame.getData1 = [31, 32, 33, 34] ∧ loadedFrame.getData2 = [41, 42, 43, 44] ∧
      loadedFrame.getData3 = [51, 52, 53, 54] ∧
      loadedFrame.getFooter = [61, 62, 63, 64, 65, 66, 67, 68]) ∧
    (loadedFrame.serializeTo (List.replicate 300 0) 300).2 = 0 ∧
    emptyFrame.deserializeFrom (loadedFrame.serializeTo (List.replicate 300 0) 300).1 284
      = (loadedFrame, 0) ∧
    (emptyFrame.deserializeFrom
      (loadedFrame.serializeTo (List.replicate 300 0) 300).1 284).1.getImage
      = loadedFrame.getImage ∧
    (emptyFrame.deserializeFrom
      (loadedFrame.serializeTo (List.replicate 300 0) 300).1 284).1.getTelemetry
      = loadedFrame.getTelemetry ∧
    (emptyFrame.deserializeFrom
      (loadedFrame.serializeTo (List.replicate 300 0) 300).1 284).1.getFooter
      = loadedFrame.getFooter ∧
    emptyFrame.deserializeFrom loadedFrame.wireBytes 283 = (emptyFrame, ST_ERR_FRAME_SIZE) :=
  ⟨by decide, by decide, by decide, by decide, by decide, by decide,
    (serialize_deserialize_round_trip loadedFrame emptyFrame (List.replicate 300 0) 300 284
      (by decide) (by decide) (by decide) (by decide)).1,
    (serialize_deserialize_round_trip loadedFrame emptyFrame (List.replicate 300 0) 300 284
      (by decide) (by decide) (by decide) (by decide)).2.2.1,
    (serialize_deserialize_round_trip loadedFrame emptyFrame (List.replicate 300 0) 300 284
      (by decide) (by decide) (by decide) (by decide)).2.2.2.2.1,
    (serialize_deserialize_round_trip loadedFrame emptyFrame (List.replicate 300 0) 300 284
      (by decide) (by decide) (by decide) (by decide)).2.2.2.2.2.1,
    (serialize_deserialize_round_trip loadedFrame emptyFrame (List.replicate 300 0) 300 284
      (by decide) (by decide) (by decide) (by decide)).2.2.2.2.2.2.2.2.2.1,
    by decide⟩

/-! ## Reading the double buffer -/

/-- C38: for every state of a `DoubleBuf`, a second `get` that follows a `get` with no call
in between returns the value the first returned and leaves the buffer as the first left
it; `get` and `getOutputPtr` leave the same state and `get` copies the slot whose index
`getOutputPtr` returns; and right after either call that slot is not the slot that the
next `set` writes to nor the one `getLockedInputPtr` returns. -/
theorem doubleBuf_get_does_not_consume {T : Type} (b : DoubleBuf T) :
    b.get.1.get.2 = b.get.2 ∧
    b.get.1.get.1 = b.get.1 ∧
    b.getOutputPtr.1 = b.get.1 ∧
    b.get.2 = b.get.1.slot b.getOutputPtr.2 ∧
    b.getOutputPtr.1.getOutputPtr.2 = b.getOutputPtr.2 ∧
    b.getOutputPtr.2 ≠ b.get.1.setIndex ∧
    b.getOutputPtr.2 ≠ b.get.1.getLockedInputPtr ∧
    b.getOutputPtr.2 ≠ b.getOutputPtr.1.setIndex ∧
    b.getOutputPtr.2 ≠ b.getOutputPtr.1.getLockedInputPtr ∧
    (∀ src, (b.get.1.set src).slot b.getOutputPtr.2 = b.get.2) := by
  obtain ⟨⟨d0, d1⟩, in0, swap⟩ := b
  cases in0 <;> cases swap <;>
    simp [DoubleBuf.get, DoubleBuf.getOutputPtr, DoubleBuf.slot, DoubleBuf.setIndex,
      DoubleBuf.getLockedInputPtr, DoubleBuf.set, DoubleBuf.setLocked]

/-! ## Native error codes -/

theorem isNativeErrorCode_implies_isErrorCode_above_end (code : Int)
    (hne : code ≠ ST_ERR_END) (hnative : isNativeErrorCode code = true) :
    isErrorCode code = true := by
  simp only [isNativeErrorCode, isErrorCode, ST_ERR_BASE, ST_ERR_END, ST_ERR_SYSTEM,
    Bool.and_eq_true, Bool.or_eq_true, decide_eq_true_eq] at *
  omega

/-- C36, on an input that breaks it: the code `ST_ERR_END = -19999` is below `ST_ERR_BASE`
and not below `ST_ERR_END`, so `isNativeErrorCode` holds for it, while `isErrorCode` asks
for `code > ST_ERR_END` (or a converted system error) and does not hold. -/
theorem native_error_end_is_not_error_code :
    ST_ERR_BASE = -10000 ∧ ST_ERR_END = -19999 ∧
    isNativeErrorCode (-19999) = true ∧ isErrorCode (-19999) = false ∧
    isStatusCode (-19999) = false := by
  decide

/-! ## Array parameters of the response -/

/-- C32: for every message, field name, caller's vector and value of `optional`: when the
response document has the field and its value is not an array, `getResponseParamArray`
with `rtnIn = 0` returns `ST_ERR_NOT_ARRAY`, which is `-10224` and is not the format error
`ST_ERR_MSG_FORMAT`; the caller's vector is empty afterwards and the message is
unchanged. -/
theorem getResponseParamArray_not_array {T : Type} (ty : JsonType T) (m : StMessage)
    (name : String) (values : List T) (optional : Bool) (j : Json)
    (hfind : m.mRespJson.find name = some j) (hnot : j.is_array = false) :
    StMessage.getResponseParamArray ty m name values optional 0 = (m, [], ST_ERR_NOT_ARRAY) ∧
    ST_ERR_NOT_ARRAY = -10224 ∧ ST_ERR_NOT_ARRAY ≠ ST_ERR_MSG_FORMAT := by
  refine ⟨?_, by decide, by decide⟩
  have hat := Json.atKey_of_find _ _ _ hfind
  cases j <;> simp_all [StMessage.getResponseParamArray, Json.is_array]

/-- Witness of C32: the response of the sample exchange has the field `ParamValue`; it is
read as an array of `uint32_t` into a vector that holds `[1, 2]`. -/
theorem getResponseParamArray_not_array_witness :
    (∃ j, sampleMessage.mRespJson.find "ParamValue" = some j ∧ j.is_array = false) ∧
    StMessage.getResponseParamArray uint32_t sampleMessage "ParamValue" [1, 2] true 0
      = (sampleMessage, [], ST_ERR_NOT_ARRAY) :=
  ⟨⟨_, rfl, rfl⟩,
    (getResponseParamArray_not_array uint32_t sampleMessage "ParamValue" [1, 2] true _
      rfl rfl).1⟩

theorem Json.assignKey_is_object (j j' : Json) (key : String) (v : Json)
    (h : j.assignKey key v = .ok j') : j'.is_object = true := by
  cases j <;> simp [Json.assignKey] at h <;> subst h <;> rfl

/-- Outside the invariant of the response document: when the document is the JSON array
`[1]`, `setResponseParamArray` returns `ST_ERR_PARAM` and changes nothing, and the
following `getResponseParamArray` returns `ST_ERR_MSG_NOT_FOUND` and keeps `out`. -/
theorem setResponseParamArray_fails_on_array_document :
    StMessage.setResponseParamArray uint32_t arrayReplyMessage "ParamArray" [1, 2] 0
      = (arrayReplyMessage, ST_ERR_PARAM) ∧
    ST_ERR_PARAM ≠ 0 ∧
    StMessage.getResponseParamArray uint32_t
      (StMessage.setResponseParamArray uint32_t arrayReplyMessage "ParamArray" [1, 2] 0).1
      "ParamArray" [7] false 0 = (arrayReplyMessage, [7], ST_ERR_MSG_NOT_FOUND) ∧
    ST_ERR_MSG_NOT_FOUND ≠ 0 := by
  refine ⟨rfl, by decide, rfl, by decide⟩

theorem response_document_stays_tree {T : Type} (ty : JsonType T) (m : StMessage)
    (name : String) (value : T) (values : List T) (rtnIn : Int)
    (hdoc : m.mRespJson.is_null = true ∨ m.mRespJson.is_object = true) :
    ((StMessage.setResponseParam ty m name value rtnIn).1.mRespJson.is_null = true ∨
      (StMessage.setResponseParam ty m name value rtnIn).1.mRespJson.is_object = true) ∧
    ((StMessage.setResponseParamArray ty m name values rtnIn).1.mRespJson.is_null = true ∨
      (StMessage.setResponseParamArray ty m name values rtnIn).1.mRespJson.is_object
        = true) ∧
    (StMessage.setMessageParam ty m name value rtnIn).1.mRespJson = m.mRespJson := by
  refine ⟨?_, ?_, ?_⟩
  · unfold StMessage.setResponseParam
    split_ifs
    · exact hdoc
    · cases h : m.mRespJson.assignKey name (ty.to_json value) with
      | error e => exact hdoc
      | ok j => exact Or.inr (Json.assignKey_is_object m.mRespJson j _ _ h)
  · unfold StMessage.setResponseParamArray
    split_ifs
    · exact hdoc
    · cases h0 : m.mRespJson.assignKey name (Json.array []) with
      | error e => exact hdoc
      | ok j0 =>
        dsimp only
        cases h1 : j0.assignKey name
            (Json.array (StMessage.fillArray ty values 0 [])) with
        | error e => exact Or.inr (Json.assignKey_is_object m.mRespJson j0 _ _ h0)
        | ok j => exact Or.inr (Json.assignKey_is_object j0 j _ _ h1)
  · unfold StMessage.setMessageParam
    split_ifs
    · rfl
    · cases h : m.mMsgJson.assignKey name (ty.to_json value) <;> rfl

theorem computeRoundUp_frameBytes_post (h : StFrameHeader) :
    h.computeRoundUp.frameBytes
      = roundUp 32
          ((ST_FRAME_HEADER_BYTES + h.computeRoundUp.imageBytes +
              h.computeRoundUp.telemetryBytes + h.computeRoundUp.data1Bytes +
              h.computeRoundUp.data2Bytes + h.computeRoundUp.data3Bytes +
              ST_FRAME_FOOTER_BYTES) % 2 ^ 32)
          ((h.computeRoundUp.imageWidth * h.computeRoundUp.pixelBytes) % 2 ^ 32) :=
  rfl

theorem roundUp_32_bounds (s l : Nat) (hpos : 0 < s) (hfit : s + max 1 l ≤ 2 ^ 32) :
    s ≤ roundUp 32 (s % 2 ^ 32) (l % 2 ^ 32) ∧
    roundUp 32 (s % 2 ^ 32) (l % 2 ^ 32) < s + max 1 l := by
  have hs : s < 2 ^ 32 := by omega
  have hl : l < 2 ^ 32 := by omega
  rw [Nat.mod_eq_of_lt hs, Nat.mod_eq_of_lt hl]
  by_cases h1 : l ≤ 1
  · have hr : roundUp 32 s l = s := by
      unfold roundUp
      rw [if_pos h1]
    rw [hr]
    omega
  · have hl1 : 1 < l := by omega
    rw [roundUp_32_eq s l hl1 (by omega)]
    have h2 := Nat.div_add_mod (s + l - 1) l
    have h3 := Nat.mod_lt (s + l - 1) (show l > 0 by omega)
    rw [Nat.mul_comm] at h2
    omega

/-- Counterexample to C33: the edge header is a valid header, all of whose sizes stay below
`2^32`: after `computeRoundUp` its sections are 12 and 4294967016 bytes long, their sum
with header and footer is `4294967292 = 2^32 - 4`, a multiple of the scanline of 6 bytes.
`roundUp` adds `6 - 1` on `unsigned int`, which wraps to 1, so `frameBytes` is 0 and the
sections do not fit inside the declared frame. -/
theorem computeRoundUp_rounding_wraps :
    edgeHeader.valid ∧
    edgeHeader.computeRoundUp.imageBytes = 12 ∧
    edgeHeader.computeRoundUp.telemetryBytes = 4294967016 ∧
    edgeHeader.computeRoundUp.imageWidth * edgeHeader.computeRoundUp.pixelBytes = 6 ∧
    256 + edgeHeader.computeRoundUp.imageBytes + edgeHeader.computeRoundUp.telemetryBytes +
      edgeHeader.computeRoundUp.data1Bytes + edgeHeader.computeRoundUp.data2Bytes +
      edgeHeader.computeRoundUp.data3Bytes + 8 = 4294967292 ∧
    (4294967292 : Nat) < 2 ^ 32 ∧ 6 ∣ (4294967292 : Nat) ∧
    edgeHeader.computeRoundUp.frameBytes = 0 := by
  decide

/-- C33 as amended: for every header state for which the section sum and the rounding to a
scanline stay within 32 bits (the sum of the resulting lengths plus one scanline, or plus
1 when the scanline is empty, is at most `2^32`), after `computeRoundUp` the frame length
`frameBytes` is at least `256 + imageBytes + telemetryBytes + data1Bytes + data2Bytes +
data3Bytes + 8`, and exceeds that sum by less than `max(1, imageWidth * pixelBytes)`. -/
theorem computeRoundUp_frame_holds_sections (h : StFrameHeader)
    (hfit : 256 + h.computeRoundUp.imageBytes + h.computeRoundUp.telemetryBytes +
        h.computeRoundUp.data1Bytes + h.computeRoundUp.data2Bytes +
        h.computeRoundUp.data3Bytes + 8 +
        max 1 (h.computeRoundUp.imageWidth * h.computeRoundUp.pixelBytes) ≤ 2 ^ 32) :
    256 + h.computeRoundUp.imageBytes + h.computeRoundUp.telemetryBytes +
        h.computeRoundUp.data1Bytes + h.computeRoundUp.data2Bytes +
        h.computeRoundUp.data3Bytes + 8 ≤ h.computeRoundUp.frameBytes ∧
    h.computeRoundUp.frameBytes -
        (256 + h.computeRoundUp.imageBytes + h.computeRoundUp.telemetryBytes +
          h.computeRoundUp.data1Bytes + h.computeRoundUp.data2Bytes +
          h.computeRoundUp.data3Bytes + 8)
      < max 1 (h.computeRoundUp.imageWidth * h.computeRoundUp.pixelBytes) := by
  have hF := computeRoundUp_frameBytes_post h
  have hb := roundUp_32_bounds
    (256 + h.computeRoundUp.imageBytes + h.computeRoundUp.telemetryBytes +
      h.computeRoundUp.data1Bytes + h.computeRoundUp.data2Bytes +
      h.computeRoundUp.data3Bytes + 8)
    (h.computeRoundUp.imageWidth * h.computeRoundUp.pixelBytes) (by omega) hfit
  have hF' : h.computeRoundUp.frameBytes
      = roundUp 32
          ((256 + h.computeRoundUp.imageBytes + h.computeRoundUp.telemetryBytes +
              h.computeRoundUp.data1Bytes + h.computeRoundUp.data2Bytes +
              h.computeRoundUp.data3Bytes + 8) % 2 ^ 32)
          ((h.computeRoundUp.imageWidth * h.computeRoundUp.pixelBytes) % 2 ^ 32) := hF
  rw [← hF'] at hb
  omega

/-- Witness of C33 as amended: the sample header gets sections of 524288, 8, 4, 12 and 0 bytes and a
scanline of 1024 bytes; its frame length of 525312 bytes exceeds the sum 524576 by 736. -/
theorem computeRoundUp_frame_holds_sections_witness :
    256 + sampleHeader.computeRoundUp.imageBytes + sampleHeader.computeRoundUp.telemetryBytes +
        sampleHeader.computeRoundUp.data1Bytes + sampleHeader.computeRoundUp.data2Bytes +
        sampleHeader.computeRoundUp.data3Bytes + 8 = 524576 ∧
    sampleHeader.computeRoundUp.imageWidth * sampleHeader.computeRoundUp.pixelBytes = 1024 ∧
    sampleHeader.computeRoundUp.frameBytes = 525312 ∧
    (256 + sampleHeader.computeRoundUp.imageBytes + sampleHeader.computeRoundUp.telemetryBytes +
        sampleHeader.computeRoundUp.data1Bytes + sampleHeader.computeRoundUp.data2Bytes +
        sampleHeader.computeRoundUp.data3Bytes + 8 ≤ sampleHeader.computeRoundUp.frameBytes ∧
      sampleHeader.computeRoundUp.frameBytes -
          (256 + sampleHeader.computeRoundUp.imageBytes +
            sampleHeader.computeRoundUp.telemetryBytes +
            sampleHeader.computeRoundUp.data1Bytes + sampleHeader.computeRoundUp.data2Bytes +
            sampleHeader.computeRoundUp.data3Bytes + 8)
        < max 1 (sampleHeader.computeRoundUp.imageWidth *
            sampleHeader.computeRoundUp.pixelBytes)) :=
  ⟨by decide, by decide, by decide,
    computeRoundUp_frame_holds_sections sampleHeader (by decide)⟩

/-! ## The image section after rounding -/

theorem roundUp_16_two_eq (v : Nat) (hv : v < 65535) : roundUp 16 v 2 = (v + 1) / 2 * 2 := by
  have hX : ((v + 2) % 2 ^ 32 + 2 ^ 32 - 1) % 2 ^ 32 = v + 1 := by omega
  unfold roundUp
  rw [if_neg (by decide), hX]
  omega

theorem roundUp_16_two_isLeast (v : Nat) (hv : v < 65535) :
    IsLeast {x | 2 ∣ x ∧ v ≤ x} (roundUp 16 v 2) := by
  rw [roundUp_16_two_eq v hv]
  refine ⟨⟨Nat.dvd_mul_left 2 _, by omega⟩, ?_⟩
  rintro x ⟨hx2, hvx⟩
  omega

theorem computeRoundUp_image_post (h : StFrameHeader) :
    h.computeRoundUp.imageWidth = roundUp 16 h.imageWidth 2 ∧
    h.computeRoundUp.imageHeight = roundUp 16 h.imageHeight 2 ∧
    h.computeRoundUp.pixelBytes = h.pixelBytes ∧
    h.computeRoundUp.imageBytes
      = roundUp 32
          ((h.computeRoundUp.imageWidth * h.computeRoundUp.imageHeight *
            h.computeRoundUp.pixelBytes) % 2 ^ 32) 4 :=
  ⟨rfl, rfl, rfl, rfl⟩

theorem computeRoundUp_ignores_imageBytes (h : StFrameHeader) (b : Nat) :
    ({ h with imageBytes := b } : StFrameHeader).computeRoundUp = h.computeRoundUp :=
  rfl

/-- Counterexample to C34: the wide header is a valid header with an image width of
65535; `roundUp<uint16_t>(65535, 2)` computes 65536 on `unsigned int` and the cast back to
`uint16_t` gives 0, so after `computeRoundUp` the width is 0, which is below the previous
width and not that width rounded up to even; the image section is 0 bytes long. -/
theorem computeRoundUp_width_wraps :
    wideHeader.valid ∧ wideHeader.imageWidth = 65535 ∧
    wideHeader.computeRoundUp.imageWidth = 0 ∧
    ¬ (wideHeader.imageWidth ≤ wideHeader.computeRoundUp.imageWidth) ∧
    wideHeader.computeRoundUp.imageHeight = 2 ∧
    wideHeader.computeRoundUp.imageBytes = 0 ∧
    wideHeader.computeRoundUp.frameBytes = 264 := by
  decide

/-- C34 as amended: for every header state with image width and height below 65535 whose
image length fits a signed 32-bit integer, after `computeRoundUp` the width and the height
are the least even numbers not below the previous values, the pixel size is kept, and
`imageBytes` is the least multiple of 4 not below
`imageWidth * imageHeight * pixelBytes`; and, for every header state, the result does not
depend on the `imageBytes` stored before the call. -/
theorem computeRoundUp_image_from_geometry (h : StFrameHeader) :
    (h.imageWidth < 65535 → h.imageHeight < 65535 →
      h.computeRoundUp.imageWidth * h.computeRoundUp.imageHeight * h.computeRoundUp.pixelBytes
        + 3 < 2 ^ 31 →
      IsLeast {x | 2 ∣ x ∧ h.imageWidth ≤ x} h.computeRoundUp.imageWidth ∧
      IsLeast {x | 2 ∣ x ∧ h.imageHeight ≤ x} h.computeRoundUp.imageHeight ∧
      h.computeRoundUp.pixelBytes = h.pixelBytes ∧
      IsLeast
        {x | 4 ∣ x ∧
          h.computeRoundUp.imageWidth * h.computeRoundUp.imageHeight *
            h.computeRoundUp.pixelBytes ≤ x}
        h.computeRoundUp.imageBytes) ∧
    (∀ b : Nat,
      ({ h with imageBytes := b } : StFrameHeader).computeRoundUp = h.computeRoundUp) := by
  refine ⟨fun hw hh hprod => ?_, computeRoundUp_ignores_imageBytes h⟩
  obtain ⟨hW, hH, hP, hI⟩ := computeRoundUp_image_post h
  refine ⟨?_, ?_, hP, ?_⟩
  · rw [hW]
    exact roundUp_16_two_isLeast _ hw
  · rw [hH]
    exact roundUp_16_two_isLeast _ hh
  · rw [hI, Nat.mod_eq_of_lt (by omega)]
    exact roundUp_32_four_isLeast _ (by omega)

/-- Witness of C34 as amended: the sample header, 511 x 511 two-byte pixels, gets a
512 x 512 image of 524288 bytes, also when it recorded an image length of 1000000 bytes
before. -/
theorem computeRoundUp_image_from_geometry_witness :
    sampleHeader.imageWidth < 65535 ∧ sampleHeader.imageHeight < 65535 ∧
    sampleHeader.computeRoundUp.imageWidth * sampleHeader.computeRoundUp.imageHeight *
      sampleHeader.computeRoundUp.pixelBytes + 3 < 2 ^ 31 ∧
    sampleHeader.computeRoundUp.imageWidth = 512 ∧
    sampleHeader.computeRoundUp.imageHeight = 512 ∧
    sampleHeader.computeRoundUp.imageBytes = 524288 ∧
    IsLeast {x | 2 ∣ x ∧ sampleHeader.imageWidth ≤ x} sampleHeader.computeRoundUp.imageWidth ∧
    ({ sampleHeader with imageBytes := 1000000 } : StFrameHeader).computeRoundUp
      = sampleHeader.computeRoundUp :=
  ⟨by decide, by decide, by decide, by decide, by decide, by decide,
    ((computeRoundUp_image_from_geometry sampleHeader).1 (by decide) (by decide)
      (by decide)).1,
    (computeRoundUp_image_from_geometry sampleHeader).2 1000000⟩

/-! ## Headers without a scanline -/

theorem roundUp_multiple_zero (bitsT v : Nat) : roundUp bitsT v 0 = v := by
  unfold roundUp
  rw [if_pos (by decide)]

/-- Counterexample to C35: the huge header is a valid header without image (width and
pixel size 0) whose telemetry and first data section have `2^31` bytes each, both
multiples of 4.  After `computeRoundUp` the scanline is 0 and the two lengths are kept,
but the `uint32_t` sum wraps: `frameBytes` is 264, not
`256 + 2^31 + 2^31 + 0 + 0 + 8 = 4294967560`. -/
theorem computeRoundUp_total_wraps :
    hugeHeader.valid ∧
    hugeHeader.computeRoundUp.imageWidth * hugeHeader.computeRoundUp.pixelBytes = 0 ∧
    hugeHeader.computeRoundUp.imageBytes = 0 ∧
    hugeHeader.computeRoundUp.telemetryBytes = 2147483648 ∧
    hugeHeader.computeRoundUp.data1Bytes = 2147483648 ∧
    256 + hugeHeader.computeRoundUp.telemetryBytes + hugeHeader.computeRoundUp.data1Bytes +
      hugeHeader.computeRoundUp.data2Bytes + hugeHeader.computeRoundUp.data3Bytes + 8
      = 4294967560 ∧
    hugeHeader.computeRoundUp.frameBytes = 264 := by
  decide

/-- C35 as amended: for every header state whose resulting scanline length
`imageWidth * pixelBytes` is 0, `computeRoundUp` sets `imageBytes` to 0 and sets
`frameBytes` to `256 + telemetryBytes + data1Bytes + data2Bytes + data3Bytes + 8` reduced
modulo `2^32`, which is that sum itself whenever the sum is below `2^32`; the rounding to
a scanline returns its argument for the multiple 0 without dividing.  A scanline that is 0
before the call is 0 after it, and the default-constructed header keeps
`frameBytes = 264`. -/
theorem computeRoundUp_without_scanline (h : StFrameHeader) :
    (h.computeRoundUp.imageWidth * h.computeRoundUp.pixelBytes = 0 →
      h.computeRoundUp.imageBytes = 0 ∧
      h.computeRoundUp.frameBytes
        = (256 + h.computeRoundUp.telemetryBytes + h.computeRoundUp.data1Bytes +
            h.computeRoundUp.data2Bytes + h.computeRoundUp.data3Bytes + 8) % 2 ^ 32 ∧
      (256 + h.computeRoundUp.telemetryBytes + h.computeRoundUp.data1Bytes +
          h.computeRoundUp.data2Bytes + h.computeRoundUp.data3Bytes + 8 < 2 ^ 32 →
        h.computeRoundUp.frameBytes
          = 256 + h.computeRoundUp.telemetryBytes + h.computeRoundUp.data1Bytes +
            h.computeRoundUp.data2Bytes + h.computeRoundUp.data3Bytes + 8)) ∧
    (h.imageWidth * h.pixelBytes = 0 →
      h.computeRoundUp.imageWidth * h.computeRoundUp.pixelBytes = 0) ∧
    (∀ bitsT v, roundUp bitsT v 0 = v) ∧
    StFrameHeader.init.computeRoundUp.frameBytes = 264 := by
  obtain ⟨hW, _, hP, hI⟩ := computeRoundUp_image_post h
  have hF := computeRoundUp_frameBytes_post h
  refine ⟨fun hline => ?_, fun hline => ?_, roundUp_multiple_zero, by decide⟩
  · have hI0 : h.computeRoundUp.imageBytes = 0 := by
      have hprod : h.computeRoundUp.imageWidth * h.computeRoundUp.imageHeight *
          h.computeRoundUp.pixelBytes = 0 := by
        rcases Nat.mul_eq_zero.mp hline with h0 | h0
        · rw [h0]; simp
        · rw [h0]; simp
      rw [hI, hprod]
      decide
    have hF' : h.computeRoundUp.frameBytes
        = (256 + h.computeRoundUp.telemetryBytes + h.computeRoundUp.data1Bytes +
            h.computeRoundUp.data2Bytes + h.computeRoundUp.data3Bytes + 8) % 2 ^ 32 := by
      rw [hF, hline, hI0]
      simp only [Nat.zero_mod, roundUp_multiple_zero, ST_FRAME_HEADER_BYTES,
        ST_FRAME_FOOTER_BYTES, Nat.add_zero]
    exact ⟨hI0, hF', fun hlt => by rw [hF', Nat.mod_eq_of_lt hlt]⟩
  · rw [hW, hP]
    rcases Nat.mul_eq_zero.mp hline with h0 | h0
    · have hz : roundUp 16 0 2 = 0 := by decide
      rw [h0, hz, Nat.zero_mul]
    · rw [h0, Nat.mul_zero]

/-- Witness of C35 as amended: the default-constructed header has no scanline and a
section sum of 264 bytes. -/
theorem computeRoundUp_without_scanline_witness :
    StFrameHeader.init.computeRoundUp.imageWidth * StFrameHeader.init.computeRoundUp.pixelBytes
      = 0 ∧
    256 + StFrameHeader.init.computeRoundUp.telemetryBytes +
      StFrameHeader.init.computeRoundUp.data1Bytes +
      StFrameHeader.init.computeRoundUp.data2Bytes +
      StFrameHeader.init.computeRoundUp.data3Bytes + 8 < 2 ^ 32 ∧
    StFrameHeader.init.computeRoundUp.imageBytes = 0 ∧
    StFrameHeader.init.computeRoundUp.frameBytes
      = 256 + StFrameHeader.init.computeRoundUp.telemetryBytes +
        StFrameHeader.init.computeRoundUp.data1Bytes +
        StFrameHeader.init.computeRoundUp.data2Bytes +
        StFrameHeader.init.computeRoundUp.data3Bytes + 8 :=
  ⟨by decide, by decide,
    ((computeRoundUp_without_scanline StFrameHeader.init).1 (by decide)).1,
    ((computeRoundUp_without_scanline StFrameHeader.init).1 (by decide)).2.2 (by decide)⟩

/-! ## 32-bit integers in the cache -/

theorem Double.normalize_spec (fuel : Nat) :
    ∀ m ex, 0 < m → m < 2 ^ 53 → 2 ^ 52 ≤ 2 ^ fuel * m → fuel ≤ ex →
      2 ^ 52 ≤ (Double.normalize fuel m ex).1 ∧ (Double.normalize fuel m ex).1 < 2 ^ 53 ∧
      (Double.normalize fuel m ex).2 ≤ ex ∧ ex ≤ (Double.normalize fuel m ex).2 + fuel ∧
      (Double.normalize fuel m ex).1 = m * 2 ^ (ex - (Double.normalize fuel m ex).2) := by
  induction fuel with
  | zero =>
    intro m ex _ hm h52 _
    simp only [Double.normalize]
    simp at h52
    refine ⟨h52, hm, le_refl _, by omega, by simp⟩
  | succ fuel ih =>
    intro m ex hpos hm h52 hex
    unfold Double.normalize
    split_ifs with hbig
    · refine ⟨hbig, hm, le_refl _, by omega, by simp⟩
    · have h52' : 2 ^ 52 ≤ 2 ^ fuel * (2 * m) := by
        rw [pow_succ] at h52
        calc 2 ^ 52 ≤ 2 ^ fuel * 2 * m := h52
          _ = 2 ^ fuel * (2 * m) := by ring
      obtain ⟨h1, h2, h3, h4, h5⟩ := ih (2 * m) (ex - 1) (by omega) (by omega) h52' (by omega)
      refine ⟨h1, h2, by omega, by omega, ?_⟩
      rw [h5]
      have he : ex - (Double.normalize fuel (2 * m) (ex - 1)).2
          = (ex - 1 - (Double.normalize fuel (2 * m) (ex - 1)).2) + 1 := by omega
      rw [he, pow_succ]
      ring

theorem Double.ofNat_fields (n : Nat) (hpos : 0 < n) (hn : n < 2 ^ 53) :
    (Double.ofNat n).bits < 2 ^ 63 ∧
    (Double.ofNat n).truncMagnitude = some n := by
  obtain ⟨h1, h2, h3, h4, h5⟩ := Double.normalize_spec 53 n 1075 hpos hn
    (by
      calc 2 ^ 52 ≤ 2 ^ 53 * 1 := by norm_num
        _ ≤ 2 ^ 53 * n := Nat.mul_le_mul_left _ hpos) (by norm_num)
  have hbits : (Double.ofNat n).bits
      = (Double.normalize 53 n 1075).2 * 2 ^ 52 + ((Double.normalize 53 n 1075).1 - 2 ^ 52) := by
    simp [Double.ofNat, Nat.pos_iff_ne_zero.mp hpos]
  generalize (Double.normalize 53 n 1075).1 = M at *
  generalize (Double.normalize 53 n 1075).2 = E at *
  have hexp : (Double.ofNat n).exponent = E := by
    unfold Double.exponent
    rw [hbits]
    omega
  have hfrac : (Double.ofNat n).fraction = M - 2 ^ 52 := by
    unfold Double.fraction
    rw [hbits]
    omega
  refine ⟨by rw [hbits]; omega, ?_⟩
  unfold Double.truncMagnitude
  rw [hexp, hfrac, if_neg (by omega), if_neg (by omega)]
  have hM : 2 ^ 52 + (M - 2 ^ 52) = M := by omega
  rw [hM, h5]
  split_ifs with hE
  · have : 1075 - E = 0 := by omega
    have h' : E - 1075 = 0 := by omega
    simp [this, h']
  · rw [Nat.mul_div_cancel _ (by positivity)]

theorem Double.toUInt32_ofNat (n : Nat) (hn : n < 2 ^ 32) : (Double.ofNat n).toUInt32 = n := by
  rcases Nat.eq_zero_or_pos n with h0 | hpos
  · subst h0
    decide
  · obtain ⟨hb, ht⟩ := Double.ofNat_fields n hpos (by omega)
    have hs : (Double.ofNat n).sign = 0 := by
      unfold Double.sign
      omega
    have hn' : n < 4294967296 := by omega
    simp [Double.toUInt32, ht, hs, Nat.pos_iff_ne_zero.mp hpos, hn']

theorem Double.truncMagnitude_neg (d : Double) (hb : d.bits < 2 ^ 63) :
    (Double.mk (2 ^ 63 + d.bits)).truncMagnitude = d.truncMagnitude ∧
    (Double.mk (2 ^ 63 + d.bits)).sign = 1 := by
  have he : (Double.mk (2 ^ 63 + d.bits)).exponent = d.exponent := by
    simp only [Double.exponent]
    omega
  have hf : (Double.mk (2 ^ 63 + d.bits)).fraction = d.fraction := by
    simp only [Double.fraction]
    omega
  refine ⟨?_, ?_⟩
  · simp only [Double.truncMagnitude, he, hf]
  · simp only [Double.sign]
    omega

theorem Double.toInt32_ofInt (v : Int) (hlo : -2 ^ 31 ≤ v) (hhi : v < 2 ^ 31) :
    (Double.ofInt v).toInt32 = v := by
  by_cases hneg : v < 0
  · have hpos : 0 < v.natAbs := by omega
    obtain ⟨hb, ht⟩ := Double.ofNat_fields v.natAbs hpos (by omega)
    obtain ⟨ht', hs⟩ := Double.truncMagnitude_neg (Double.ofNat v.natAbs) hb
    have hle : v.natAbs ≤ 2147483648 := by omega
    have hv : |v| = -v := abs_of_neg hneg
    simp only [Double.ofInt, if_pos hneg, Double.toInt32, ht', ht, hs]
    simp [hle, hv]
  · have hv0 : 0 ≤ v := by omega
    rcases Nat.eq_zero_or_pos v.toNat with h0 | hpos
    · have hz : v = 0 := by omega
      subst hz
      decide
    · obtain ⟨hb, ht⟩ := Double.ofNat_fields v.toNat hpos (by omega)
      have hs : (Double.ofNat v.toNat).sign = 0 := by
        unfold Double.sign
        omega
      have hlt : v.toNat < 2147483648 := by omega
      have hv : ((v.toNat : Nat) : Int) = v := by omega
      simp only [Double.ofInt, if_neg hneg, Double.toInt32, ht, hs]
      simp [hlt, hv]

theorem setCachedValue_then_get {T : Type} (ty : DoubleCast T) (p : StParameter)
    (index pad pad' : Nat) (v out : T) (raw : Nat) (old : CachedValue_t)
    (hidx : index < p.mDimension) (hslot : p.mCachedValue[index]? = some old)
    (hrt : ty.fromDouble (ty.toDouble v) = v) :
    ∃ p', StParameter.setCachedValue ty p index pad v raw = some (p', 0) ∧
      StParameter.getCachedValue ty p' index pad' out = some (v, 0) := by
  have hlt : index < p.mCachedValue.length := by
    rcases Nat.lt_or_ge index p.mCachedValue.length with h | h
    · exact h
    · rw [List.getElem?_eq_none h] at hslot
      exact absurd hslot (by simp)
  have hset : StParameter.setCachedValue ty p index pad v raw =
      some ({ p with
              mCachedValue := p.mCachedValue.set index
                { value := ty.toDouble v, index := old.index, rawValue := raw,
                  isValid := true,
                  isModified :=
                    old.isModified ||
                      (old.isValid && Double.ne (ty.toDouble v) old.value) } },
            0) := by
    simp only [StParameter.setCachedValue, hslot, if_neg (Nat.not_le.mpr hidx)]
    cases hv : old.isValid <;> cases hn : Double.ne (ty.toDouble v) old.value <;>
      cases hm : old.isModified <;> simp [hv, hn, hm, ST_ERR_OK]
  refine ⟨_, hset, ?_⟩
  simp [StParameter.getCachedValue, Nat.not_le.mpr hidx, hlt, hrt, ST_ERR_OK]

/-- C37: for every parameter, every index below the dimension whose slot exists, every raw
value and all pad indices `pad` and `pad'`: for every `uint32_t` value `v` (below `2^32`)
`setCachedValue<uint32_t>(index, pad, v, raw)` returns 0 and the following
`getCachedValue<uint32_t>(index, pad', out)` returns 0 with `out = v`, whatever `out`
held; the same holds for every `int32_t` value (from `-2^31` to `2^31 - 1`); and the
results of both accessors are the same for any two pad indices. -/
theorem cachedValue_int32_round_trip (p : StParameter) (index pad pad' raw : Nat)
    (old : CachedValue_t) (hidx : index < p.mDimension)
    (hslot : p.mCachedValue[index]? = some old) :
    (∀ v out : Nat, v < 2 ^ 32 →
      ∃ p', StParameter.setCachedValue DoubleCast.uint32_t p index pad v raw = some (p', 0) ∧
        StParameter.getCachedValue DoubleCast.uint32_t p' index pad' out = some (v, 0)) ∧
    (∀ v out : Int, -2 ^ 31 ≤ v → v < 2 ^ 31 →
      ∃ p', StParameter.setCachedValue DoubleCast.int32_t p index pad v raw = some (p', 0) ∧
        StParameter.getCachedValue DoubleCast.int32_t p' index pad' out = some (v, 0)) ∧
    (∀ (v : Nat) (q : StParameter) (out : Nat),
      StParameter.setCachedValue DoubleCast.uint32_t q index pad v raw
        = StParameter.setCachedValue DoubleCast.uint32_t q index pad' v raw ∧
      StParameter.getCachedValue DoubleCast.uint32_t q index pad out
        = StParameter.getCachedValue DoubleCast.uint32_t q index pad' out) ∧
    (∀ (v : Int) (q : StParameter) (out : Int),
      StParameter.setCachedValue DoubleCast.int32_t q index pad v raw
        = StParameter.setCachedValue DoubleCast.int32_t q index pad' v raw ∧
      StParameter.getCachedValue DoubleCast.int32_t q index pad out
        = StParameter.getCachedValue DoubleCast.int32_t q index pad' out) := by
  refine ⟨?_, ?_, fun _ _ _ => ⟨rfl, rfl⟩, fun _ _ _ => ⟨rfl, rfl⟩⟩
  · intro v out hv
    exact setCachedValue_then_get DoubleCast.uint32_t p index pad pad' v out raw old hidx
      hslot (Double.toUInt32_ofNat v hv)
  · intro v out hlo hhi
    exact setCachedValue_then_get DoubleCast.int32_t p index pad pad' v out raw old hidx
      hslot (Double.toInt32_ofInt v hlo hhi)

/-- Witness of C37: the largest `uint32_t` and the least `int32_t` are written to slot 1 of
the sample parameter under pad index 0 and read back under pad index 5. -/
theorem cachedValue_int32_round_trip_witness :
    1 < sampleParameter.mDimension ∧
    sampleParameter.mCachedValue[1]? = some ⟨⟨0⟩, 1, 0, false, false⟩ ∧
    (4294967295 : Nat) < 2 ^ 32 ∧ (-2 ^ 31 : Int) ≤ -2147483648 ∧
    (-2147483648 : Int) < 2 ^ 31 ∧
    (∃ p', StParameter.setCachedValue DoubleCast.uint32_t sampleParameter 1 0 4294967295 9
        = some (p', 0) ∧
      StParameter.getCachedValue DoubleCast.uint32_t p' 1 5 0 = some (4294967295, 0)) ∧
    (∃ p', StParameter.setCachedValue DoubleCast.int32_t sampleParameter 1 0 (-2147483648) 9
        = some (p', 0) ∧
      StParameter.getCachedValue DoubleCast.int32_t p' 1 5 0 = some (-2147483648, 0)) :=
  ⟨by decide, by decide, by decide, by decide, by decide,
    (cachedValue_int32_round_trip sampleParameter 1 0 5 9 ⟨⟨0⟩, 1, 0, false, false⟩
      (by decide) (by decide)).1 4294967295 0 (by decide),
    (cachedValue_int32_round_trip sampleParameter 1 0 5 9 ⟨⟨0⟩, 1, 0, false, false⟩
      (by decide) (by decide)).2.1 (-2147483648) 0 (by decide) (by decide)⟩

/-! ## Raw and scaled values -/

end SydorMMPad
